import Mathlib

/-!
# d3dgl: command queue and texture/surface layer

A shallow embedding of `include/commandqueue.hpp` and `src/texture.cpp`.

* Machine integers are `Nat`/`Int` with explicit wrap-around (`ULONG`, `UINT` and
  `DWORD` are 32-bit unsigned, `LONG` is 32-bit signed).
* `sizeof` of the command classes depends on the target ABI; the sizes are collected
  in the record `Sizes`, and the three `static_assert`s of `sendAndUnlock` are the
  predicate `Sizes.WF`.
* A call that parks the calling thread (`SleepConditionVariableCS` in the queue, the
  `Sleep(1)` loop in `LockRect`) is an explicit outcome carrying the state in which the
  thread is parked.
-/

namespace D3DGL

/-! ## Machine integers -/

/-- Number of values of a 32-bit word (`ULONG`, `UINT`, `DWORD`). -/
def two32 : Nat := 4294967296

/-- Conversion of a mathematical integer to a 32-bit unsigned word. -/
def toUINT (x : Int) : Nat := (x % 4294967296).toNat

/-- Conversion of a mathematical integer to a 32-bit signed `LONG` (two's complement). -/
def toLONG (x : Int) : Int :=
  if x % 4294967296 < 2147483648 then x % 4294967296 else x % 4294967296 - 4294967296

/-- Subtraction of two `ULONG` values. -/
def ulongSub (a b : Nat) : Nat := (a % two32 + two32 - b % two32) % two32

/-- The value `std::numeric_limits<LONG>::max()`. -/
def LONG_MAX : Int := 2147483647

/-- The value `std::numeric_limits<LONG>::min()`. -/
def LONG_MIN : Int := -2147483648

/-! ## Geometry and pointers -/

/-- The Win32 `RECT`: four `LONG` fields. -/
structure RECT where
  left : Int
  top : Int
  right : Int
  bottom : Int
  deriving DecidableEq, Repr

/-- All four fields are representable as `LONG`. -/
def RECT.inRange (r : RECT) : Prop :=
  (LONG_MIN ≤ r.left ∧ r.left ≤ LONG_MAX) ∧ (LONG_MIN ≤ r.top ∧ r.top ≤ LONG_MAX) ∧
  (LONG_MIN ≤ r.right ∧ r.right ≤ LONG_MAX) ∧ (LONG_MIN ≤ r.bottom ∧ r.bottom ≤ LONG_MAX)

instance (r : RECT) : Decidable r.inRange := by
  unfold RECT.inRange; infer_instance

/-- The memory object a `GLubyte*` points into. -/
inductive MemBase where
  /-- the null pointer -/
  | null
  /-- the texture's persistent store (`mSysMem.data()`, or the mapped PBO) -/
  | userMem
  /-- a block obtained from `new GLubyte[...]`, identified by its allocation number -/
  | scratch (id : Nat)
  deriving DecidableEq, Repr

/-- A `GLubyte*`: base object plus byte offset. -/
structure GLptr where
  base : MemBase
  off : Nat
  deriving DecidableEq, Repr

/-- The value `nullptr`. -/
def GLptr.nullptr : GLptr := ⟨.null, 0⟩

/-- Pointer arithmetic `p + n`. -/
def GLptr.add (p : GLptr) (n : Nat) : GLptr := { p with off := p.off + n }

/-! ## Commands (`commandqueue.hpp`, `texture.cpp`) -/

/-- The command classes: the constructor arguments are the data members. -/
inductive Command where
  | NoOp
  | Skip (mSkipAmt : Nat)
  | TextureInit (mTarget : Nat)
  | TextureDeinit (mTarget : Nat) (mFinished : Nat)
  | TextureSetLOD (mTarget : Nat) (mLodLevel : Nat)
  | TextureGenMip (mTarget : Nat)
  | TextureLoadLevel (mTarget : Nat) (mLevel : Nat) (mRect : RECT) (mDataPtr : GLptr)
      (mDeletePtr : Bool)
  deriving DecidableEq, Repr

/-- The values of `sizeof` for `Command` and the classes derived from it. -/
structure Sizes where
  szCommand : Nat
  szNoOp : Nat
  szSkip : Nat
  szTextureInit : Nat
  szTextureDeinit : Nat
  szTextureSetLOD : Nat
  szTextureGenMip : Nat
  szTextureLoadLevel : Nat
  deriving DecidableEq, Repr

/-- The value `sizeof(T)` for the class `T` of a command object. -/
def Sizes.sizeof (S : Sizes) : Command → Nat
  | .NoOp => S.szNoOp
  | .Skip _ => S.szSkip
  | .TextureInit _ => S.szTextureInit
  | .TextureDeinit _ _ => S.szTextureDeinit
  | .TextureSetLOD _ _ => S.szTextureSetLOD
  | .TextureGenMip _ => S.szTextureGenMip
  | .TextureLoadLevel _ _ _ _ _ => S.szTextureLoadLevel

/-- Ring buffer size exponent, `sQueueBits`. -/
def sQueueBits : Nat := 20

/-- Ring buffer capacity in bytes, `sQueueSize = 1<<sQueueBits`. -/
def sQueueSize : Nat := 1 <<< sQueueBits

/-- Index mask, `sQueueMask = sQueueSize-1`. -/
def sQueueMask : Nat := sQueueSize - 1

/-- The three `static_assert`s of `sendAndUnlock<T>` for one size. -/
def Sizes.okSize (S : Sizes) (n : Nat) : Prop :=
  S.szCommand ≤ n ∧ n % S.szCommand = 0 ∧ n < sQueueSize

/-- The `static_assert`s hold for every command class, `CommandNoOp` adds no member to
`Command`, and `sizeof(Command)` is positive and divides the capacity. -/
def Sizes.WF (S : Sizes) : Prop :=
  0 < S.szCommand ∧ sQueueSize % S.szCommand = 0 ∧ S.szNoOp = S.szCommand ∧
  S.okSize S.szNoOp ∧ S.okSize S.szSkip ∧ S.okSize S.szTextureInit ∧
  S.okSize S.szTextureDeinit ∧ S.okSize S.szTextureSetLOD ∧ S.okSize S.szTextureGenMip ∧
  S.okSize S.szTextureLoadLevel

instance (S : Sizes) (n : Nat) : Decidable (S.okSize n) := by
  unfold Sizes.okSize; infer_instance

instance (S : Sizes) : Decidable S.WF := by
  unfold Sizes.WF; infer_instance

/-- Object sizes on 32-bit Windows (4-byte pointers, 4-byte `ULONG`/`DWORD`/`LONG`). -/
def win32Sizes : Sizes :=
  { szCommand := 4, szNoOp := 4, szSkip := 8, szTextureInit := 8, szTextureDeinit := 12,
    szTextureSetLOD := 12, szTextureGenMip := 8, szTextureLoadLevel := 36 }

/-- Object sizes on 64-bit Windows (8-byte pointers, 4-byte `ULONG`/`DWORD`/`LONG`). -/
def win64Sizes : Sizes :=
  { szCommand := 8, szNoOp := 8, szSkip := 16, szTextureInit := 16, szTextureDeinit := 24,
    szTextureSetLOD := 24, szTextureGenMip := 16, szTextureLoadLevel := 56 }

/-- The size returned by `execute()`: `sizeof(*this)` for every class except
`CommandSkip`, which returns `mSkipAmt`. -/
def Command.execute (S : Sizes) : Command → Nat
  | .Skip mSkipAmt => mSkipAmt
  | c => S.sizeof c

/-- One placement-new into `mQueueData`: the offset and the object constructed there. -/
structure Entry where
  offset : Nat
  cmd : Command
  deriving DecidableEq, Repr

/-- The producer-visible state of `CommandQueue`: the two indices, and the sequence of
objects constructed in `mQueueData` so far (oldest first). -/
structure CommandQueue where
  mHead : Nat
  mTail : Nat
  mQueueData : List Entry
  deriving DecidableEq, Repr

/-- The queue right after construction: both indices zero, nothing written. -/
def CommandQueue.empty : CommandQueue := { mHead := 0, mTail := 0, mQueueData := [] }

/-- The free-space expression `(mTail-head-1)&sQueueMask` of `sendAndUnlock`. -/
def CommandQueue.freeSpace (q : CommandQueue) : Nat :=
  ulongSub (ulongSub q.mTail q.mHead) 1 &&& sQueueMask

/-- Lines 96-100 of `sendAndUnlock`: construct the object at `mQueueData[head]` and store
`(head + sizeof(T)) & sQueueMask` to `mHead`. -/
def CommandQueue.construct (S : Sizes) (c : Command) (q : CommandQueue) : CommandQueue :=
  { q with
    mHead := ((q.mHead + S.sizeof c) % two32) &&& sQueueMask
    mQueueData := q.mQueueData ++ [⟨q.mHead, c⟩] }

/-- How a call of `sendAndUnlock` ends. -/
inductive SendResult where
  /-- the object was constructed and the head advanced -/
  | sent (q : CommandQueue)
  /-- the thread is parked in `SleepConditionVariableCS` with the queue in state `q` -/
  | waiting (q : CommandQueue)
  /-- the nested calls never come to an end -/
  | diverges
  deriving DecidableEq, Repr

mutual
/-- `CommandQueue::sendAndUnlock<T>(args...)`, with `c` the object `T(args...)`.
`send<T>` is `lock()` followed by `sendAndUnlock<T>`, so the nested `send` calls are
calls of this function. When the thread is woken from the wait it reloads `head` and
runs the loop body again from the top, which is the same as calling the function again
on the state in which it was parked. The first argument bounds the nesting depth. -/
def sendAndUnlock (S : Sizes) : Nat → Command → CommandQueue → SendResult
  | 0, _, _ => .diverges
  | fuel + 1, c, q =>
    let head := q.mHead
    let rem_size := ulongSub sQueueSize head
    let padded : SendResult :=
      if rem_size < S.sizeof c then
        if rem_size ≥ S.szSkip then
          sendAndUnlock S fuel (.Skip rem_size) q
        else
          sendNoOps S fuel c q
      else .sent q
    match padded with
    | .sent q1 =>
      if q1.freeSpace ≥ S.sizeof c then .sent (q1.construct S c)
      else .waiting q1
    | r => r
/-- The `do { send<CommandNoOp>(); ... } while(rem_size < sizeof(T));` loop. -/
def sendNoOps (S : Sizes) : Nat → Command → CommandQueue → SendResult
  | 0, _, _ => .diverges
  | fuel + 1, c, q =>
    match sendAndUnlock S fuel .NoOp q with
    | .sent q1 =>
      if ulongSub sQueueSize q1.mHead < S.sizeof c then sendNoOps S fuel c q1 else .sent q1
    | r => r
end

/-- A producer issuing `send<T>` for each command of a list, one after the other; it stops
at the first call that does not return. -/
def sendAll (S : Sizes) (fuel : Nat) : List Command → CommandQueue → SendResult
  | [], q => .sent q
  | c :: cs, q =>
    match sendAndUnlock S fuel c q with
    | .sent q1 => sendAll S fuel cs q1
    | r => r

/-- Total number of bytes by which the enqueues advanced the head: `sizeof(T)` for every
object constructed. -/
def CommandQueue.bytesWritten (S : Sizes) (q : CommandQueue) : Nat :=
  (q.mQueueData.map fun e => S.sizeof e.cmd).sum

/-- Total number of bytes the consumer advances the tail by when it executes every
object constructed: the sum of the values returned by `execute()`. -/
def CommandQueue.bytesConsumed (S : Sizes) (q : CommandQueue) : Nat :=
  (q.mQueueData.map fun e => e.cmd.execute S).sum

/-- Modelled from the spec: the consumer loop `CommandQueue::run` (declared in
`commandqueue.hpp`, defined in a file that is not among the sources) executes an entry and
advances the tail by the returned size, modulo the capacity. This is the tail after it
has executed every object constructed so far. -/
def CommandQueue.runAll (S : Sizes) (q : CommandQueue) : CommandQueue :=
  q.mQueueData.foldl
    (fun acc e => { acc with mTail := ((acc.mTail + e.cmd.execute S) % two32) &&& sQueueMask }) q

/-- A texture upload command, the largest command class of `texture.cpp`. -/
def sampleLoadLevel : Command :=
  .TextureLoadLevel 0 0 ⟨0, 0, 32, 32⟩ ⟨.userMem, 0⟩ false

/-- An empty queue (tail = head) whose indices stand `back` bytes before the physical end
of the buffer. -/
def queueNearEnd (back : Nat) : CommandQueue :=
  { mHead := sQueueSize - back, mTail := sQueueSize - back, mQueueData := [] }

/-! ## Direct3D 9 constants and records (`d3d9types.h`) -/

def D3DUSAGE_RENDERTARGET : Nat := 0x00000001
def D3DUSAGE_DEPTHSTENCIL : Nat := 0x00000002
def D3DUSAGE_DYNAMIC : Nat := 0x00000200
def D3DUSAGE_AUTOGENMIPMAP : Nat := 0x00000400

def D3DLOCK_READONLY : Nat := 0x00000010
def D3DLOCK_DISCARD : Nat := 0x00002000
def D3DLOCK_NO_DIRTY_UPDATE : Nat := 0x00008000

/-- The value `MAKEFOURCC('D','X','T','1')`. -/
def D3DFMT_DXT1 : Nat := 0x31545844
/-- The value `MAKEFOURCC('D','X','T','2')`. -/
def D3DFMT_DXT2 : Nat := 0x32545844
/-- The value `MAKEFOURCC('D','X','T','3')`. -/
def D3DFMT_DXT3 : Nat := 0x33545844
/-- The value `MAKEFOURCC('D','X','T','4')`. -/
def D3DFMT_DXT4 : Nat := 0x34545844
/-- The value `MAKEFOURCC('D','X','T','5')`. -/
def D3DFMT_DXT5 : Nat := 0x35545844
/-- The value `D3DFMT_A8R8G8B8`. -/
def D3DFMT_A8R8G8B8 : Nat := 21

/-- The test `Format == D3DFMT_DXT1 || ... || Format == D3DFMT_DXT5` that `texture.cpp`
repeats in `initGL`, `loadTexLevelGL` and `init`. -/
def isDXT (format : Nat) : Bool :=
  format == D3DFMT_DXT1 || format == D3DFMT_DXT2 || format == D3DFMT_DXT3 ||
  format == D3DFMT_DXT4 || format == D3DFMT_DXT5

/-- The memory pools of `D3DPOOL`. -/
inductive D3DPOOL where
  | DEFAULT
  | MANAGED
  | SYSTEMMEM
  | SCRATCH
  deriving DecidableEq, Repr

/-- The result codes returned by the texture layer. -/
inductive HRESULT where
  | D3D_OK
  | D3DERR_INVALIDCALL
  deriving DecidableEq, Repr

/-- The record `D3DSURFACE_DESC` (`ResType` is its member `Type`). -/
structure D3DSURFACE_DESC where
  Format : Nat
  ResType : Nat
  Usage : Nat
  Pool : D3DPOOL
  MultiSampleType : Nat
  MultiSampleQuality : Nat
  Width : Nat
  Height : Nat
  deriving DecidableEq, Repr

/-- The record `D3DLOCKED_RECT`. -/
structure D3DLOCKED_RECT where
  Pitch : Int
  pBits : GLptr
  deriving DecidableEq, Repr

/-- An entry of the format table `gFormatList` (declared in `d3dgl.hpp`, which is not among
the sources); `bytesperpixel` is the byte size of a texel, or of a 4x4 block for the DXT
formats. -/
structure GLFormatInfo where
  internalformat : Nat
  format : Nat
  type : Nat
  bytesperpixel : Nat
  deriving DecidableEq, Repr

/-! ## Textures and surfaces (`texture.cpp`) -/

/-- The lock states of a surface, `D3DGLTextureSurface::LockType`. -/
inductive LockType where
  | LT_Unlocked
  | LT_ReadOnly
  | LT_Full
  deriving DecidableEq, Repr

/-- The data members of `D3DGLTextureSurface`; `mParent` is passed to the member
functions as an argument. -/
structure D3DGLTextureSurface where
  mRefCount : Nat
  mLevel : Nat
  mLock : LockType
  mLockRegion : RECT
  mDataOffset : Nat
  mDataLength : Nat
  mScratchMem : GLptr
  deriving DecidableEq, Repr

/-- One `glTexSubImage2D` / `glCompressedTexSubImage2D` call as issued by
`loadTexLevelGL`. -/
structure GLUpload where
  level : Nat
  xoffset : Int
  yoffset : Int
  width : Int
  height : Int
  rowLength : Nat
  imageSize : Int
  data : GLptr
  deriving DecidableEq, Repr

/-- The data members of `D3DGLTexture` (the class is declared in `texture.hpp`, which is
not among the sources; the members are those `texture.cpp` uses), followed by the part of
the environment the member functions act on. -/
structure D3DGLTexture where
  /-- the address of the object, `this` -/
  addr : Nat
  mRefCount : Nat
  mIfaceCount : Nat
  mGLFormat : Option GLFormatInfo
  mTexId : Nat
  mPBO : Nat
  mUserPtr : GLptr
  mDirtyRect : RECT
  mUpdateInProgress : Nat
  mLodLevel : Nat
  mDesc : D3DSURFACE_DESC
  mIsCompressed : Bool
  mSurfaces : List D3DGLTextureSurface
  /-- the value `mSysMem.size()` -/
  mSysMem : Nat
  /-- the commands handed to `mParent->getQueue()` that have not been executed yet, oldest
  first; a full ring buffer delays `send` but does not change what is sent -/
  queue : List Command
  /-- the number of blocks obtained from `new GLubyte[...]` so far -/
  allocs : Nat
  /-- the pointers passed to `delete` so far -/
  freed : List GLptr
  /-- the texture uploads issued to the graphics context so far -/
  uploads : List GLUpload
  /-- the event handles passed to `SetEvent` so far -/
  signalled : List Nat
  deriving DecidableEq, Repr

/-- The increment of an atomic 32-bit counter. -/
def ulongInc (n : Nat) : Nat := (n + 1) % two32

/-- The decrement of an atomic 32-bit counter. -/
def ulongDec (n : Nat) : Nat := ulongSub n 1

/-- The constructor `D3DGLTextureSurface::D3DGLTextureSurface(parent, level)`. The members
`mLockRegion`, `mDataOffset` and `mDataLength` are not in the initialiser list; they are
zero here and are assigned by `init` and `LockRect` before they are read. -/
def D3DGLTextureSurface.ctor (level : Nat) : D3DGLTextureSurface :=
  { mRefCount := 0, mLevel := level, mLock := .LT_Unlocked, mLockRegion := ⟨0, 0, 0, 0⟩,
    mDataOffset := 0, mDataLength := 0, mScratchMem := GLptr.nullptr }

/-- The member function `D3DGLTextureSurface::init(offset, length)`. -/
def D3DGLTextureSurface.init (self : D3DGLTextureSurface) (offset length : Nat) :
    D3DGLTextureSurface :=
  { self with mDataOffset := offset, mDataLength := length }

/-- The constructor `D3DGLTexture::D3DGLTexture(parent)` for an object at address `addr`.
The members `mDesc` and `mIsCompressed` are not in the initialiser list; `init` assigns
them. -/
def D3DGLTexture.ctor (addr : Nat) : D3DGLTexture :=
  { addr := addr, mRefCount := 0, mIfaceCount := 0, mGLFormat := none, mTexId := 0, mPBO := 0,
    mUserPtr := GLptr.nullptr,
    mDirtyRect := ⟨LONG_MAX, LONG_MAX, LONG_MIN, LONG_MIN⟩,
    mUpdateInProgress := 1, mLodLevel := 0,
    mDesc := { Format := 0, ResType := 0, Usage := 0, Pool := .DEFAULT, MultiSampleType := 0,
               MultiSampleQuality := 0, Width := 0, Height := 0 },
    mIsCompressed := false, mSurfaces := [], mSysMem := 0,
    queue := [], allocs := 0, freed := [], uploads := [], signalled := [] }

/-- The call `mParent->getQueue().send<T>(args...)` (or `sendAndUnlock<T>` with the lock
held), with `c` the object `T(args...)`. -/
def D3DGLTexture.send (t : D3DGLTexture) (c : Command) : D3DGLTexture :=
  { t with queue := t.queue ++ [c] }

/-- The loop `while(m > 0) { maxLevels++; m >>= 1; }` of `init`; the first argument bounds
the number of iterations. -/
def maxLevelsLoop : Nat → Nat → Nat → Nat
  | 0, _, maxLevels => maxLevels
  | fuel + 1, m, maxLevels =>
    if m > 0 then maxLevelsLoop fuel (m >>> 1) (maxLevels + 1) else maxLevels

/-- The value of `maxLevels` that `init` computes for a texture of the given size; `m`
iterations are always enough, since `m` strictly decreases. -/
def calcMaxLevels (width height : Nat) : Nat :=
  maxLevelsLoop (max width height) (max width height) 0

/-- The member function `D3DGLTexture::init(desc, levels)`; `gFormatList` is the format
table. -/
def D3DGLTexture.init (gFormatList : Nat → Option GLFormatInfo) (t : D3DGLTexture)
    (desc : D3DSURFACE_DESC) (levels : Nat) : Bool × D3DGLTexture :=
  let t := { t with mDesc := desc }
  if t.mDesc.Width = 0 ∨ t.mDesc.Height = 0 then (false, t)
  else
    match gFormatList t.mDesc.Format with
    | none => (false, t)
    | some fmtinfo =>
      let t := { t with mGLFormat := some fmtinfo }
      if t.mDesc.Usage &&& D3DUSAGE_RENDERTARGET ≠ 0 ∧ t.mDesc.Pool ≠ .DEFAULT then (false, t)
      else if t.mDesc.Usage &&& D3DUSAGE_RENDERTARGET = 0 ∧
          t.mDesc.Usage &&& D3DUSAGE_DEPTHSTENCIL ≠ 0 ∧ t.mDesc.Pool ≠ .DEFAULT then (false, t)
      else if t.mDesc.Usage &&& D3DUSAGE_AUTOGENMIPMAP ≠ 0 ∧ t.mDesc.Pool = .SYSTEMMEM then
        (false, t)
      else if t.mDesc.Usage &&& D3DUSAGE_AUTOGENMIPMAP ≠ 0 ∧ t.mDesc.Pool = .MANAGED ∧
          levels > 1 then (false, t)
      else
        let levels :=
          if t.mDesc.Usage &&& D3DUSAGE_AUTOGENMIPMAP ≠ 0 ∧ t.mDesc.Pool = .MANAGED then 1
          else levels
        let maxLevels := calcMaxLevels t.mDesc.Width t.mDesc.Height
        let levels := if levels = 0 ∨ levels > maxLevels then maxLevels else levels
        let t := { t with
          mSurfaces := t.mSurfaces ++ (List.range levels).map D3DGLTextureSurface.ctor }
        let t := { t with mIsCompressed := isDXT t.mDesc.Format }
        (true, t.send (.TextureInit t.addr))

/-- The member function `D3DGLTexture::GetLevelCount()`. -/
def D3DGLTexture.GetLevelCount (t : D3DGLTexture) : Nat := t.mSurfaces.length

/-- The member function `D3DGLTexture::updateTexture(level, rect, dataPtr, deletePtr)`. -/
def D3DGLTexture.updateTexture (t : D3DGLTexture) (level : Nat) (rect : RECT)
    (dataPtr : GLptr) (deletePtr : Bool) : D3DGLTexture :=
  let t := { t with mUpdateInProgress := ulongInc t.mUpdateInProgress }
  t.send (.TextureLoadLevel t.addr level rect dataPtr deletePtr)

/-- The member function `D3DGLTexture::AddDirtyRect(rect)`. -/
def D3DGLTexture.AddDirtyRect (t : D3DGLTexture) (rect : RECT) : HRESULT × D3DGLTexture :=
  (.D3D_OK,
   { t with mDirtyRect :=
      { left := min t.mDirtyRect.left rect.left
        top := min t.mDirtyRect.top rect.top
        right := max t.mDirtyRect.right rect.right
        bottom := max t.mDirtyRect.bottom rect.bottom } })

/-- A caller issuing `AddDirtyRect` for each region of a list, in order. -/
def D3DGLTexture.addDirtyRects (t : D3DGLTexture) : List RECT → D3DGLTexture
  | [] => t
  | r :: rs => (t.AddDirtyRect r).2.addDirtyRects rs

/-- Reduction of an unsigned result to 32 bits. -/
def uint (n : Nat) : Nat := n % two32

/-- The byte offset `LockRect` adds to the level's base pointer, and the pitch it reports,
for a level of width `w`: in 4x4 blocks for compressed textures, in texels otherwise. The
`LONG` coordinates are converted to unsigned and the arithmetic is 32-bit unsigned. -/
def lockOffsetPitch (isCompressed : Bool) (w bytesperpixel : Nat) (rect : RECT) : Nat × Int :=
  if isCompressed then
    (uint ((toUINT (rect.top.tdiv 4) * (uint (w + 3) / 4) + toUINT (rect.left.tdiv 4)) *
        bytesperpixel),
     toLONG (uint (uint (w + 3) / 4 * bytesperpixel)))
  else
    (uint ((toUINT rect.top * w + toUINT rect.left) * bytesperpixel),
     toLONG (uint (w * bytesperpixel)))

/-- Line 784 of `LockRect`: the lock state an Unlocked surface is moved to. -/
def lockTypeFor (flags : Nat) : LockType :=
  if flags &&& D3DLOCK_READONLY ≠ 0 then .LT_ReadOnly else .LT_Full

/-- How a call of `LockRect` ends. -/
inductive LockResult where
  /-- the call returned `hr`; `lockedRect` is what it stored through the out-pointer -/
  | returned (hr : HRESULT) (self : D3DGLTextureSurface) (parent : D3DGLTexture)
      (lockedRect : Option D3DLOCKED_RECT)
  /-- the thread is in the `while(mParent->mUpdateInProgress) Sleep(1);` loop -/
  | spinning (self : D3DGLTextureSurface) (parent : D3DGLTexture) (rect : RECT) (flags : Nat)
      (w : Nat)
  /-- the call dereferenced the null `mGLFormat` -/
  | fault
  deriving DecidableEq, Repr

/-- Lines 796-842 of `D3DGLTextureSurface::LockRect`: the part after the wait loop, with
`rect`, `flags` and the level width `w` as computed before the wait. (`updateMem` only
selects a log message.) -/
def D3DGLTextureSurface.lockAfterWait (self : D3DGLTextureSurface) (parent : D3DGLTexture)
    (rect : RECT) (flags : Nat) (w : Nat) : LockResult :=
  let memPtr := parent.mUserPtr
  let fresh : GLptr := ⟨.scratch parent.allocs, 0⟩
  let self1 :=
    if memPtr ≠ GLptr.nullptr then self
    else if self.mScratchMem = GLptr.nullptr then { self with mScratchMem := fresh }
    else self
  let parent1 :=
    if memPtr ≠ GLptr.nullptr then parent
    else if self.mScratchMem = GLptr.nullptr then { parent with allocs := parent.allocs + 1 }
    else parent
  let memPtr :=
    if memPtr ≠ GLptr.nullptr then memPtr.add self.mDataOffset else self1.mScratchMem
  let self2 := { self1 with mLockRegion := rect }
  match parent1.mGLFormat with
  | none => .fault
  | some fmt =>
    let op := lockOffsetPitch parent1.mIsCompressed w fmt.bytesperpixel rect
    let lockedRect : D3DLOCKED_RECT := { Pitch := op.2, pBits := memPtr.add op.1 }
    let parent2 :=
      if flags &&& (D3DLOCK_NO_DIRTY_UPDATE ||| D3DLOCK_READONLY) = 0 then
        (parent1.AddDirtyRect
          { left := toLONG (rect.left * 2 ^ self.mLevel)
            top := toLONG (rect.top * 2 ^ self.mLevel)
            right := toLONG (rect.right * 2 ^ self.mLevel)
            bottom := toLONG (rect.bottom * 2 ^ self.mLevel) }).2
      else parent1
    .returned .D3D_OK self2 parent2 (some lockedRect)

/-- The wait loop of `LockRect` followed by the rest of the function: what a thread that
holds the lock does when it next reads the counter. -/
def D3DGLTextureSurface.lockResume (self : D3DGLTextureSurface) (parent : D3DGLTexture)
    (rect : RECT) (flags : Nat) (w : Nat) : LockResult :=
  if parent.mUpdateInProgress ≠ 0 then .spinning self parent rect flags w
  else self.lockAfterWait parent rect flags w

/-- The member function `D3DGLTextureSurface::LockRect(lockedRect, rect, flags)`; a null
`rect` is `none`. -/
def D3DGLTextureSurface.LockRect (self : D3DGLTextureSurface) (parent : D3DGLTexture)
    (rect : Option RECT) (flags : Nat) : LockResult :=
  if parent.mDesc.Pool = .DEFAULT ∧ parent.mDesc.Usage &&& D3DUSAGE_DYNAMIC = 0 then
    .returned .D3DERR_INVALIDCALL self parent none
  else
    let w := max 1 (parent.mDesc.Width >>> self.mLevel)
    let h := max 1 (parent.mDesc.Height >>> self.mLevel)
    let full : RECT := { left := 0, top := 0, right := toLONG w, bottom := toLONG h }
    if flags &&& D3DLOCK_DISCARD ≠ 0 ∧ flags &&& D3DLOCK_READONLY ≠ 0 then
      .returned .D3DERR_INVALIDCALL self parent none
    else if flags &&& D3DLOCK_DISCARD ≠ 0 ∧ rect.isSome then
      .returned .D3DERR_INVALIDCALL self parent none
    else
      let rect := rect.getD full
      let lt := lockTypeFor flags
      if self.mLock ≠ .LT_Unlocked then
        .returned .D3DERR_INVALIDCALL self parent none
      else
        D3DGLTextureSurface.lockResume { self with mLock := lt } parent rect flags w

/-- The member function `D3DGLTextureSurface::UnlockRect()`. -/
def D3DGLTextureSurface.UnlockRect (self : D3DGLTextureSurface) (parent : D3DGLTexture) :
    HRESULT × D3DGLTextureSurface × D3DGLTexture :=
  if self.mLock = .LT_Unlocked then (.D3DERR_INVALIDCALL, self, parent)
  else if self.mScratchMem ≠ GLptr.nullptr then
    (.D3D_OK,
     { self with mScratchMem := GLptr.nullptr, mLock := .LT_Unlocked },
     parent.updateTexture self.mLevel self.mLockRegion self.mScratchMem true)
  else
    (.D3D_OK,
     { self with mLock := .LT_Unlocked },
     parent.updateTexture self.mLevel self.mLockRegion
       (parent.mUserPtr.add self.mDataOffset) false)

/-- Store the surface object back at its place in `mSurfaces`. -/
def D3DGLTexture.withSurface (t : D3DGLTexture) (level : Nat) (s : D3DGLTextureSurface) :
    D3DGLTexture :=
  { t with mSurfaces := t.mSurfaces.set level s }

/-- How a call of `D3DGLTexture::LockRect` ends. -/
inductive TexLockResult where
  | returned (hr : HRESULT) (t : D3DGLTexture) (lockedRect : Option D3DLOCKED_RECT)
  | spinning (t : D3DGLTexture) (level : Nat) (rect : RECT) (flags : Nat) (w : Nat)
  | fault
  deriving DecidableEq, Repr

/-- The surface-level outcome seen from the texture that owns the surface. -/
def LockResult.toTex (level : Nat) : LockResult → TexLockResult
  | .returned hr self parent lockedRect => .returned hr (parent.withSurface level self) lockedRect
  | .spinning self parent rect flags w =>
    .spinning (parent.withSurface level self) level rect flags w
  | .fault => .fault

/-- The member function `D3DGLTexture::LockRect(level, lockedRect, rect, flags)`. -/
def D3DGLTexture.LockRect (t : D3DGLTexture) (level : Nat) (rect : Option RECT) (flags : Nat) :
    TexLockResult :=
  match t.mSurfaces[level]? with
  | none => .returned .D3DERR_INVALIDCALL t none
  | some s => (s.LockRect t rect flags).toTex level

/-- A thread waiting inside `D3DGLTexture::LockRect` reads the counter again. -/
def D3DGLTexture.lockResume (t : D3DGLTexture) (level : Nat) (rect : RECT) (flags : Nat)
    (w : Nat) : TexLockResult :=
  match t.mSurfaces[level]? with
  | none => .fault
  | some s => (s.lockResume t rect flags w).toTex level

/-- The member function `D3DGLTexture::UnlockRect(level)`. -/
def D3DGLTexture.UnlockRect (t : D3DGLTexture) (level : Nat) : HRESULT × D3DGLTexture :=
  match t.mSurfaces[level]? with
  | none => (.D3DERR_INVALIDCALL, t)
  | some s =>
    let r := s.UnlockRect t
    (r.1, r.2.2.withSurface level r.2.1)

/-- The loop of `initGL` that assigns every surface its slice of the backing store: `w`
and `h` are the `GLint` level dimensions, `total_size` the running `UINT` sum. -/
def initGLLayout (dxt : Bool) (bytesperpixel : Nat) :
    List D3DGLTextureSurface → Int → Int → Nat → List D3DGLTextureSurface × Nat
  | [], _, _, total_size => ([], total_size)
  | surface :: rest, w, h, total_size =>
    let w := max 1 w
    let h := max 1 h
    let level_size :=
      if dxt then toUINT (((w + 3) / 4) * ((h + 3) / 4) * bytesperpixel)
      else toUINT (w * h * bytesperpixel)
    let r := initGLLayout dxt bytesperpixel rest (w >>> 1) (h >>> 1) (uint (total_size + level_size))
    (surface.init total_size level_size :: r.1, r.2)

/-- The member function `D3DGLTexture::initGL()`, run by the consumer thread; `texId` is
the name `glGenTextures` hands out. The result is `none` when the null `mGLFormat` is
dereferenced. -/
def D3DGLTexture.initGL (t : D3DGLTexture) (texId : Nat) : Option D3DGLTexture :=
  let t := { t with mTexId := texId }
  let laid : Option (List D3DGLTextureSurface × Nat) :=
    match t.mSurfaces, t.mGLFormat with
    | [], _ => some ([], 0)
    | _ :: _, none => none
    | ss, some fmt =>
      some (initGLLayout (isDXT t.mDesc.Format) fmt.bytesperpixel ss
        (toLONG t.mDesc.Width) (toLONG t.mDesc.Height) 0)
  match laid with
  | none => none
  | some (surfaces, total_size) =>
    let t := { t with mSurfaces := surfaces }
    let t :=
      if (t.mDesc.Pool = .SYSTEMMEM ∨ t.mDesc.Usage &&& D3DUSAGE_DYNAMIC ≠ 0) ∧ t.mPBO = 0 then
        { t with mSysMem := total_size, mUserPtr := ⟨.userMem, 0⟩ }
      else t
    some { t with mUpdateInProgress := 0 }

/-- The member function `D3DGLTexture::loadTexLevelGL(level, rect, dataPtr, deletePtr)`,
run by the consumer thread. The result is `none` when `mSurfaces[level]` does not exist
or the null `mGLFormat` is dereferenced. -/
def D3DGLTexture.loadTexLevelGL (t : D3DGLTexture) (level : Nat) (rect : RECT)
    (dataPtr : GLptr) (deletePtr : Bool) : Option D3DGLTexture :=
  let w := max 1 (t.mDesc.Width >>> level)
  let dataPtr : GLptr :=
    if t.mPBO ≠ 0 then ⟨.null, dataPtr.off - t.mUserPtr.off⟩ else dataPtr
  match t.mSurfaces[level]?, t.mGLFormat with
  | some surface, some fmt =>
    let bpp := fmt.bytesperpixel
    let up : GLUpload :=
      if t.mIsCompressed then
        if isDXT t.mDesc.Format then
          { level := level, xoffset := rect.left, yoffset := rect.top,
            width := toLONG (rect.right - rect.left), height := toLONG (rect.bottom - rect.top),
            rowLength := uint (uint (w + 3) / 4 * bpp),
            imageSize := toLONG ((surface.mDataLength : Int) -
              uint ((toUINT ((rect.top + 3).tdiv 4) * (uint (w + 3) / 4) +
                toUINT ((rect.left + 3).tdiv 4)) * bpp)),
            data := dataPtr.add
              (uint ((toUINT (rect.top.tdiv 4) * (w / 4) + toUINT (rect.left.tdiv 4)) * bpp)) }
        else
          { level := level, xoffset := rect.left, yoffset := rect.top,
            width := toLONG (rect.right - rect.left), height := toLONG (rect.bottom - rect.top),
            rowLength := 0, imageSize := -1, data := dataPtr }
      else
        { level := level, xoffset := rect.left, yoffset := rect.top,
          width := toLONG (rect.right - rect.left), height := toLONG (rect.bottom - rect.top),
          rowLength := w, imageSize := 0,
          data := dataPtr.add (uint ((toUINT rect.top * w + toUINT rect.left) * bpp)) }
    let t := { t with uploads := t.uploads ++ [up] }
    let t := if t.mPBO ≠ 0 then { t with mUserPtr := ⟨.userMem, 0⟩ } else t
    let t := if deletePtr then { t with freed := t.freed ++ [up.data] } else t
    some { t with mUpdateInProgress := ulongDec t.mUpdateInProgress }
  | _, _ => none

/-- The `execute()` member functions of the texture commands of `texture.cpp`, applied by
the consumer thread to the texture `t`; a command for another target leaves `t` alone. -/
def D3DGLTexture.execute (t : D3DGLTexture) (texId : Nat) : Command → Option D3DGLTexture
  | .NoOp => some t
  | .Skip _ => some t
  | .TextureInit mTarget => if mTarget = t.addr then t.initGL texId else some t
  | .TextureDeinit mTarget mFinished =>
    if mTarget = t.addr then some { t with signalled := t.signalled ++ [mFinished] } else some t
  | .TextureSetLOD _ _ => some t
  | .TextureGenMip _ => some t
  | .TextureLoadLevel mTarget mLevel mRect mDataPtr mDeletePtr =>
    if mTarget = t.addr then t.loadTexLevelGL mLevel mRect mDataPtr mDeletePtr else some t

/-- Modelled from the spec: the consumer loop `CommandQueue::run` (defined in a file that
is not among the sources) takes the oldest queued command, invokes `execute()` on it and
moves on to the next one; with nothing queued it waits. -/
def D3DGLTexture.runNext (t : D3DGLTexture) (texId : Nat) : Option D3DGLTexture :=
  match t.queue with
  | [] => some t
  | c :: rest => D3DGLTexture.execute { t with queue := rest } texId c

/-- The format table entry used in the examples: a 4-byte texel format. -/
def sampleFormats (format : Nat) : Option GLFormatInfo :=
  if format = D3DFMT_A8R8G8B8 then
    some { internalformat := 0x8058, format := 0x80E1, type := 0x8367, bytesperpixel := 4 }
  else none

/-- A 64x64 descriptor in the given pool. -/
def sampleDesc (pool : D3DPOOL) (usage : Nat) : D3DSURFACE_DESC :=
  { Format := D3DFMT_A8R8G8B8, ResType := 3, Usage := usage, Pool := pool, MultiSampleType := 0,
    MultiSampleQuality := 0, Width := 64, Height := 64 }

/-- A 64x64 texture after `init` with automatic level count and after the consumer has
executed its creation command. -/
def sampleTexture (pool : D3DPOOL) (usage : Nat) : Option D3DGLTexture :=
  ((D3DGLTexture.ctor 1).init sampleFormats (sampleDesc pool usage) 0).2.runNext 1

/-- A lockable texture: `LockRect` refuses textures of the default pool that are not
dynamic (lines 758-762). -/
def D3DGLTexture.lockable (t : D3DGLTexture) : Prop :=
  ¬ (t.mDesc.Pool = .DEFAULT ∧ t.mDesc.Usage &&& D3DUSAGE_DYNAMIC = 0)

instance (t : D3DGLTexture) : Decidable t.lockable := by
  unfold D3DGLTexture.lockable; infer_instance

/-- The flag and region combinations that pass the tests of lines 767-779 of `LockRect`. -/
def lockArgsOk (rect : Option RECT) (flags : Nat) : Prop :=
  ¬ (flags &&& D3DLOCK_DISCARD ≠ 0 ∧ flags &&& D3DLOCK_READONLY ≠ 0) ∧
  ¬ (flags &&& D3DLOCK_DISCARD ≠ 0 ∧ rect.isSome)

instance (rect : Option RECT) (flags : Nat) : Decidable (lockArgsOk rect flags) := by
  unfold lockArgsOk; infer_instance

/-- The managed 64x64 texture of the examples, created and initialised. -/
def managed64 : D3DGLTexture := (sampleTexture .MANAGED 0).getD (D3DGLTexture.ctor 1)

/-- The texture `managed64` after `LockRect(0, NULL, 0)`. -/
def managed64Locked : D3DGLTexture :=
  match managed64.LockRect 0 none 0 with
  | .returned _ t _ => t
  | _ => managed64

/-- A surface object of level 0 in state Full. -/
def fullLockedSurface : D3DGLTextureSurface :=
  { D3DGLTextureSurface.ctor 0 with mLock := .LT_Full }

/-- The member function `D3DGLTexture::addIface()`. -/
def D3DGLTexture.addIface (t : D3DGLTexture) : D3DGLTexture :=
  { t with mIfaceCount := ulongInc t.mIfaceCount }

/-- The member function `D3DGLTextureSurface::AddRef()`: the new count, the surface and
its parent. -/
def D3DGLTextureSurface.AddRef (self : D3DGLTextureSurface) (parent : D3DGLTexture) :
    Nat × D3DGLTextureSurface × D3DGLTexture :=
  let ret := ulongInc self.mRefCount
  (ret, { self with mRefCount := ret }, if ret = 1 then parent.addIface else parent)

/-- The member function `D3DGLTextureSurface::GetDesc(desc)`: `desc` is the record the
caller passes in; its member `Type` is not assigned. -/
def D3DGLTextureSurface.GetDesc (self : D3DGLTextureSurface) (parent : D3DGLTexture)
    (desc : D3DSURFACE_DESC) : HRESULT × D3DSURFACE_DESC :=
  (.D3D_OK,
   { desc with
     Format := parent.mDesc.Format
     Usage := parent.mDesc.Usage
     Pool := parent.mDesc.Pool
     MultiSampleType := parent.mDesc.MultiSampleType
     MultiSampleQuality := parent.mDesc.MultiSampleQuality
     Width := max 1 (parent.mDesc.Width >>> self.mLevel)
     Height := max 1 (parent.mDesc.Height >>> self.mLevel) })

/-- The member function `D3DGLTexture::GetLevelDesc(level, desc)`. -/
def D3DGLTexture.GetLevelDesc (t : D3DGLTexture) (level : Nat) (desc : D3DSURFACE_DESC) :
    HRESULT × D3DSURFACE_DESC :=
  match t.mSurfaces[level]? with
  | none => (.D3DERR_INVALIDCALL, desc)
  | some s => s.GetDesc t desc

/-- The member function `D3DGLTexture::GetSurfaceLevel(level, surface)`: the result code,
the texture, and the level whose surface object is stored through the out-pointer. -/
def D3DGLTexture.GetSurfaceLevel (t : D3DGLTexture) (level : Nat) :
    HRESULT × D3DGLTexture × Option Nat :=
  match t.mSurfaces[level]? with
  | none => (.D3DERR_INVALIDCALL, t, none)
  | some s =>
    let r := s.AddRef t
    (.D3D_OK, r.2.2.withSurface level r.2.1, some level)

/-- The member function `D3DGLTexture::SetLOD(lod)`: the value returned and the texture. -/
def D3DGLTexture.SetLOD (t : D3DGLTexture) (lod : Nat) : Nat × D3DGLTexture :=
  if t.mDesc.Pool ≠ .MANAGED then (0, t)
  else
    let lod := min lod (ulongSub (uint t.mSurfaces.length) 1)
    if t.mLodLevel = lod then (lod, { t with mLodLevel := lod })
    else (lod, D3DGLTexture.send { t with mLodLevel := lod } (.TextureSetLOD t.addr lod))

/-- The member function `D3DGLTexture::GetLOD()`. -/
def D3DGLTexture.GetLOD (t : D3DGLTexture) : Nat := t.mLodLevel

/-- A format table with the 4-byte texel format and DXT1 (8 bytes per 4x4 block). -/
def dxtFormats (format : Nat) : Option GLFormatInfo :=
  if format = D3DFMT_DXT1 then
    some { internalformat := 0x83F1, format := 0x1908, type := 0x1401, bytesperpixel := 8 }
  else sampleFormats format

/-- A DXT1 texture of 8x64 texels in the system-memory pool, created with automatic level
count and initialised by the consumer; its level 2 is 2x16 texels. -/
def dxtNarrow : D3DGLTexture :=
  ((((D3DGLTexture.ctor 1).init dxtFormats
      { Format := D3DFMT_DXT1, ResType := 3, Usage := 0, Pool := .SYSTEMMEM,
        MultiSampleType := 0, MultiSampleQuality := 0, Width := 8, Height := 64 } 0).2.runNext
    1).getD (D3DGLTexture.ctor 1))

/-- The system-memory 64x64 texture of the examples, created and initialised. -/
def sysmem64 : D3DGLTexture := (sampleTexture .SYSTEMMEM 0).getD (D3DGLTexture.ctor 1)

/-- The texture after a call of `D3DGLTexture::LockRect` that returned. -/
def TexLockResult.tex (fallback : D3DGLTexture) : TexLockResult → D3DGLTexture
  | .returned _ t _ => t
  | .spinning t _ _ _ _ => t
  | .fault => fallback

/-- The record a call of `D3DGLTexture::LockRect` stored through its out-pointer. -/
def TexLockResult.lockedRect : TexLockResult → Option D3DLOCKED_RECT
  | .returned _ _ lr => lr
  | _ => none

/-- Lines 806-815 of `LockRect`: the base pointer of the level that the lock hands out,
the persistent store plus the surface's data offset or, without a persistent store, the
scratch buffer (allocated now if the surface has none). -/
def lockBase (self : D3DGLTextureSurface) (parent : D3DGLTexture) : GLptr :=
  if parent.mUserPtr ≠ GLptr.nullptr then parent.mUserPtr.add self.mDataOffset
  else if self.mScratchMem = GLptr.nullptr then ⟨.scratch parent.allocs, 0⟩
  else self.mScratchMem

/-- Lines 835-840 of `LockRect`: the region `rect` of level `level` in level-0
coordinates, each member shifted left by `level` as a `LONG`. -/
def dirtyRegion (rect : RECT) (level : Nat) : RECT :=
  { left := toLONG (rect.left * 2 ^ level)
    top := toLONG (rect.top * 2 ^ level)
    right := toLONG (rect.right * 2 ^ level)
    bottom := toLONG (rect.bottom * 2 ^ level) }

/-- The region `LockRect` works with: the caller's, or the whole level when the caller
passes a null pointer (lines 764-766, 780-781). -/
def effectiveRect (self : D3DGLTextureSurface) (parent : D3DGLTexture) (rect : Option RECT) :
    RECT :=
  rect.getD
    { left := 0, top := 0
      right := toLONG (max 1 (parent.mDesc.Width >>> self.mLevel) : Nat)
      bottom := toLONG (max 1 (parent.mDesc.Height >>> self.mLevel) : Nat) }

/-- A render-target descriptor in the managed pool: `init` rejects it. -/
def rejectedDesc : D3DSURFACE_DESC := sampleDesc .MANAGED D3DUSAGE_RENDERTARGET

/-- The surface object after a call of `D3DGLTextureSurface::LockRect`. -/
def LockResult.surface (fallback : D3DGLTextureSurface) : LockResult → D3DGLTextureSurface
  | .returned _ s _ _ => s
  | .spinning s _ _ _ _ => s
  | .fault => fallback

/-- The texture after a call of `D3DGLTextureSurface::LockRect`. -/
def LockResult.texture (fallback : D3DGLTexture) : LockResult → D3DGLTexture
  | .returned _ _ t _ => t
  | .spinning _ t _ _ _ => t
  | .fault => fallback

/-- The record a call of `D3DGLTextureSurface::LockRect` stored through its out-pointer. -/
def LockResult.lockedRect : LockResult → Option D3DLOCKED_RECT
  | .returned _ _ _ lr => lr
  | _ => none

/-- The surface object of level 1 of `sysmem64`. -/
def sysmem64Level1 : D3DGLTextureSurface := D3DGLTextureSurface.init (.ctor 1) 16384 4096

/-- The surface object of level 2 of `dxtNarrow`. -/
def dxtNarrowLevel2 : D3DGLTextureSurface := D3DGLTextureSurface.init (.ctor 2) 320 32

/-- The surface object of level 0 of `managed64` after `LockRect(0, NULL, 0)`: state Full,
with a scratch buffer. -/
def managed64LockedLevel0 : D3DGLTextureSurface :=
  (managed64Locked.mSurfaces[0]?).getD (D3DGLTextureSurface.ctor 0)

/-- The width (or height) of mip level `i` of a texture whose level 0 measures `n`:
`max(1, n >> i)`. -/
def levelDim (n i : Nat) : Nat := max 1 (n >>> i)

/-- The data length of level `i` in the words of the specification: `w*h*b` for
uncompressed formats and `ceil(w/4)*ceil(h/4)*b` for the DXT formats, with `w` and `h` the
dimensions of the level, as a mathematical integer. -/
def specLevelLength (dxt : Bool) (b W H i : Nat) : Nat :=
  if dxt then ((levelDim W i + 3) / 4) * ((levelDim H i + 3) / 4) * b
  else levelDim W i * levelDim H i * b

/-- The sum of the specification's data lengths of the `n` levels `k, k+1, ..., k+n-1`. -/
def specLengthSum (dxt : Bool) (b W H : Nat) : Nat → Nat → Nat
  | _, 0 => 0
  | k, n + 1 => specLevelLength dxt b W H k + specLengthSum dxt b W H (k + 1) n

/-- The descriptor of the overflow example: 32768x32768 texels of 4 bytes in the
system-memory pool, a level 0 of `2^32` bytes. -/
def hugeDesc : D3DSURFACE_DESC :=
  { Format := D3DFMT_A8R8G8B8, ResType := 3, Usage := 0, Pool := .SYSTEMMEM, MultiSampleType := 0,
    MultiSampleQuality := 0, Width := 32768, Height := 32768 }

/-- The texture of the overflow example, created with automatic level count and
initialised by the consumer. -/
def huge : D3DGLTexture :=
  (((D3DGLTexture.ctor 1).init sampleFormats hugeDesc 0).2.runNext 1).getD (D3DGLTexture.ctor 1)

/-- The default-pool 64x64 texture without the dynamic flag, created and initialised. -/
def default64 : D3DGLTexture := (sampleTexture .DEFAULT 0).getD (D3DGLTexture.ctor 1)

/-- The member function `D3DGLTexture::GenerateMipSubLevels()`. -/
def D3DGLTexture.GenerateMipSubLevels (t : D3DGLTexture) : D3DGLTexture :=
  t.send (.TextureGenMip t.addr)

/-- Whether a command is an upload command (`TextureLoadLevelCmd`) of the texture at
`addr`. -/
def Command.isUploadOf (addr : Nat) : Command → Bool
  | .TextureLoadLevel mTarget _ _ _ _ => decide (mTarget = addr)
  | _ => false

/-- Whether a command is the creation command (`TextureInitCmd`) of the texture at
`addr`. -/
def Command.isInitOf (addr : Nat) : Command → Bool
  | .TextureInit mTarget => decide (mTarget = addr)
  | _ => false

/-- Whether a command, if it is an upload command of the texture at `addr`, names one of
the first `n` levels. -/
def Command.levelBelow (addr n : Nat) : Command → Bool
  | .TextureLoadLevel mTarget mLevel _ _ _ => decide (mTarget = addr → mLevel < n)
  | _ => true

/-- The number of upload commands of the texture that have been enqueued and not yet
executed. -/
def D3DGLTexture.pendingUploads (t : D3DGLTexture) : Nat :=
  t.queue.countP (Command.isUploadOf t.addr)

/-- The number of creation commands of the texture that have been enqueued and not yet
executed. -/
def D3DGLTexture.pendingInits (t : D3DGLTexture) : Nat :=
  t.queue.countP (Command.isInitOf t.addr)

/-- The texture as a call of `LockRect` leaves it: at the return, or on entry to the wait
loop (the calling thread then holds the lock and sleeps); `none` after a fault. -/
def TexLockResult.state : TexLockResult → Option D3DGLTexture
  | .returned _ t _ => some t
  | .spinning t _ _ _ _ => some t
  | .fault => none

/-- The operations on one texture: the calls an application thread makes, a thread
waiting inside `LockRect` reading the counter again, and the consumer thread executing
the oldest queued command. -/
inductive TexOp where
  | LockRect (level : Nat) (rect : Option RECT) (flags : Nat)
  | lockResume (level : Nat) (rect : RECT) (flags : Nat) (w : Nat)
  | UnlockRect (level : Nat)
  | AddDirtyRect (rect : RECT)
  | SetLOD (lod : Nat)
  | GenerateMipSubLevels
  | GetSurfaceLevel (level : Nat)
  | run (texId : Nat)
  deriving DecidableEq, Repr

/-- One operation applied to the texture; `none` after a fault. -/
def D3DGLTexture.step (t : D3DGLTexture) : TexOp → Option D3DGLTexture
  | .LockRect level rect flags => (t.LockRect level rect flags).state
  | .lockResume level rect flags w => (t.lockResume level rect flags w).state
  | .UnlockRect level => some (t.UnlockRect level).2
  | .AddDirtyRect rect => some (t.AddDirtyRect rect).2
  | .SetLOD lod => some (t.SetLOD lod).2
  | .GenerateMipSubLevels => some t.GenerateMipSubLevels
  | .GetSurfaceLevel level => some (t.GetSurfaceLevel level).2.1
  | .run texId => t.runNext texId

/-- A sequence of operations applied to the texture, in order. -/
def D3DGLTexture.steps (t : D3DGLTexture) : List TexOp → Option D3DGLTexture
  | [] => some t
  | op :: ops =>
    match t.step op with
    | none => none
    | some t1 => t1.steps ops

/-- The operations an application can complete while the creation command is still
queued: every call except `UnlockRect`; the consumer has not run. -/
def TexOp.beforeInit : TexOp → Bool
  | .UnlockRect _ => false
  | .run _ => false
  | _ => true

/-- A thread can only be waiting inside `LockRect` of a surface that exists: the level of
a `lockResume` step is below the level count `n`. -/
def TexOp.levelOk (n : Nat) : TexOp → Bool
  | .lockResume level _ _ _ => decide (level < n)
  | _ => true

/-- The 64x64 managed texture right after an accepted `init`, with its creation command
still queued. -/
def created64 : D3DGLTexture :=
  ((D3DGLTexture.ctor 1).init sampleFormats (sampleDesc .MANAGED 0) 0).2

/-- Every surface object sits at the index of its level, as `init` creates them. -/
def D3DGLTexture.levelsInOrder (t : D3DGLTexture) : Prop :=
  t.mSurfaces.map D3DGLTextureSurface.mLevel = List.range t.mSurfaces.length

/-- The state of a texture between an accepted `init` and the execution of its creation
command, with no upload queued: the creation command is the oldest queued command and
the only one of its kind. -/
def D3DGLTexture.awaitingInit (t : D3DGLTexture) : Prop :=
  t.mGLFormat ≠ none ∧ t.levelsInOrder ∧
  ∃ rest : List Command, t.queue = .TextureInit t.addr :: rest ∧
    rest.countP (Command.isUploadOf t.addr) = 0 ∧ rest.countP (Command.isInitOf t.addr) = 0

/-- The in-flight accounting invariant of a texture whose creation command has executed:
the counter equals the number of queued upload commands of the texture; no creation
command is queued, and every queued upload names an existing level. -/
def D3DGLTexture.accounted (t : D3DGLTexture) : Prop :=
  t.mGLFormat ≠ none ∧ t.levelsInOrder ∧ t.pendingInits = 0 ∧
  t.queue.all (Command.levelBelow t.addr t.mSurfaces.length) = true ∧
  t.mUpdateInProgress = t.pendingUploads

/-- The surface object of level 0 of the 64x64 sample textures after `initGL`: Unlocked,
its slice of the store starts at byte 0 and is 64*64*4 bytes long. -/
def level0Of64 : D3DGLTextureSurface := D3DGLTextureSurface.init (.ctor 0) 0 16384

/-- The byte offset of the specification for a lock region with origin (`left`, `top`) on
a level of width `w` with `b` bytes per texel or block: `(top*w + left)*b` for uncompressed
formats and `((top div 4)*ceil(w/4) + (left div 4))*b` for compressed formats. -/
def specLockOffset (compressed : Bool) (w b : Nat) (left top : Int) : Int :=
  if compressed then (top / 4 * ((w + 3) / 4 : Nat) + left / 4) * b
  else (top * w + left) * b

/-- The pitch of the specification for a level of width `w` with `b` bytes per texel or
block: `w*b` for uncompressed formats and `ceil(w/4)*b` for compressed formats. -/
def specLockPitch (compressed : Bool) (w b : Nat) : Nat :=
  if compressed then (w + 3) / 4 * b else w * b

/-! ## Facts about the command queue -/

theorem sQueueSize_eq : sQueueSize = 1048576 := by decide

theorem sQueueMask_eq : sQueueMask = 2 ^ 20 - 1 := by decide

theorem and_sQueueMask (x : Nat) : x &&& sQueueMask = x % 1048576 := by
  rw [sQueueMask_eq, Nat.and_pow_two_sub_one_eq_mod]

theorem freeSpace_eq (q : CommandQueue) (hh : q.mHead < sQueueSize) (ht : q.mTail < sQueueSize) :
    q.freeSpace = (q.mTail + sQueueSize - q.mHead - 1) % sQueueSize := by
  rw [sQueueSize_eq] at hh ht ⊢
  unfold CommandQueue.freeSpace ulongSub two32
  rw [and_sQueueMask]
  omega

theorem ulongSub_sQueueSize (head : Nat) (h : head ≤ sQueueSize) :
    ulongSub sQueueSize head = sQueueSize - head := by
  rw [sQueueSize_eq] at h ⊢
  unfold ulongSub two32
  omega

theorem construct_mHead (S : Sizes) (c : Command) (q : CommandQueue)
    (h : q.mHead + S.sizeof c < sQueueSize) :
    (q.construct S c).mHead = q.mHead + S.sizeof c := by
  rw [sQueueSize_eq] at h
  unfold CommandQueue.construct two32
  simp only [and_sQueueMask]
  omega

/-- A minimal command sent while the head is at least two units before the end and the
tail is at the buffer start is accepted without padding. -/
theorem sendAndUnlock_NoOp_fits (S : Sizes) (fuel h : Nat) (d : List Entry)
    (hu : 0 < S.szNoOp) (hfit : h + S.szNoOp < sQueueSize) :
    sendAndUnlock S (fuel + 1) .NoOp { mHead := h, mTail := 0, mQueueData := d } =
      .sent { mHead := h + S.szNoOp, mTail := 0, mQueueData := d ++ [⟨h, .NoOp⟩] } := by
  have hfree : (CommandQueue.mk h 0 d).freeSpace = sQueueSize - h - 1 := by
    rw [freeSpace_eq _ (by simp only; omega) (by simp only [sQueueSize_eq]; omega)]
    simp only [sQueueSize_eq] at hfit ⊢
    omega
  have hc := construct_mHead S .NoOp (CommandQueue.mk h 0 d) (by simpa [Sizes.sizeof] using hfit)
  have hrem : ¬ (ulongSub sQueueSize h < S.szNoOp) := by
    rw [ulongSub_sQueueSize h (by omega)]; omega
  simp only [sendAndUnlock, Sizes.sizeof, hrem, if_false, hfree]
  have hge : sQueueSize - h - 1 ≥ S.szNoOp := by omega
  simp only [hge, if_true]
  congr 1
  simp only [CommandQueue.construct, Sizes.sizeof] at hc ⊢
  simp only [hc]

/-- Back-to-back minimal commands: `n` of them starting at head `k * u` are all accepted
as long as the head stays at least one unit before the end. -/
theorem sendAll_NoOps (S : Sizes) (fuel : Nat) (hu : 0 < S.szNoOp) :
    ∀ (n k : Nat) (d : List Entry), (k + n) * S.szNoOp + S.szNoOp ≤ sQueueSize →
      ∃ d1, d1.length = d.length + n ∧
        sendAll S (fuel + 1) (List.replicate n .NoOp)
            { mHead := k * S.szNoOp, mTail := 0, mQueueData := d } =
          .sent { mHead := (k + n) * S.szNoOp, mTail := 0, mQueueData := d1 } := by
  intro n
  induction n with
  | zero => intro k d _; exact ⟨d, rfl, by simp [sendAll]⟩
  | succ n ih =>
    intro k d hle
    have hstep : k * S.szNoOp + S.szNoOp < sQueueSize := by
      have : (k + 1) * S.szNoOp ≤ (k + (n + 1)) * S.szNoOp :=
        Nat.mul_le_mul_right _ (by omega)
      have h2 : (k + 1) * S.szNoOp = k * S.szNoOp + S.szNoOp := by ring
      omega
    obtain ⟨d1, hlen, hd1⟩ := ih (k + 1) (d ++ [⟨k * S.szNoOp, .NoOp⟩])
      (by rw [show k + 1 + n = k + (n + 1) by omega]; exact hle)
    refine ⟨d1, by simp at hlen; omega, ?_⟩
    rw [List.replicate_succ, sendAll, sendAndUnlock_NoOp_fits S fuel _ d hu hstep]
    simp only
    rw [show k * S.szNoOp + S.szNoOp = (k + 1) * S.szNoOp by ring, hd1,
      show k + 1 + n = k + (n + 1) by omega]

theorem sendAndUnlock_sent_inv (S : Sizes) (fuel : Nat) (c : Command) (q q' : CommandQueue)
    (h : sendAndUnlock S fuel c q = .sent q') :
    ∃ q1 : CommandQueue, S.sizeof c ≤ q1.freeSpace ∧ q' = q1.construct S c := by
  cases fuel with
  | zero => simp [sendAndUnlock] at h
  | succ f =>
    simp only [sendAndUnlock] at h
    generalize (if ulongSub sQueueSize q.mHead < S.sizeof c then
        if ulongSub sQueueSize q.mHead ≥ S.szSkip then
          sendAndUnlock S f (.Skip (ulongSub sQueueSize q.mHead)) q
        else sendNoOps S f c q
      else SendResult.sent q) = padded at h
    cases padded with
    | sent q1 =>
      simp only at h
      by_cases hfree : q1.freeSpace ≥ S.sizeof c
      · rw [if_pos hfree] at h
        exact ⟨q1, hfree, by cases h; rfl⟩
      · rw [if_neg hfree] at h
        cases h
    | waiting q1 => cases h
    | diverges => cases h

theorem sendAndUnlock_full_waits (S : Sizes) (fuel : Nat) (c : Command) (q : CommandQueue)
    (hrem : S.sizeof c ≤ ulongSub sQueueSize q.mHead) (hfree : q.freeSpace < S.sizeof c) :
    sendAndUnlock S (fuel + 1) c q = .waiting q := by
  have h1 : ¬ (ulongSub sQueueSize q.mHead < S.sizeof c) := by omega
  have h2 : ¬ (q.freeSpace ≥ S.sizeof c) := by omega
  simp only [sendAndUnlock, h1, if_false, h2]

theorem sendAndUnlock_room_sends (S : Sizes) (fuel : Nat) (c : Command) (q : CommandQueue)
    (hrem : S.sizeof c ≤ ulongSub sQueueSize q.mHead) (hfree : S.sizeof c ≤ q.freeSpace) :
    sendAndUnlock S (fuel + 1) c q = .sent (q.construct S c) := by
  have h1 : ¬ (ulongSub sQueueSize q.mHead < S.sizeof c) := by omega
  have h2 : q.freeSpace ≥ S.sizeof c := hfree
  simp only [sendAndUnlock, h1, if_false, h2, if_true]

/-- Evaluation at the head 32 bytes before the physical end (64-bit sizes): one Skip
record of 16 bytes is written, then the 56-byte upload command at `sQueueSize - 16`. -/
theorem sendAndUnlock_nearEnd_eval (fuel : Nat) :
    sendAndUnlock win64Sizes (fuel + 3) sampleLoadLevel (queueNearEnd 32) =
      .sent { mHead := 40, mTail := sQueueSize - 32,
              mQueueData := [⟨sQueueSize - 32, .Skip 32⟩, ⟨sQueueSize - 16, sampleLoadLevel⟩] } := by
  have h1 : sendAndUnlock win64Sizes (fuel + 2) (.Skip 32) (queueNearEnd 32) =
      .sent ((queueNearEnd 32).construct win64Sizes (.Skip 32)) :=
    sendAndUnlock_room_sends _ _ _ _ (by decide) (by decide)
  rw [sendAndUnlock]
  simp only [show (queueNearEnd 32).mHead = sQueueSize - 32 from rfl]
  rw [if_pos (by decide), if_pos (by decide)]
  simp only [show ulongSub sQueueSize (sQueueSize - 32) = 32 from by decide, h1]
  decide

/-! ## The claims about the command queue -/

/-- C1 (fails on the code): the head offset `2^20 - 32` is a multiple of the base command
size 8 and leaves 32 bytes, fewer than the 56 bytes of an upload command and at least
`sizeof(CommandSkip) = 16`. The padding step writes one Skip record carrying 32 but
advances the head by `sizeof(CommandSkip)` only, so after it the head is at `2^20 - 16`,
not at the buffer start; the upload command is then constructed at `2^20 - 16`, and its
region ends 40 bytes past the physical end of the buffer. -/
theorem C1_skip_padding_overruns_buffer (fuel : Nat) :
    (queueNearEnd 32).mHead % win64Sizes.szCommand = 0 ∧
    (queueNearEnd 32).mHead < sQueueSize ∧
    sQueueSize - (queueNearEnd 32).mHead < win64Sizes.sizeof sampleLoadLevel ∧
    win64Sizes.szSkip ≤ sQueueSize - (queueNearEnd 32).mHead ∧
    ulongSub sQueueSize (queueNearEnd 32).mHead = sQueueSize - (queueNearEnd 32).mHead ∧
    sendAndUnlock win64Sizes (fuel + 2) (.Skip 32) (queueNearEnd 32) =
      .sent { mHead := sQueueSize - 16, mTail := sQueueSize - 32,
              mQueueData := [⟨sQueueSize - 32, .Skip 32⟩] } ∧
    sendAndUnlock win64Sizes (fuel + 3) sampleLoadLevel (queueNearEnd 32) =
      .sent { mHead := 40, mTail := sQueueSize - 32,
              mQueueData := [⟨sQueueSize - 32, .Skip 32⟩, ⟨sQueueSize - 16, sampleLoadLevel⟩] } ∧
    sQueueSize < (sQueueSize - 16) + win64Sizes.sizeof sampleLoadLevel := by
  refine ⟨by decide, by decide, by decide, by decide, by decide, ?_,
    sendAndUnlock_nearEnd_eval fuel, by decide⟩
  rw [sendAndUnlock_room_sends _ _ _ _ (by decide) (by decide)]
  decide

/-- C2 (fails on the code): in the same enqueue the Skip record written by the padding
step returns 32 from `execute()` while the enqueue advanced the head by
`sizeof(CommandSkip) = 16` for it. The head advanced by 72 bytes in total, the consumer
advances the tail by 88 bytes when it executes the two entries, and it ends with the tail
at 56 while the head is at 40. -/
theorem C2_skip_returns_more_than_written (fuel : Nat) :
    ∃ q : CommandQueue,
      sendAndUnlock win64Sizes (fuel + 3) sampleLoadLevel (queueNearEnd 32) = .sent q ∧
      q.mQueueData.map (fun e => (e.cmd, win64Sizes.sizeof e.cmd, e.cmd.execute win64Sizes)) =
        [(.Skip 32, 16, 32), (sampleLoadLevel, 56, 56)] ∧
      q.bytesWritten win64Sizes = 72 ∧
      q.bytesConsumed win64Sizes = 88 ∧
      q.mHead = 40 ∧
      (q.runAll win64Sizes).mTail = 56 := by
  refine ⟨_, sendAndUnlock_nearEnd_eval fuel, ?_, ?_, ?_, ?_, ?_⟩ <;> decide

/-- C3: `sendAndUnlock` constructs the command and advances the head only in a state
whose free space `(tail - head - 1) mod capacity` is at least the command size, and with
less free space (and no padding due) it waits. Starting from the empty queue with the
tail at rest, `capacity/u - 1` minimal commands (`u = sizeof(CommandNoOp)`) are accepted
back to back; the next one waits, leaving the queue as it is, and is accepted once the
consumer has executed one command (tail advanced by `u`). -/
theorem C3_backpressure (S : Sizes) (hS : S.WF) (fuel : Nat) :
    (∀ (c : Command) (q q' : CommandQueue), sendAndUnlock S fuel c q = .sent q' →
      ∃ q1 : CommandQueue, S.sizeof c ≤ q1.freeSpace ∧ q' = q1.construct S c) ∧
    (∀ q : CommandQueue, q.mHead < sQueueSize → q.mTail < sQueueSize →
      q.freeSpace = (q.mTail + sQueueSize - q.mHead - 1) % sQueueSize) ∧
    (∀ (c : Command) (q : CommandQueue), q.mHead ≤ sQueueSize →
      S.sizeof c ≤ sQueueSize - q.mHead →
      q.freeSpace < S.sizeof c → sendAndUnlock S (fuel + 1) c q = .waiting q) ∧
    ∃ qFull : CommandQueue,
      sendAll S (fuel + 1) (List.replicate (sQueueSize / S.szNoOp - 1) .NoOp)
        CommandQueue.empty = .sent qFull ∧
      qFull.mQueueData.length = sQueueSize / S.szNoOp - 1 ∧
      qFull.mHead = sQueueSize - S.szNoOp ∧ qFull.mTail = 0 ∧
      sendAndUnlock S (fuel + 1) .NoOp qFull = .waiting qFull ∧
      sendAndUnlock S (fuel + 1) .NoOp { qFull with mTail := S.szNoOp } =
        .sent { mHead := 0, mTail := S.szNoOp,
                mQueueData := qFull.mQueueData ++ [⟨sQueueSize - S.szNoOp, .NoOp⟩] } := by
  obtain ⟨hpos, hdvd, hno, hok, -⟩ := hS
  obtain ⟨hle, -, hlt⟩ := hok
  have hu : 0 < S.szNoOp := by omega
  have hdiv : sQueueSize / S.szNoOp * S.szNoOp = sQueueSize :=
    Nat.div_mul_cancel (Nat.dvd_of_mod_eq_zero (by rw [hno]; exact hdvd))
  have hn1 : 1 ≤ sQueueSize / S.szNoOp := by
    rcases Nat.eq_zero_or_pos (sQueueSize / S.szNoOp) with h0 | h0
    · rw [h0] at hdiv; simp [sQueueSize_eq] at hdiv
    · exact h0
  have hhead : (sQueueSize / S.szNoOp - 1) * S.szNoOp = sQueueSize - S.szNoOp := by
    rw [Nat.sub_mul, hdiv, Nat.one_mul]
  have h2u : 2 * S.szNoOp ≤ sQueueSize := by
    have h2 : 2 ≤ sQueueSize / S.szNoOp := by
      rcases Nat.lt_or_ge (sQueueSize / S.szNoOp) 2 with h | h
      · have : sQueueSize / S.szNoOp = 1 := by omega
        rw [this] at hdiv; omega
      · exact h
    calc 2 * S.szNoOp ≤ sQueueSize / S.szNoOp * S.szNoOp := Nat.mul_le_mul_right _ h2
      _ = sQueueSize := hdiv
  refine ⟨fun c q q' h => sendAndUnlock_sent_inv S fuel c q q' h, freeSpace_eq,
    fun c q h0 h1 h2 => sendAndUnlock_full_waits S fuel c q
      (by rw [ulongSub_sQueueSize _ h0]; exact h1) h2, ?_⟩
  obtain ⟨d1, hlen, hd1⟩ := sendAll_NoOps S fuel hu (sQueueSize / S.szNoOp - 1) 0 []
    (by rw [Nat.zero_add, hhead]; omega)
  rw [Nat.zero_add, hhead] at hd1
  rw [Nat.zero_mul] at hd1
  refine ⟨_, hd1, by simpa using hlen, rfl, rfl, ?_, ?_⟩
  · apply sendAndUnlock_full_waits
    · rw [ulongSub_sQueueSize _ (by simp only; omega)]
      simp only [Sizes.sizeof]; omega
    · rw [freeSpace_eq _ (by simp only; omega) (by simp only [sQueueSize_eq]; omega)]
      simp only [Sizes.sizeof, sQueueSize_eq] at *
      omega
  · rw [sendAndUnlock_room_sends]
    · simp only [CommandQueue.construct, Sizes.sizeof, and_sQueueMask, two32]
      have hz : (sQueueSize - S.szNoOp + S.szNoOp) % 4294967296 % 1048576 = 0 := by
        simp only [sQueueSize_eq] at *
        omega
      rw [hz]
    · rw [ulongSub_sQueueSize _ (by simp only; omega)]
      simp only [Sizes.sizeof]; omega
    · rw [freeSpace_eq _ (by simp only; omega) (by simp only; omega)]
      simp only [Sizes.sizeof, sQueueSize_eq] at *
      omega

/-- C3 at the 64-bit sizes: 131071 minimal commands are accepted, the next one waits. -/
theorem C3_backpressure_witness :
    win64Sizes.WF ∧
    ∃ qFull : CommandQueue,
      sendAll win64Sizes 1 (List.replicate (sQueueSize / win64Sizes.szNoOp - 1) .NoOp)
        CommandQueue.empty = .sent qFull ∧
      qFull.mQueueData.length = sQueueSize / win64Sizes.szNoOp - 1 ∧
      sendAndUnlock win64Sizes 1 .NoOp qFull = .waiting qFull :=
  ⟨by decide,
    let ⟨q, h1, h2, _, _, h5, _⟩ := (C3_backpressure win64Sizes (by decide) 0).2.2.2
    ⟨q, h1, h2, h5⟩⟩

/-! ## Facts about textures and surfaces -/

theorem list_set_getElem?_self {α : Type} (l : List α) (i : Nat) (a : α) (h : l[i]? = some a) :
    l.set i a = l := by
  induction l generalizing i with
  | nil => simp
  | cons x xs ih =>
    cases i with
    | zero => simp at h; simp [h]
    | succ n => simp at h; simp [ih n h]

theorem withSurface_self (t : D3DGLTexture) (level : Nat) (s : D3DGLTextureSurface)
    (h : t.mSurfaces[level]? = some s) : t.withSurface level s = t := by
  unfold D3DGLTexture.withSurface
  rw [list_set_getElem?_self _ _ _ h]

theorem withSurface_getElem? (t : D3DGLTexture) (level : Nat) (s s0 : D3DGLTextureSurface)
    (h : t.mSurfaces[level]? = some s0) : (t.withSurface level s).mSurfaces[level]? = some s := by
  unfold D3DGLTexture.withSurface
  have hlt : level < t.mSurfaces.length := by
    rcases Nat.lt_or_ge level t.mSurfaces.length with h1 | h1
    · exact h1
    · rw [List.getElem?_eq_none h1] at h; cases h
  simp [hlt]

/-- A locked surface refuses `LockRect` whatever the arguments. -/
theorem LockRect_locked (self : D3DGLTextureSurface) (parent : D3DGLTexture)
    (rect : Option RECT) (flags : Nat) (h : self.mLock ≠ .LT_Unlocked) :
    self.LockRect parent rect flags = .returned .D3DERR_INVALIDCALL self parent none := by
  unfold D3DGLTextureSurface.LockRect
  simp only [h, ne_eq, not_false_eq_true, if_true]
  split_ifs <;> rfl

/-- With the counter at zero and a format present, the part of `LockRect` after the wait
returns success and records the lock region; the lock state is not touched. -/
theorem lockAfterWait_ok (self : D3DGLTextureSurface) (parent : D3DGLTexture) (rect : RECT)
    (flags w : Nat) (fmt : GLFormatInfo) (hf : parent.mGLFormat = some fmt) :
    ∃ self1 parent1 lr, self.lockAfterWait parent rect flags w =
        .returned .D3D_OK self1 parent1 (some lr) ∧
      self1.mLock = self.mLock ∧ self1.mLockRegion = rect ∧ self1.mLevel = self.mLevel ∧
      parent1.mDesc = parent.mDesc ∧ parent1.mGLFormat = parent.mGLFormat ∧
      parent1.mUpdateInProgress = parent.mUpdateInProgress ∧
      parent1.mSurfaces = parent.mSurfaces ∧ parent1.queue = parent.queue ∧
      parent1.addr = parent.addr := by
  unfold D3DGLTextureSurface.lockAfterWait
  simp only [D3DGLTexture.AddDirtyRect]
  split_ifs <;> simp [hf] <;> refine ⟨_, _, ⟨rfl, rfl⟩, ?_⟩ <;> simp [hf]

theorem LockRect_ok_inv (self self1 : D3DGLTextureSurface) (parent parent1 : D3DGLTexture)
    (rect : Option RECT) (flags : Nat) (lr : Option D3DLOCKED_RECT)
    (h : self.LockRect parent rect flags = .returned .D3D_OK self1 parent1 lr) :
    ¬ (parent.mDesc.Pool = .DEFAULT ∧ parent.mDesc.Usage &&& D3DUSAGE_DYNAMIC = 0) ∧
    ¬ (flags &&& D3DLOCK_DISCARD ≠ 0 ∧ flags &&& D3DLOCK_READONLY ≠ 0) ∧
    ¬ (flags &&& D3DLOCK_DISCARD ≠ 0 ∧ rect.isSome) ∧
    self.mLock = .LT_Unlocked ∧ parent.mUpdateInProgress = 0 ∧
    D3DGLTextureSurface.lockAfterWait { self with mLock := lockTypeFor flags } parent
      (rect.getD ⟨0, 0, toLONG (max 1 (parent.mDesc.Width >>> self.mLevel) : Nat),
        toLONG (max 1 (parent.mDesc.Height >>> self.mLevel) : Nat)⟩) flags
      (max 1 (parent.mDesc.Width >>> self.mLevel)) =
      .returned .D3D_OK self1 parent1 lr := by
  unfold D3DGLTextureSurface.LockRect at h
  by_cases h1 : parent.mDesc.Pool = .DEFAULT ∧ parent.mDesc.Usage &&& D3DUSAGE_DYNAMIC = 0
  · rw [if_pos h1] at h; cases h
  rw [if_neg h1] at h
  simp only at h
  by_cases h2 : flags &&& D3DLOCK_DISCARD ≠ 0 ∧ flags &&& D3DLOCK_READONLY ≠ 0
  · rw [if_pos h2] at h; cases h
  rw [if_neg h2] at h
  by_cases h3 : flags &&& D3DLOCK_DISCARD ≠ 0 ∧ rect.isSome
  · rw [if_pos h3] at h; cases h
  rw [if_neg h3] at h
  by_cases h4 : self.mLock ≠ .LT_Unlocked
  · rw [if_pos h4] at h; cases h
  rw [if_neg h4] at h
  unfold D3DGLTextureSurface.lockResume at h
  by_cases h5 : parent.mUpdateInProgress ≠ 0
  · rw [if_pos h5] at h; cases h
  rw [if_neg h5] at h
  exact ⟨h1, h2, h3, not_not.mp h4, not_not.mp h5, h⟩


theorem lockAfterWait_inv (self self1 : D3DGLTextureSurface) (parent parent1 : D3DGLTexture)
    (rect : RECT) (flags w : Nat) (hr : HRESULT) (lr : Option D3DLOCKED_RECT)
    (h : self.lockAfterWait parent rect flags w = .returned hr self1 parent1 lr) :
    hr = .D3D_OK ∧ self1.mLock = self.mLock ∧ self1.mLockRegion = rect ∧
    self1.mLevel = self.mLevel ∧ parent1.mDesc = parent.mDesc ∧
    parent1.mGLFormat = parent.mGLFormat ∧ parent.mGLFormat ≠ none ∧
    parent1.mUpdateInProgress = parent.mUpdateInProgress ∧
    parent1.mSurfaces = parent.mSurfaces ∧ parent1.queue = parent.queue ∧
    parent1.addr = parent.addr := by
  cases hf : parent.mGLFormat with
  | none =>
    exfalso
    unfold D3DGLTextureSurface.lockAfterWait at h
    simp only at h
    split_ifs at h <;> simp [hf] at h
  | some fmt =>
    obtain ⟨s, p, l, he, h1, h2, h3, h4, h5, h6, h7, h8, h9⟩ :=
      lockAfterWait_ok self parent rect flags w fmt hf
    rw [he] at h
    cases h
    exact ⟨rfl, h1, h2, h3, h4, by rw [h5, hf], by simp, h6, h7, h8, h9⟩

theorem lockTypeFor_ne (flags : Nat) : lockTypeFor flags ≠ .LT_Unlocked := by
  unfold lockTypeFor; split_ifs <;> simp

theorem LockRect_success (self : D3DGLTextureSurface) (parent : D3DGLTexture)
    (rect : Option RECT) (flags : Nat) (hl : parent.lockable) (ha : lockArgsOk rect flags)
    (hu : self.mLock = .LT_Unlocked) (hc : parent.mUpdateInProgress = 0)
    (hf : parent.mGLFormat ≠ none) :
    ∃ self1 parent1 lr, self.LockRect parent rect flags =
        .returned .D3D_OK self1 parent1 (some lr) ∧
      self1.mLock = lockTypeFor flags ∧ parent1.mSurfaces = parent.mSurfaces ∧
      parent1.mDesc = parent.mDesc ∧ parent1.mGLFormat = parent.mGLFormat ∧
      parent1.mUpdateInProgress = 0 ∧ parent1.queue = parent.queue ∧
      parent1.addr = parent.addr := by
  obtain ⟨fmt, hfmt⟩ := Option.ne_none_iff_exists'.mp hf
  unfold D3DGLTextureSurface.LockRect
  rw [if_neg hl]
  simp only
  rw [if_neg ha.1, if_neg ha.2, if_neg (by simp [hu])]
  unfold D3DGLTextureSurface.lockResume
  rw [if_neg (by simp [hc])]
  obtain ⟨s, p, l, he, h1, -, -, h4, h5, h6, h7, h8, h9⟩ :=
    lockAfterWait_ok { self with mLock := lockTypeFor flags } parent
      (rect.getD ⟨0, 0, toLONG (max 1 (parent.mDesc.Width >>> self.mLevel) : Nat),
        toLONG (max 1 (parent.mDesc.Height >>> self.mLevel) : Nat)⟩) flags
      (max 1 (parent.mDesc.Width >>> self.mLevel)) fmt hfmt
  exact ⟨s, p, l, he, h1, h7, h4, h5, by rw [h6, hc], h8, h9⟩

theorem LockRect_ok_facts (self self1 : D3DGLTextureSurface) (parent parent1 : D3DGLTexture)
    (rect : Option RECT) (flags : Nat) (lr : Option D3DLOCKED_RECT)
    (h : self.LockRect parent rect flags = .returned .D3D_OK self1 parent1 lr) :
    parent.lockable ∧ lockArgsOk rect flags ∧ self.mLock = .LT_Unlocked ∧
    parent.mUpdateInProgress = 0 ∧ parent.mGLFormat ≠ none ∧
    self1.mLock = lockTypeFor flags ∧ parent1.mSurfaces = parent.mSurfaces ∧
    parent1.mDesc = parent.mDesc ∧ parent1.mGLFormat = parent.mGLFormat ∧
    parent1.mUpdateInProgress = 0 := by
  obtain ⟨h1, h2, h3, h4, h5, h6⟩ := LockRect_ok_inv self self1 parent parent1 rect flags lr h
  obtain ⟨-, k1, -, -, k4, k5, k6, k7, k8, -, -⟩ := lockAfterWait_inv _ _ _ _ _ _ _ _ _ h6
  exact ⟨h1, ⟨h2, h3⟩, h4, h5, k6, k1, k8, k4, k5, by rw [k7, h5]⟩

theorem UnlockRect_locked (self : D3DGLTextureSurface) (parent : D3DGLTexture)
    (h : self.mLock ≠ .LT_Unlocked) :
    (self.UnlockRect parent).1 = .D3D_OK ∧ (self.UnlockRect parent).2.1.mLock = .LT_Unlocked ∧
    (self.UnlockRect parent).2.1.mLevel = self.mLevel ∧
    (self.UnlockRect parent).2.2.mSurfaces = parent.mSurfaces ∧
    (self.UnlockRect parent).2.2.mDesc = parent.mDesc ∧
    (self.UnlockRect parent).2.2.mGLFormat = parent.mGLFormat ∧
    (self.UnlockRect parent).2.2.mUpdateInProgress = ulongInc parent.mUpdateInProgress := by
  unfold D3DGLTextureSurface.UnlockRect
  rw [if_neg h]
  split_ifs <;> simp [D3DGLTexture.updateTexture, D3DGLTexture.send]

theorem TexLockRect_ok_inv (t t1 : D3DGLTexture) (level : Nat) (rect : Option RECT)
    (flags : Nat) (lr : Option D3DLOCKED_RECT)
    (h : t.LockRect level rect flags = .returned .D3D_OK t1 lr) :
    ∃ s s1 p1, t.mSurfaces[level]? = some s ∧
      s.LockRect t rect flags = .returned .D3D_OK s1 p1 lr ∧ t1 = p1.withSurface level s1 := by
  unfold D3DGLTexture.LockRect at h
  cases hs : t.mSurfaces[level]? with
  | none => rw [hs] at h; cases h
  | some s =>
    rw [hs] at h
    simp only at h
    cases hr : s.LockRect t rect flags with
    | returned hr0 s1 p1 lr1 =>
      rw [hr] at h
      simp only [LockResult.toTex] at h
      cases h
      exact ⟨s, s1, p1, rfl, hr, rfl⟩
    | spinning s1 p1 r f w => rw [hr] at h; cases h
    | fault => rw [hr] at h; cases h

/-- Discard with read-only or with an explicit region is refused, in any state. -/
theorem LockRect_conflicting (self : D3DGLTextureSurface) (parent : D3DGLTexture)
    (rect : Option RECT) (flags : Nat)
    (hdiscard : flags &&& D3DLOCK_DISCARD ≠ 0)
    (hconflict : flags &&& D3DLOCK_READONLY ≠ 0 ∨ rect ≠ none) :
    self.LockRect parent rect flags = .returned .D3DERR_INVALIDCALL self parent none ∧
    ∀ level : Nat, parent.mSurfaces[level]? = some self →
      parent.LockRect level rect flags = .returned .D3DERR_INVALIDCALL parent none := by
  have h1 : self.LockRect parent rect flags = .returned .D3DERR_INVALIDCALL self parent none := by
    unfold D3DGLTextureSurface.LockRect
    by_cases a : parent.mDesc.Pool = .DEFAULT ∧ parent.mDesc.Usage &&& D3DUSAGE_DYNAMIC = 0
    · rw [if_pos a]
    · rw [if_neg a]
      simp only
      by_cases b : flags &&& D3DLOCK_DISCARD ≠ 0 ∧ flags &&& D3DLOCK_READONLY ≠ 0
      · rw [if_pos b]
      · rw [if_neg b]
        have c : flags &&& D3DLOCK_DISCARD ≠ 0 ∧ rect.isSome := by
          refine ⟨hdiscard, ?_⟩
          rcases hconflict with h | h
          · exact absurd ⟨hdiscard, h⟩ b
          · cases rect with
            | none => exact absurd rfl h
            | some r => rfl
        rw [if_pos c]
  refine ⟨h1, fun level hs => ?_⟩
  unfold D3DGLTexture.LockRect
  rw [hs]
  simp only
  rw [h1]
  simp only [LockResult.toTex, withSurface_self parent level self hs]


/-- An Unlocked surface refuses `UnlockRect`. -/
theorem UnlockRect_unlocked (self : D3DGLTextureSurface) (parent : D3DGLTexture)
    (hunlocked : self.mLock = .LT_Unlocked) :
    self.UnlockRect parent = (.D3DERR_INVALIDCALL, self, parent) ∧
    ∀ level : Nat, parent.mSurfaces[level]? = some self →
      parent.UnlockRect level = (.D3DERR_INVALIDCALL, parent) := by
  have h1 : self.UnlockRect parent = (.D3DERR_INVALIDCALL, self, parent) := by
    unfold D3DGLTextureSurface.UnlockRect
    rw [if_pos hunlocked]
  refine ⟨h1, fun level hs => ?_⟩
  unfold D3DGLTexture.UnlockRect
  rw [hs]
  simp only [h1, withSurface_self parent level self hs]

theorem TexLockRect_success (t : D3DGLTexture) (level : Nat) (s : D3DGLTextureSurface)
    (rect : Option RECT) (flags : Nat) (hl : t.lockable) (ha : lockArgsOk rect flags)
    (hs : t.mSurfaces[level]? = some s) (hu : s.mLock = .LT_Unlocked)
    (hc : t.mUpdateInProgress = 0) (hf : t.mGLFormat ≠ none) :
    ∃ t1 lr s1, t.LockRect level rect flags = .returned .D3D_OK t1 (some lr) ∧
      t1.mSurfaces[level]? = some s1 ∧ s1.mLock = lockTypeFor flags ∧ s1.mLevel = s.mLevel ∧
      t1.mDesc = t.mDesc ∧ t1.mGLFormat = t.mGLFormat ∧ t1.mUpdateInProgress = 0 ∧
      t1.queue = t.queue ∧ t1.addr = t.addr := by
  obtain ⟨fmt, hfmt⟩ := Option.ne_none_iff_exists'.mp hf
  obtain ⟨s1, p1, lr, he, k1, -, k3, k4, k5, k6, k7, k8, k9⟩ :=
    lockAfterWait_ok { s with mLock := lockTypeFor flags } t
      (rect.getD ⟨0, 0, toLONG (max 1 (t.mDesc.Width >>> s.mLevel) : Nat),
        toLONG (max 1 (t.mDesc.Height >>> s.mLevel) : Nat)⟩) flags
      (max 1 (t.mDesc.Width >>> s.mLevel)) fmt hfmt
  have hL : s.LockRect t rect flags = .returned .D3D_OK s1 p1 (some lr) := by
    unfold D3DGLTextureSurface.LockRect
    rw [if_neg hl]
    simp only
    rw [if_neg ha.1, if_neg ha.2, if_neg (by simp [hu])]
    unfold D3DGLTextureSurface.lockResume
    rw [if_neg (by simp [hc])]
    exact he
  refine ⟨p1.withSurface level s1, lr, s1, ?_,
    withSurface_getElem? p1 level s1 s (by rw [k7]; exact hs), k1, k3, k4, k5,
    by rw [← hc]; exact k6, k8, k9⟩
  unfold D3DGLTexture.LockRect
  rw [hs]
  simp only
  rw [hL]
  rfl

theorem TexUnlockRect_locked (t : D3DGLTexture) (level : Nat) (s : D3DGLTextureSurface)
    (hs : t.mSurfaces[level]? = some s) (hne : s.mLock ≠ .LT_Unlocked) :
    ∃ t2 s2 ptr del, t.UnlockRect level = (.D3D_OK, t2) ∧
      t2.mSurfaces[level]? = some s2 ∧ s2.mLock = .LT_Unlocked ∧
      t2.mDesc = t.mDesc ∧ t2.mGLFormat = t.mGLFormat ∧
      t2.mUpdateInProgress = ulongInc t.mUpdateInProgress ∧
      t2.queue = t.queue ++ [.TextureLoadLevel t.addr s.mLevel s.mLockRegion ptr del] ∧
      t2.addr = t.addr := by
  have hlt : level < t.mSurfaces.length := by
    rcases Nat.lt_or_ge level t.mSurfaces.length with h1 | h1
    · exact h1
    · rw [List.getElem?_eq_none h1] at hs; cases hs
  unfold D3DGLTexture.UnlockRect
  rw [hs]
  simp only
  unfold D3DGLTextureSurface.UnlockRect
  rw [if_neg hne]
  by_cases hscr : s.mScratchMem ≠ GLptr.nullptr
  · rw [if_pos hscr]
    refine ⟨_, { s with mScratchMem := GLptr.nullptr, mLock := .LT_Unlocked }, s.mScratchMem,
      true, rfl, ?_, rfl, rfl, rfl, rfl, rfl, rfl⟩
    simp [D3DGLTexture.withSurface, D3DGLTexture.updateTexture, D3DGLTexture.send, hlt]
  · rw [if_neg hscr]
    refine ⟨_, { s with mLock := .LT_Unlocked }, t.mUserPtr.add s.mDataOffset,
      false, rfl, ?_, rfl, rfl, rfl, rfl, rfl, rfl⟩
    simp [D3DGLTexture.withSurface, D3DGLTexture.updateTexture, D3DGLTexture.send, hlt]

theorem loadTexLevelGL_some (t : D3DGLTexture) (level : Nat) (rect : RECT) (dataPtr : GLptr)
    (deletePtr : Bool) (s : D3DGLTextureSurface) (hs : t.mSurfaces[level]? = some s)
    (hf : t.mGLFormat ≠ none) :
    ∃ t1, t.loadTexLevelGL level rect dataPtr deletePtr = some t1 ∧
      t1.mUpdateInProgress = ulongDec t.mUpdateInProgress ∧ t1.mSurfaces = t.mSurfaces ∧
      t1.mDesc = t.mDesc ∧ t1.mGLFormat = t.mGLFormat ∧ t1.addr = t.addr := by
  obtain ⟨fmt, hfmt⟩ := Option.ne_none_iff_exists'.mp hf
  unfold D3DGLTexture.loadTexLevelGL
  rw [hs, hfmt]
  simp only
  refine ⟨_, rfl, ?_, ?_, ?_, ?_, ?_⟩ <;> (split_ifs <;> rfl)

theorem ulongDec_ulongInc_zero : ulongDec (ulongInc 0) = 0 := by decide

theorem maxLevelsLoop_eq (fuel : Nat) : ∀ (m acc : Nat), m ≤ fuel →
    maxLevelsLoop fuel m acc = acc + (if m = 0 then 0 else Nat.log 2 m + 1) := by
  induction fuel with
  | zero =>
    intro m acc h
    have : m = 0 := by omega
    simp [maxLevelsLoop, this]
  | succ f ih =>
    intro m acc h
    unfold maxLevelsLoop
    by_cases hm : m > 0
    · rw [if_pos hm, Nat.shiftRight_eq_div_pow, pow_one, ih (m / 2) (acc + 1) (by omega)]
      rw [if_neg (by omega : ¬ m = 0)]
      by_cases h2 : m / 2 = 0
      · rw [if_pos h2]
        have : m = 1 := by omega
        subst this
        simp
      · rw [if_neg h2]
        have hle : 2 ≤ m := by omega
        rw [Nat.log_of_one_lt_of_le (by decide) hle]
        omega
    · rw [if_neg hm]
      have : m = 0 := by omega
      simp [this]

theorem calcMaxLevels_eq (w h : Nat) (hpos : 0 < max w h) :
    calcMaxLevels w h = Nat.log 2 (max w h) + 1 := by
  unfold calcMaxLevels
  rw [maxLevelsLoop_eq _ _ _ (Nat.le_refl _), if_neg (by omega)]
  omega


theorem init_accepts_inv (gFormatList : Nat → Option GLFormatInfo) (t t1 : D3DGLTexture)
    (desc : D3DSURFACE_DESC) (levels : Nat)
    (hacc : t.init gFormatList desc levels = (true, t1)) :
    0 < desc.Width ∧ 0 < desc.Height ∧
    ¬ (desc.Usage &&& D3DUSAGE_AUTOGENMIPMAP ≠ 0 ∧ desc.Pool = .MANAGED ∧ levels > 1) ∧
    t1.mSurfaces = t.mSurfaces ++ (List.range
      (if (if desc.Usage &&& D3DUSAGE_AUTOGENMIPMAP ≠ 0 ∧ desc.Pool = .MANAGED then 1
            else levels) = 0 ∨
          (if desc.Usage &&& D3DUSAGE_AUTOGENMIPMAP ≠ 0 ∧ desc.Pool = .MANAGED then 1
            else levels) > calcMaxLevels desc.Width desc.Height
        then calcMaxLevels desc.Width desc.Height
        else (if desc.Usage &&& D3DUSAGE_AUTOGENMIPMAP ≠ 0 ∧ desc.Pool = .MANAGED then 1
            else levels))).map D3DGLTextureSurface.ctor := by
  unfold D3DGLTexture.init at hacc
  simp only at hacc
  by_cases h0 : desc.Width = 0 ∨ desc.Height = 0
  · rw [if_pos h0] at hacc; cases hacc
  rw [if_neg h0] at hacc
  cases hfmt : gFormatList desc.Format with
  | none => rw [hfmt] at hacc; cases hacc
  | some fmtinfo =>
    rw [hfmt] at hacc
    simp only at hacc
    by_cases h1 : desc.Usage &&& D3DUSAGE_RENDERTARGET ≠ 0 ∧ desc.Pool ≠ .DEFAULT
    · rw [if_pos h1] at hacc; cases hacc
    rw [if_neg h1] at hacc
    by_cases h2 : desc.Usage &&& D3DUSAGE_RENDERTARGET = 0 ∧
        desc.Usage &&& D3DUSAGE_DEPTHSTENCIL ≠ 0 ∧ desc.Pool ≠ .DEFAULT
    · rw [if_pos h2] at hacc; cases hacc
    rw [if_neg h2] at hacc
    by_cases h3 : desc.Usage &&& D3DUSAGE_AUTOGENMIPMAP ≠ 0 ∧ desc.Pool = .SYSTEMMEM
    · rw [if_pos h3] at hacc; cases hacc
    rw [if_neg h3] at hacc
    by_cases h4 : desc.Usage &&& D3DUSAGE_AUTOGENMIPMAP ≠ 0 ∧ desc.Pool = .MANAGED ∧ levels > 1
    · rw [if_pos h4] at hacc; cases hacc
    rw [if_neg h4] at hacc
    have ht : t1 = _ := (Prod.mk.inj hacc).2.symm
    refine ⟨by omega, by omega, h4, ?_⟩
    rw [ht]
    rfl

theorem AddDirtyRect_comm (t : D3DGLTexture) (x y : RECT) :
    ((t.AddDirtyRect x).2.AddDirtyRect y).2 = ((t.AddDirtyRect y).2.AddDirtyRect x).2 := by
  simp only [D3DGLTexture.AddDirtyRect]
  congr 1
  simp only [RECT.mk.injEq]
  refine ⟨?_, ?_, ?_, ?_⟩ <;> omega

theorem AddDirtyRect_idem (t : D3DGLTexture) (x : RECT) :
    ((t.AddDirtyRect x).2.AddDirtyRect x).2 = (t.AddDirtyRect x).2 := by
  simp only [D3DGLTexture.AddDirtyRect]
  congr 1
  simp only [RECT.mk.injEq]
  refine ⟨?_, ?_, ?_, ?_⟩ <;> omega

theorem addDirtyRects_perm (l1 l2 : List RECT) (h : l1.Perm l2) :
    ∀ t : D3DGLTexture, t.addDirtyRects l1 = t.addDirtyRects l2 := by
  induction h with
  | nil => intro t; rfl
  | cons x _ ih => intro t; simp only [D3DGLTexture.addDirtyRects]; exact ih _
  | swap x y l =>
    intro t
    simp only [D3DGLTexture.addDirtyRects]
    rw [AddDirtyRect_comm]
  | trans _ _ ih1 ih2 => intro t; rw [ih1, ih2]

/-- The bound after a sequence of calls lies on or outside the bound before and every
region supplied, and each of its sides is a side of the bound before or of one of the
regions. -/
theorem addDirtyRects_bound (rs : List RECT) : ∀ t : D3DGLTexture,
    ((t.addDirtyRects rs).mDirtyRect.left ≤ t.mDirtyRect.left ∧
      (∀ x ∈ rs, (t.addDirtyRects rs).mDirtyRect.left ≤ x.left) ∧
      ((t.addDirtyRects rs).mDirtyRect.left = t.mDirtyRect.left ∨
        ∃ x ∈ rs, (t.addDirtyRects rs).mDirtyRect.left = x.left)) ∧
    ((t.addDirtyRects rs).mDirtyRect.top ≤ t.mDirtyRect.top ∧
      (∀ x ∈ rs, (t.addDirtyRects rs).mDirtyRect.top ≤ x.top) ∧
      ((t.addDirtyRects rs).mDirtyRect.top = t.mDirtyRect.top ∨
        ∃ x ∈ rs, (t.addDirtyRects rs).mDirtyRect.top = x.top)) ∧
    (t.mDirtyRect.right ≤ (t.addDirtyRects rs).mDirtyRect.right ∧
      (∀ x ∈ rs, x.right ≤ (t.addDirtyRects rs).mDirtyRect.right) ∧
      ((t.addDirtyRects rs).mDirtyRect.right = t.mDirtyRect.right ∨
        ∃ x ∈ rs, (t.addDirtyRects rs).mDirtyRect.right = x.right)) ∧
    (t.mDirtyRect.bottom ≤ (t.addDirtyRects rs).mDirtyRect.bottom ∧
      (∀ x ∈ rs, x.bottom ≤ (t.addDirtyRects rs).mDirtyRect.bottom) ∧
      ((t.addDirtyRects rs).mDirtyRect.bottom = t.mDirtyRect.bottom ∨
        ∃ x ∈ rs, (t.addDirtyRects rs).mDirtyRect.bottom = x.bottom)) := by
  induction rs with
  | nil => intro t; simp [D3DGLTexture.addDirtyRects]
  | cons r rs ih =>
    intro t
    obtain ⟨⟨a1, a2, a3⟩, ⟨b1, b2, b3⟩, ⟨c1, c2, c3⟩, ⟨d1, d2, d3⟩⟩ := ih (t.AddDirtyRect r).2
    simp only [D3DGLTexture.addDirtyRects]
    have e1 : (t.AddDirtyRect r).2.mDirtyRect.left = min t.mDirtyRect.left r.left := rfl
    have e2 : (t.AddDirtyRect r).2.mDirtyRect.top = min t.mDirtyRect.top r.top := rfl
    have e3 : (t.AddDirtyRect r).2.mDirtyRect.right = max t.mDirtyRect.right r.right := rfl
    have e4 : (t.AddDirtyRect r).2.mDirtyRect.bottom = max t.mDirtyRect.bottom r.bottom := rfl
    refine ⟨⟨by omega, ?_, ?_⟩, ⟨by omega, ?_, ?_⟩, ⟨by omega, ?_, ?_⟩, ⟨by omega, ?_, ?_⟩⟩
    · intro x hx
      rcases List.mem_cons.mp hx with h | h
      · subst h; omega
      · exact a2 x h
    · rcases a3 with h | ⟨x, hx, h⟩
      · rcases le_total t.mDirtyRect.left r.left with hle | hle
        · left; omega
        · right; exact ⟨r, List.mem_cons_self _ _, by omega⟩
      · right; exact ⟨x, List.mem_cons_of_mem _ hx, h⟩
    · intro x hx
      rcases List.mem_cons.mp hx with h | h
      · subst h; omega
      · exact b2 x h
    · rcases b3 with h | ⟨x, hx, h⟩
      · rcases le_total t.mDirtyRect.top r.top with hle | hle
        · left; omega
        · right; exact ⟨r, List.mem_cons_self _ _, by omega⟩
      · right; exact ⟨x, List.mem_cons_of_mem _ hx, h⟩
    · intro x hx
      rcases List.mem_cons.mp hx with h | h
      · subst h; omega
      · exact c2 x h
    · rcases c3 with h | ⟨x, hx, h⟩
      · rcases le_total t.mDirtyRect.right r.right with hle | hle
        · right; exact ⟨r, List.mem_cons_self _ _, by omega⟩
        · left; omega
      · right; exact ⟨x, List.mem_cons_of_mem _ hx, h⟩
    · intro x hx
      rcases List.mem_cons.mp hx with h | h
      · subst h; omega
      · exact d2 x h
    · rcases d3 with h | ⟨x, hx, h⟩
      · rcases le_total t.mDirtyRect.bottom r.bottom with hle | hle
        · right; exact ⟨r, List.mem_cons_self _ _, by omega⟩
        · left; omega
      · right; exact ⟨x, List.mem_cons_of_mem _ hx, h⟩

/-! ## The claims about textures and surfaces -/

/-- C4: take a lockable texture, a level whose surface is Unlocked, and any flag and
region combination that `LockRect` accepts (not discard with read-only, not discard with
an explicit region); the format pointer is set and no update is in flight, so the call
does not wait. Then `LockRect` returns success and moves the surface to ReadOnly when the
read-only flag is set and to Full otherwise; the following `UnlockRect` on that level
returns success and leaves the surface Unlocked; and in every later state of the texture
in which the counter is back at zero and the surface is as the unlock left it, `LockRect`
with the same arguments returns success again. -/
theorem C4_lock_then_unlock_returns_to_unlocked (t : D3DGLTexture) (level : Nat)
    (s : D3DGLTextureSurface) (rect : Option RECT) (flags : Nat)
    (hl : t.lockable) (ha : lockArgsOk rect flags)
    (hs : t.mSurfaces[level]? = some s) (hu : s.mLock = .LT_Unlocked)
    (hc : t.mUpdateInProgress = 0) (hf : t.mGLFormat ≠ none) :
    ∃ (t1 : D3DGLTexture) (lr : D3DLOCKED_RECT) (s1 : D3DGLTextureSurface),
      t.LockRect level rect flags = .returned .D3D_OK t1 (some lr) ∧
      t1.mSurfaces[level]? = some s1 ∧
      s1.mLock = (if flags &&& D3DLOCK_READONLY ≠ 0 then LockType.LT_ReadOnly
        else LockType.LT_Full) ∧
      ∃ t2, t1.UnlockRect level = (.D3D_OK, t2) ∧
        (∃ s2, t2.mSurfaces[level]? = some s2 ∧ s2.mLock = .LT_Unlocked) ∧
        ∀ t3 : D3DGLTexture, t3.mSurfaces[level]? = t2.mSurfaces[level]? →
          t3.mDesc = t2.mDesc → t3.mGLFormat = t2.mGLFormat → t3.mUpdateInProgress = 0 →
          ∃ t4 lr4, t3.LockRect level rect flags = .returned .D3D_OK t4 (some lr4) := by
  obtain ⟨t1, lr, s1, hlock, hs1, hlt, -, hd1, hf1, -, -, -⟩ :=
    TexLockRect_success t level s rect flags hl ha hs hu hc hf
  have hne : s1.mLock ≠ .LT_Unlocked := by rw [hlt]; exact lockTypeFor_ne flags
  obtain ⟨t2, s2, ptr, del, hun, hs2, hu2, hd2, hf2, -, -, -⟩ :=
    TexUnlockRect_locked t1 level s1 hs1 hne
  refine ⟨t1, lr, s1, hlock, hs1, hlt, t2, hun, ⟨s2, hs2, hu2⟩, fun t3 h3s h3d h3f h3c => ?_⟩
  have hl3 : t3.lockable := by
    unfold D3DGLTexture.lockable at hl ⊢
    rw [h3d, hd2, hd1]
    exact hl
  have hf3 : t3.mGLFormat ≠ none := by
    rw [h3f, hf2, hf1]
    exact hf
  obtain ⟨t4, lr4, -, h4, -⟩ :=
    TexLockRect_success t3 level s2 rect flags hl3 ha (by rw [h3s]; exact hs2) hu2 h3c hf3
  exact ⟨t4, lr4, h4⟩

/-- C4 on level 0 of the managed 64x64 texture, once with the read-only flag and a region
and once without flags and region: the lock succeeds, the surface is ReadOnly in the first
case and Full in the second, and the unlock returns it to Unlocked. -/
theorem C4_lock_then_unlock_returns_to_unlocked_witness :
    (∃ (t1 : D3DGLTexture) (lr : D3DLOCKED_RECT) (s1 : D3DGLTextureSurface),
      managed64.LockRect 0 (some ⟨4, 2, 16, 8⟩) D3DLOCK_READONLY =
        .returned .D3D_OK t1 (some lr) ∧
      t1.mSurfaces[0]? = some s1 ∧ s1.mLock = .LT_ReadOnly ∧
      ∃ t2, t1.UnlockRect 0 = (.D3D_OK, t2) ∧
        ∃ s2, t2.mSurfaces[0]? = some s2 ∧ s2.mLock = .LT_Unlocked) ∧
    (managed64.LockRect 0 (some ⟨4, 2, 16, 8⟩) D3DLOCK_READONLY).lockedRect =
      some { Pitch := 256, pBits := ⟨.scratch 0, 528⟩ } ∧
    ∃ (t1 : D3DGLTexture) (lr : D3DLOCKED_RECT) (s1 : D3DGLTextureSurface),
      managed64.LockRect 0 none 0 = .returned .D3D_OK t1 (some lr) ∧
      t1.mSurfaces[0]? = some s1 ∧ s1.mLock = .LT_Full ∧
      ∃ t2, t1.UnlockRect 0 = (.D3D_OK, t2) ∧
        ∃ s2, t2.mSurfaces[0]? = some s2 ∧ s2.mLock = .LT_Unlocked :=
  ⟨(let ⟨t1, lr, s1, h1, h2, h3, t2, h4, h5, _⟩ :=
      C4_lock_then_unlock_returns_to_unlocked managed64 0 level0Of64
        (some ⟨4, 2, 16, 8⟩) D3DLOCK_READONLY (by decide) (by decide) (by decide) (by decide)
        (by decide) (by decide)
    ⟨t1, lr, s1, h1, h2, h3, t2, h4, h5⟩),
   by decide,
   (let ⟨t1, lr, s1, h1, h2, h3, t2, h4, h5, _⟩ :=
      C4_lock_then_unlock_returns_to_unlocked managed64 0 level0Of64
        none 0 (by decide) (by decide) (by decide) (by decide) (by decide) (by decide)
    ⟨t1, lr, s1, h1, h2, h3, t2, h4, h5⟩)⟩

/-- C5: a surface in state ReadOnly or Full refuses every `LockRect` with the invalid-call
error; the surface object and the texture (lock state, lock region, scratch buffer,
dirty-region bound, in-flight counter, queued commands) are returned as they were and
nothing is stored through the out-pointer. The same holds for the call through the
texture. -/
theorem C5_double_lock_rejected (self : D3DGLTextureSurface) (parent : D3DGLTexture)
    (rect : Option RECT) (flags : Nat)
    (hlocked : self.mLock = .LT_ReadOnly ∨ self.mLock = .LT_Full) :
    self.LockRect parent rect flags = .returned .D3DERR_INVALIDCALL self parent none ∧
    ∀ level : Nat, parent.mSurfaces[level]? = some self →
      parent.LockRect level rect flags = .returned .D3DERR_INVALIDCALL parent none := by
  have hne : self.mLock ≠ .LT_Unlocked := by
    rcases hlocked with h | h <;> rw [h] <;> simp
  refine ⟨LockRect_locked self parent rect flags hne, fun level hs => ?_⟩
  unfold D3DGLTexture.LockRect
  rw [hs]
  simp only
  rw [LockRect_locked self parent rect flags hne]
  simp only [LockResult.toTex, withSurface_self parent level self hs]

/-- C5 on a surface in state Full of the managed 64x64 texture. -/
theorem C5_double_lock_rejected_witness :
    fullLockedSurface.LockRect managed64 none 0 =
      .returned .D3DERR_INVALIDCALL fullLockedSurface managed64 none :=
  (C5_double_lock_rejected fullLockedSurface managed64 none 0 (Or.inr rfl)).1

/-- C6: `LockRect` with discard together with read-only, or discard together with an
explicit region, returns the invalid-call error whatever the state of the surface; the
surface object and the texture are returned as they were (so an Unlocked surface stays
Unlocked, and lock region, scratch buffer and dirty-region bound keep their values). -/
theorem C6_conflicting_flags_rejected (self : D3DGLTextureSurface) (parent : D3DGLTexture)
    (rect : Option RECT) (flags : Nat)
    (hdiscard : flags &&& D3DLOCK_DISCARD ≠ 0)
    (hconflict : flags &&& D3DLOCK_READONLY ≠ 0 ∨ rect ≠ none) :
    self.LockRect parent rect flags = .returned .D3DERR_INVALIDCALL self parent none ∧
    ∀ level : Nat, parent.mSurfaces[level]? = some self →
      parent.LockRect level rect flags = .returned .D3DERR_INVALIDCALL parent none :=
  LockRect_conflicting self parent rect flags hdiscard hconflict

/-- C6 on the managed 64x64 texture: discard together with read-only and a region. -/
theorem C6_conflicting_flags_rejected_witness :
    (D3DGLTextureSurface.ctor 0).LockRect managed64 (some ⟨0, 0, 32, 32⟩)
        (D3DLOCK_DISCARD ||| D3DLOCK_READONLY) =
      .returned .D3DERR_INVALIDCALL (D3DGLTextureSurface.ctor 0) managed64 none :=
  (C6_conflicting_flags_rejected (D3DGLTextureSurface.ctor 0) managed64 (some ⟨0, 0, 32, 32⟩)
    (D3DLOCK_DISCARD ||| D3DLOCK_READONLY) (by decide) (Or.inl (by decide))).1

/-- C7 as stated fails: on the managed 64x64 texture with the counter at zero and level 0
Unlocked, `LockRect(0, {0,0,32,32}, discard)` returns the invalid-call error. -/
theorem C7_discard_with_region_is_rejected :
    managed64.lockable ∧ managed64.mDesc.Width = 64 ∧ managed64.mDesc.Height = 64 ∧
    managed64.mUpdateInProgress = 0 ∧
    (managed64.mSurfaces[0]?).map (fun s => s.mLock) = some .LT_Unlocked ∧
    managed64.LockRect 0 (some ⟨0, 0, 32, 32⟩) D3DLOCK_DISCARD =
      .returned .D3DERR_INVALIDCALL managed64 none ∧
    HRESULT.D3DERR_INVALIDCALL ≠ HRESULT.D3D_OK := by
  decide

/-- C7 as amended: on a lockable texture whose counter is zero and whose level 0 is
Unlocked, `LockRect(0, {0,0,32,32}, discard)` returns the invalid-call error and changes
nothing, so the following `UnlockRect(0)` returns the invalid-call error as well. With
the region omitted, `LockRect(0, NULL, discard)` returns success, the following
`UnlockRect(0)` returns success and queues one upload command; once the consumer has
executed that command the counter is zero again and `LockRect(0, ..., read-only)` returns
success for every region. -/
theorem C7_scenario_B_amended (t : D3DGLTexture) (s0 : D3DGLTextureSurface) (texId : Nat)
    (hl : t.lockable) (hc : t.mUpdateInProgress = 0) (hf : t.mGLFormat ≠ none)
    (hs : t.mSurfaces[0]? = some s0) (hu : s0.mLock = .LT_Unlocked) (hlvl : s0.mLevel = 0) :
    t.LockRect 0 (some ⟨0, 0, 32, 32⟩) D3DLOCK_DISCARD = .returned .D3DERR_INVALIDCALL t none ∧
    t.UnlockRect 0 = (.D3DERR_INVALIDCALL, t) ∧
    ∃ t1 lr, t.LockRect 0 none D3DLOCK_DISCARD = .returned .D3D_OK t1 (some lr) ∧
      ∃ t2, t1.UnlockRect 0 = (.D3D_OK, t2) ∧
        ∃ cmd, t2.queue = t.queue ++ [cmd] ∧
          ∃ t3, t2.execute texId cmd = some t3 ∧ t3.mUpdateInProgress = 0 ∧
            ∀ r : Option RECT, ∃ t4 lr4,
              t3.LockRect 0 r D3DLOCK_READONLY = .returned .D3D_OK t4 (some lr4) := by
  refine ⟨(LockRect_conflicting s0 t _ _ (by decide) (Or.inr (by simp))).2 0 hs,
    (UnlockRect_unlocked s0 t hu).2 0 hs, ?_⟩
  obtain ⟨t1, lr, s1, h1, g1, g2, g3, g4, g5, g6, g7, g8⟩ :=
    TexLockRect_success t 0 s0 none D3DLOCK_DISCARD hl ⟨by decide, by simp⟩ hs hu hc hf
  obtain ⟨t2, s2, ptr, del, h2, k1, k2, k3, k4, k5, k6, k7⟩ :=
    TexUnlockRect_locked t1 0 s1 g1 (by rw [g2]; exact lockTypeFor_ne _)
  have hf2 : t2.mGLFormat ≠ none := by rw [k4, g5]; exact hf
  obtain ⟨t3, h3, m1, m2, m3, m4, -⟩ :=
    loadTexLevelGL_some t2 0 s1.mLockRegion ptr del s2 k1 hf2
  refine ⟨t1, lr, h1, t2, h2, _, by rw [k6, g7], t3, ?_, ?_, fun r => ?_⟩
  · simp only [D3DGLTexture.execute]
    rw [if_pos k7.symm, g3, hlvl]
    exact h3
  · rw [m1, k5, g6]
    exact ulongDec_ulongInc_zero
  · have hl3 : t3.lockable := by
      unfold D3DGLTexture.lockable
      rw [m3, k3, g4]
      exact hl
    obtain ⟨t4, lr4, -, h4, -⟩ := TexLockRect_success t3 0 s2 r D3DLOCK_READONLY hl3
      ⟨by decide, fun h => h.1 (by decide)⟩ (by rw [m2]; exact k1) k2 (by rw [m1, k5, g6]; exact ulongDec_ulongInc_zero)
      (by rw [m4]; exact hf2)
    exact ⟨t4, lr4, h4⟩

/-- C7 as amended, on the managed 64x64 texture. -/
theorem C7_scenario_B_amended_witness :
    managed64.LockRect 0 (some ⟨0, 0, 32, 32⟩) D3DLOCK_DISCARD =
      .returned .D3DERR_INVALIDCALL managed64 none ∧
    ∃ t1 lr, managed64.LockRect 0 none D3DLOCK_DISCARD = .returned .D3D_OK t1 (some lr) ∧
      ∃ t2, t1.UnlockRect 0 = (.D3D_OK, t2) :=
  let h := C7_scenario_B_amended managed64 (D3DGLTextureSurface.init (.ctor 0) 0 16384) 1
    (by decide) (by decide) (by decide) (by decide) (by decide) (by decide)
  ⟨h.1, let ⟨t1, lr, h1, t2, h2, _⟩ := h.2.2; ⟨t1, lr, h1, t2, h2⟩⟩

/-- C8: `UnlockRect` on an Unlocked surface returns the invalid-call error and returns the
surface object and the texture as they were: no upload command is queued, the in-flight
counter, the lock state and the scratch buffer keep their values. The same holds for the
call through the texture. -/
theorem C8_unlock_unlocked_rejected (self : D3DGLTextureSurface) (parent : D3DGLTexture)
    (hunlocked : self.mLock = .LT_Unlocked) :
    self.UnlockRect parent = (.D3DERR_INVALIDCALL, self, parent) ∧
    ∀ level : Nat, parent.mSurfaces[level]? = some self →
      parent.UnlockRect level = (.D3DERR_INVALIDCALL, parent) :=
  UnlockRect_unlocked self parent hunlocked

/-- C8 on level 0 of the managed 64x64 texture, which is Unlocked. -/
theorem C8_unlock_unlocked_rejected_witness :
    managed64.UnlockRect 0 = (.D3DERR_INVALIDCALL, managed64) :=
  (C8_unlock_unlocked_rejected (D3DGLTextureSurface.init (.ctor 0) 0 16384) managed64 rfl).2 0
    (by decide)

/-- C9: starting from the inverted bound of the constructor, after the calls for the
regions `r, rs` each side of the tracked bound is the minimum (left, top) or maximum
(right, bottom) of that side over all regions supplied; a single call returns `D3D_OK`,
never moves a side inwards and is idempotent; and the result of a sequence of calls does
not depend on the order of the regions. -/
theorem C9_dirty_rect_union (t : D3DGLTexture) (r : RECT) (rs : List RECT)
    (hinit : t.mDirtyRect = ⟨LONG_MAX, LONG_MAX, LONG_MIN, LONG_MIN⟩)
    (hrange : ∀ x ∈ r :: rs, x.inRange) :
    (((∀ x ∈ r :: rs, (t.addDirtyRects (r :: rs)).mDirtyRect.left ≤ x.left) ∧
        ∃ x ∈ r :: rs, (t.addDirtyRects (r :: rs)).mDirtyRect.left = x.left) ∧
      ((∀ x ∈ r :: rs, (t.addDirtyRects (r :: rs)).mDirtyRect.top ≤ x.top) ∧
        ∃ x ∈ r :: rs, (t.addDirtyRects (r :: rs)).mDirtyRect.top = x.top) ∧
      ((∀ x ∈ r :: rs, x.right ≤ (t.addDirtyRects (r :: rs)).mDirtyRect.right) ∧
        ∃ x ∈ r :: rs, (t.addDirtyRects (r :: rs)).mDirtyRect.right = x.right) ∧
      ((∀ x ∈ r :: rs, x.bottom ≤ (t.addDirtyRects (r :: rs)).mDirtyRect.bottom) ∧
        ∃ x ∈ r :: rs, (t.addDirtyRects (r :: rs)).mDirtyRect.bottom = x.bottom)) ∧
    (∀ (u : D3DGLTexture) (x : RECT),
      (u.AddDirtyRect x).1 = .D3D_OK ∧
      (u.AddDirtyRect x).2.mDirtyRect.left ≤ u.mDirtyRect.left ∧
      (u.AddDirtyRect x).2.mDirtyRect.top ≤ u.mDirtyRect.top ∧
      u.mDirtyRect.right ≤ (u.AddDirtyRect x).2.mDirtyRect.right ∧
      u.mDirtyRect.bottom ≤ (u.AddDirtyRect x).2.mDirtyRect.bottom ∧
      ((u.AddDirtyRect x).2.AddDirtyRect x).2 = (u.AddDirtyRect x).2) ∧
    (∀ (u : D3DGLTexture) (l1 l2 : List RECT), l1.Perm l2 →
      u.addDirtyRects l1 = u.addDirtyRects l2) := by
  obtain ⟨⟨-, a2, a3⟩, ⟨-, b2, b3⟩, ⟨-, c2, c3⟩, ⟨-, d2, d3⟩⟩ := addDirtyRects_bound (r :: rs) t
  have hr := hrange r (List.mem_cons_self _ _)
  unfold RECT.inRange LONG_MAX LONG_MIN at hr
  have hL : t.mDirtyRect.left = 2147483647 := by rw [hinit]; rfl
  have hT : t.mDirtyRect.top = 2147483647 := by rw [hinit]; rfl
  have hR : t.mDirtyRect.right = -2147483648 := by rw [hinit]; rfl
  have hB : t.mDirtyRect.bottom = -2147483648 := by rw [hinit]; rfl
  have ar := a2 r (List.mem_cons_self _ _)
  have br := b2 r (List.mem_cons_self _ _)
  have cr := c2 r (List.mem_cons_self _ _)
  have dr := d2 r (List.mem_cons_self _ _)
  refine ⟨⟨⟨a2, ?_⟩, ⟨b2, ?_⟩, ⟨c2, ?_⟩, ⟨d2, ?_⟩⟩, fun u x => ?_, fun u l1 l2 h =>
    addDirtyRects_perm l1 l2 h u⟩
  · rcases a3 with h | h
    · exact ⟨r, List.mem_cons_self _ _, by omega⟩
    · exact h
  · rcases b3 with h | h
    · exact ⟨r, List.mem_cons_self _ _, by omega⟩
    · exact h
  · rcases c3 with h | h
    · exact ⟨r, List.mem_cons_self _ _, by omega⟩
    · exact h
  · rcases d3 with h | h
    · exact ⟨r, List.mem_cons_self _ _, by omega⟩
    · exact h
  · refine ⟨rfl, ?_, ?_, ?_, ?_, AddDirtyRect_idem u x⟩ <;>
      simp only [D3DGLTexture.AddDirtyRect] <;> omega

/-- C9 on a freshly constructed texture and the regions (0,0,32,32), (16,8,64,24). -/
theorem C9_dirty_rect_union_witness :
    ((D3DGLTexture.ctor 1).addDirtyRects [⟨0, 0, 32, 32⟩, ⟨16, 8, 64, 24⟩]).mDirtyRect =
      ⟨0, 0, 64, 32⟩ ∧
    ∃ x ∈ [(⟨0, 0, 32, 32⟩ : RECT), ⟨16, 8, 64, 24⟩],
      ((D3DGLTexture.ctor 1).addDirtyRects [⟨0, 0, 32, 32⟩, ⟨16, 8, 64, 24⟩]).mDirtyRect.right =
        x.right :=
  ⟨by decide,
   (C9_dirty_rect_union (D3DGLTexture.ctor 1) ⟨0, 0, 32, 32⟩ [⟨16, 8, 64, 24⟩] rfl
      (by decide)).1.2.2.1.2⟩

/-- C10: when `init` accepts a descriptor, width and height are positive and the number of
surfaces it adds (the level count of a freshly constructed texture) is 1 when the usage
has automatic-mipmap and the pool is managed, and otherwise `M = floor(log2(max(W,H))) + 1`
when the requested count is 0 or exceeds `M`, and the requested count when it lies in
`1..M`. -/
theorem C10_level_count (gFormatList : Nat → Option GLFormatInfo) (t t1 : D3DGLTexture)
    (desc : D3DSURFACE_DESC) (levels : Nat)
    (hacc : t.init gFormatList desc levels = (true, t1)) :
    0 < desc.Width ∧ 0 < desc.Height ∧
    t1.GetLevelCount = t.GetLevelCount +
      (if desc.Usage &&& D3DUSAGE_AUTOGENMIPMAP ≠ 0 ∧ desc.Pool = .MANAGED then 1
       else if levels = 0 ∨ levels > Nat.log 2 (max desc.Width desc.Height) + 1
         then Nat.log 2 (max desc.Width desc.Height) + 1
         else levels) ∧
    (t.mSurfaces = [] →
      t1.GetLevelCount =
        (if desc.Usage &&& D3DUSAGE_AUTOGENMIPMAP ≠ 0 ∧ desc.Pool = .MANAGED then 1
         else if levels = 0 ∨ levels > Nat.log 2 (max desc.Width desc.Height) + 1
           then Nat.log 2 (max desc.Width desc.Height) + 1
           else levels)) := by
  obtain ⟨hw, hh, -, hs⟩ := init_accepts_inv gFormatList t t1 desc levels hacc
  have hM := calcMaxLevels_eq desc.Width desc.Height (by omega)
  have hcount : t1.GetLevelCount = t.GetLevelCount +
      (if desc.Usage &&& D3DUSAGE_AUTOGENMIPMAP ≠ 0 ∧ desc.Pool = .MANAGED then 1
       else if levels = 0 ∨ levels > Nat.log 2 (max desc.Width desc.Height) + 1
         then Nat.log 2 (max desc.Width desc.Height) + 1
         else levels) := by
    unfold D3DGLTexture.GetLevelCount
    rw [hs, List.length_append, List.length_map, List.length_range, hM]
    congr 1
    by_cases hA : desc.Usage &&& D3DUSAGE_AUTOGENMIPMAP ≠ 0 ∧ desc.Pool = .MANAGED
    · rw [if_pos hA, if_pos hA, if_neg (by omega)]
    · rw [if_neg hA, if_neg hA]
  refine ⟨hw, hh, hcount, fun hnil => ?_⟩
  rw [hcount]
  unfold D3DGLTexture.GetLevelCount
  rw [hnil]
  simp

/-- C10 on a freshly constructed texture and a managed 64x64 descriptor with automatic
level count: seven levels. -/
theorem C10_level_count_witness :
    ((D3DGLTexture.ctor 1).init sampleFormats (sampleDesc .MANAGED 0) 0).2.GetLevelCount =
      (D3DGLTexture.ctor 1).GetLevelCount + 7 :=
  (C10_level_count sampleFormats (D3DGLTexture.ctor 1)
    ((D3DGLTexture.ctor 1).init sampleFormats (sampleDesc .MANAGED 0) 0).2
    (sampleDesc .MANAGED 0) 0 (by decide)).2.2.1.trans (by
      simp [sampleDesc, D3DUSAGE_AUTOGENMIPMAP, show Nat.log 2 64 = 6 from by
        rw [show (64 : Nat) = 2 ^ 6 from rfl]; exact Nat.log_pow (by decide) 6])

/-! ## Further facts about textures and surfaces -/

/-- The texture an accepted `init` leaves behind, field by field. -/
theorem init_accepts_fields (gFormatList : Nat → Option GLFormatInfo) (t t1 : D3DGLTexture)
    (desc : D3DSURFACE_DESC) (levels : Nat)
    (hacc : t.init gFormatList desc levels = (true, t1)) :
    t1.mDesc = desc ∧ t1.mGLFormat = gFormatList desc.Format ∧
    gFormatList desc.Format ≠ none ∧ t1.queue = t.queue ++ [.TextureInit t.addr] ∧
    t1.mUpdateInProgress = t.mUpdateInProgress ∧ t1.addr = t.addr ∧
    t1.mIsCompressed = isDXT desc.Format ∧ t1.mUserPtr = t.mUserPtr ∧ t1.mPBO = t.mPBO ∧
    t1.mDirtyRect = t.mDirtyRect ∧ t1.mLodLevel = t.mLodLevel := by
  unfold D3DGLTexture.init at hacc
  simp only at hacc
  by_cases h0 : desc.Width = 0 ∨ desc.Height = 0
  · rw [if_pos h0] at hacc; cases hacc
  rw [if_neg h0] at hacc
  cases hfmt : gFormatList desc.Format with
  | none => rw [hfmt] at hacc; cases hacc
  | some fmtinfo =>
    rw [hfmt] at hacc
    simp only at hacc
    by_cases h1 : desc.Usage &&& D3DUSAGE_RENDERTARGET ≠ 0 ∧ desc.Pool ≠ .DEFAULT
    · rw [if_pos h1] at hacc; cases hacc
    rw [if_neg h1] at hacc
    by_cases h2 : desc.Usage &&& D3DUSAGE_RENDERTARGET = 0 ∧
        desc.Usage &&& D3DUSAGE_DEPTHSTENCIL ≠ 0 ∧ desc.Pool ≠ .DEFAULT
    · rw [if_pos h2] at hacc; cases hacc
    rw [if_neg h2] at hacc
    by_cases h3 : desc.Usage &&& D3DUSAGE_AUTOGENMIPMAP ≠ 0 ∧ desc.Pool = .SYSTEMMEM
    · rw [if_pos h3] at hacc; cases hacc
    rw [if_neg h3] at hacc
    by_cases h4 : desc.Usage &&& D3DUSAGE_AUTOGENMIPMAP ≠ 0 ∧ desc.Pool = .MANAGED ∧ levels > 1
    · rw [if_pos h4] at hacc; cases hacc
    rw [if_neg h4] at hacc
    have ht : t1 = _ := (Prod.mk.inj hacc).2.symm
    rw [ht]
    exact ⟨rfl, rfl, by simp, rfl, rfl, rfl, rfl, rfl, rfl, rfl, rfl⟩

/-- The layout loop of `initGL` keeps the number of surfaces and touches only the data
offset and length of each. -/
theorem initGLLayout_getElem? (dxt : Bool) (b : Nat) :
    ∀ (ss : List D3DGLTextureSurface) (w h : Int) (tot i : Nat) (s : D3DGLTextureSurface),
      ss[i]? = some s →
      ∃ off len, (initGLLayout dxt b ss w h tot).1[i]? = some (s.init off len) := by
  intro ss
  induction ss with
  | nil => intro w h tot i s hs; simp at hs
  | cons x xs ih =>
    intro w h tot i s hs
    cases i with
    | zero =>
      simp only [List.getElem?_cons_zero, Option.some.injEq] at hs
      subst hs
      refine ⟨tot, (if dxt then toUINT (((max 1 w + 3) / 4) * ((max 1 h + 3) / 4) * b)
        else toUINT (max 1 w * max 1 h * b)), ?_⟩
      simp only [initGLLayout, List.getElem?_cons_zero]
    | succ n =>
      simp only [List.getElem?_cons_succ] at hs
      obtain ⟨off, len, h1⟩ := ih (max 1 w >>> 1) (max 1 h >>> 1) _ n s hs
      exact ⟨off, len, by simp only [initGLLayout, List.getElem?_cons_succ]; exact h1⟩

theorem initGLLayout_length (dxt : Bool) (b : Nat) :
    ∀ (ss : List D3DGLTextureSurface) (w h : Int) (tot : Nat),
      (initGLLayout dxt b ss w h tot).1.length = ss.length := by
  intro ss
  induction ss with
  | nil => intro w h tot; rfl
  | cons x xs ih => intro w h tot; simp [initGLLayout, ih]

/-- What `initGL` does to a texture whose format pointer is set. -/
theorem initGL_some (t : D3DGLTexture) (texId : Nat) (fmt : GLFormatInfo)
    (hf : t.mGLFormat = some fmt) :
    ∃ t2, t.initGL texId = some t2 ∧ t2.mDesc = t.mDesc ∧ t2.mGLFormat = t.mGLFormat ∧
      t2.mSurfaces = (initGLLayout (isDXT t.mDesc.Format) fmt.bytesperpixel t.mSurfaces
        (toLONG t.mDesc.Width) (toLONG t.mDesc.Height) 0).1 ∧
      t2.mUpdateInProgress = 0 ∧ t2.queue = t.queue ∧ t2.addr = t.addr ∧
      t2.mIsCompressed = t.mIsCompressed ∧ t2.mDirtyRect = t.mDirtyRect ∧
      t2.mLodLevel = t.mLodLevel := by
  unfold D3DGLTexture.initGL
  simp only [hf]
  cases hss : t.mSurfaces with
  | nil =>
    simp only [initGLLayout]
    split_ifs <;> exact ⟨_, rfl, rfl, rfl, rfl, rfl, rfl, rfl, rfl, rfl, rfl⟩
  | cons x xs =>
    simp only
    split_ifs <;> exact ⟨_, rfl, rfl, rfl, rfl, rfl, rfl, rfl, rfl, rfl, rfl⟩

theorem init_fresh_getElem? (gFormatList : Nat → Option GLFormatInfo) (t t1 : D3DGLTexture)
    (desc : D3DSURFACE_DESC) (levels i : Nat) (hnil : t.mSurfaces = [])
    (hacc : t.init gFormatList desc levels = (true, t1)) (hi : i < t1.GetLevelCount) :
    t1.mSurfaces[i]? = some (D3DGLTextureSurface.ctor i) := by
  obtain ⟨-, -, -, hs⟩ := init_accepts_inv gFormatList t t1 desc levels hacc
  unfold D3DGLTexture.GetLevelCount at hi
  rw [hs, hnil, List.nil_append] at hi ⊢
  rw [List.length_map, List.length_range] at hi
  rw [List.getElem?_map, List.getElem?_range hi]
  rfl

/-- What a rejected `init` leaves behind: the descriptor is stored, the format pointer is
set when the checks reach the table and find the format, and nothing else is touched. -/
theorem init_rejects_state (gFormatList : Nat → Option GLFormatInfo) (t : D3DGLTexture)
    (desc : D3DSURFACE_DESC) (levels : Nat)
    (hrej : (t.init gFormatList desc levels).1 = false) :
    ((desc.Width = 0 ∨ desc.Height = 0 ∨ gFormatList desc.Format = none) ∧
      (t.init gFormatList desc levels).2 = { t with mDesc := desc }) ∨
    (¬ (desc.Width = 0 ∨ desc.Height = 0 ∨ gFormatList desc.Format = none) ∧
      (t.init gFormatList desc levels).2 =
        { t with mDesc := desc, mGLFormat := gFormatList desc.Format }) := by
  unfold D3DGLTexture.init at hrej ⊢
  simp only at hrej ⊢
  by_cases h0 : desc.Width = 0 ∨ desc.Height = 0
  · left
    rw [if_pos h0]
    exact ⟨by rcases h0 with h | h; exact Or.inl h; exact Or.inr (Or.inl h), rfl⟩
  rw [if_neg h0] at hrej ⊢
  cases hfmt : gFormatList desc.Format with
  | none => left; exact ⟨Or.inr (Or.inr rfl), rfl⟩
  | some fmtinfo =>
    right
    rw [hfmt] at hrej
    simp only at hrej ⊢
    refine ⟨by simp [not_or.mp h0], ?_⟩
    by_cases h1 : desc.Usage &&& D3DUSAGE_RENDERTARGET ≠ 0 ∧ desc.Pool ≠ .DEFAULT
    · rw [if_pos h1]
    rw [if_neg h1] at hrej ⊢
    by_cases h2 : desc.Usage &&& D3DUSAGE_RENDERTARGET = 0 ∧
        desc.Usage &&& D3DUSAGE_DEPTHSTENCIL ≠ 0 ∧ desc.Pool ≠ .DEFAULT
    · rw [if_pos h2]
    rw [if_neg h2] at hrej ⊢
    by_cases h3 : desc.Usage &&& D3DUSAGE_AUTOGENMIPMAP ≠ 0 ∧ desc.Pool = .SYSTEMMEM
    · rw [if_pos h3]
    rw [if_neg h3] at hrej ⊢
    by_cases h4 : desc.Usage &&& D3DUSAGE_AUTOGENMIPMAP ≠ 0 ∧ desc.Pool = .MANAGED ∧ levels > 1
    · rw [if_pos h4]
    rw [if_neg h4] at hrej
    cases hrej

theorem toUINT_cast (x : Int) : ((toUINT x : Nat) : Int) = x % 4294967296 := by
  unfold toUINT
  exact Int.toNat_of_nonneg (Int.emod_nonneg _ (by decide))

theorem flags_or_eq_zero (f a b : Nat) : f &&& (a ||| b) = 0 ↔ f &&& a = 0 ∧ f &&& b = 0 := by
  rw [Nat.and_or_distrib_left]
  constructor
  · intro h
    constructor
    · apply Nat.eq_of_testBit_eq
      intro i
      have := congrArg (fun n => n.testBit i) h
      simp only [Nat.testBit_or, Nat.zero_testBit, Bool.or_eq_false_iff] at this
      simp [this.1]
    · apply Nat.eq_of_testBit_eq
      intro i
      have := congrArg (fun n => n.testBit i) h
      simp only [Nat.testBit_or, Nat.zero_testBit, Bool.or_eq_false_iff] at this
      simp [this.2]
  · rintro ⟨h1, h2⟩
    rw [h1, h2]
    rfl

/-- The uncompressed offset of `LockRect` is the texel index times the texel size, reduced
to 32 bits. -/
theorem lockOffset_uncompressed (w b : Nat) (rect : RECT) :
    (((lockOffsetPitch false w b rect).1 : Nat) : Int) =
      ((rect.top * w + rect.left) * b) % 4294967296 := by
  simp only [lockOffsetPitch, uint, two32, Bool.false_eq_true, if_false]
  push_cast
  rw [toUINT_cast, toUINT_cast]
  apply Int.ModEq.mul_right
  exact Int.ModEq.add (Int.ModEq.mul_right _ (Int.mod_modEq _ _)) (Int.mod_modEq _ _)

/-- The compressed offset of `LockRect` is the block index times the block size, reduced
to 32 bits. -/
theorem lockOffset_compressed (w b : Nat) (rect : RECT) (hw : w + 3 < 4294967296) :
    (((lockOffsetPitch true w b rect).1 : Nat) : Int) =
      ((rect.top.tdiv 4 * ((w + 3) / 4 : Nat) + rect.left.tdiv 4) * b) % 4294967296 := by
  simp only [lockOffsetPitch, uint, two32, if_true, Nat.mod_eq_of_lt hw]
  push_cast
  rw [toUINT_cast, toUINT_cast]
  apply Int.ModEq.mul_right
  exact Int.ModEq.add (Int.ModEq.mul_right _ (Int.mod_modEq _ _)) (Int.mod_modEq _ _)

theorem toLONG_of_lt (n : Nat) (h : n < 2147483648) : toLONG (uint n) = n := by
  unfold toLONG uint two32
  have h1 : n % 4294967296 = n := Nat.mod_eq_of_lt (by omega)
  rw [h1]
  have h2 : (n : Int) % 4294967296 = n := Int.emod_eq_of_lt (by omega) (by omega)
  rw [h2, if_pos (by omega)]

theorem toLONG_of_inRange (x : Int) (h1 : LONG_MIN ≤ x) (h2 : x ≤ LONG_MAX) : toLONG x = x := by
  unfold LONG_MIN at h1
  unfold LONG_MAX at h2
  unfold toLONG
  split_ifs with h <;> omega

/-- The part of `LockRect` after the wait, written out: result code, pointer, pitch, lock
region, scratch buffer, allocation count and dirty-region bound. -/
theorem lockAfterWait_result (self : D3DGLTextureSurface) (parent : D3DGLTexture)
    (rect : RECT) (flags w : Nat) (fmt : GLFormatInfo) (hf : parent.mGLFormat = some fmt) :
    ∃ self1 parent1, self.lockAfterWait parent rect flags w =
        .returned .D3D_OK self1 parent1
          (some { Pitch := (lockOffsetPitch parent.mIsCompressed w fmt.bytesperpixel rect).2
                  pBits := (lockBase self parent).add
                    (lockOffsetPitch parent.mIsCompressed w fmt.bytesperpixel rect).1 }) ∧
      self1.mLockRegion = rect ∧ self1.mLock = self.mLock ∧ self1.mLevel = self.mLevel ∧
      self1.mScratchMem =
        (if parent.mUserPtr ≠ GLptr.nullptr then self.mScratchMem
         else if self.mScratchMem = GLptr.nullptr then ⟨.scratch parent.allocs, 0⟩
         else self.mScratchMem) ∧
      parent1.allocs =
        (if parent.mUserPtr ≠ GLptr.nullptr then parent.allocs
         else if self.mScratchMem = GLptr.nullptr then parent.allocs + 1
         else parent.allocs) ∧
      parent1.mDirtyRect =
        (if flags &&& (D3DLOCK_NO_DIRTY_UPDATE ||| D3DLOCK_READONLY) = 0 then
          (parent.AddDirtyRect (dirtyRegion rect self.mLevel)).2.mDirtyRect
         else parent.mDirtyRect) ∧
      parent1.mUpdateInProgress = parent.mUpdateInProgress ∧ parent1.queue = parent.queue := by
  unfold D3DGLTextureSurface.lockAfterWait lockBase dirtyRegion
  by_cases hd : flags &&& (D3DLOCK_NO_DIRTY_UPDATE ||| D3DLOCK_READONLY) = 0
  · by_cases hu : parent.mUserPtr ≠ GLptr.nullptr
    · simp only [if_pos hu, if_pos hd, hf, D3DGLTexture.AddDirtyRect]
      exact ⟨_, _, rfl, rfl, rfl, rfl, rfl, rfl, rfl, rfl, rfl⟩
    · by_cases hs : self.mScratchMem = GLptr.nullptr
      · simp only [if_neg hu, if_pos hs, if_pos hd, hf, D3DGLTexture.AddDirtyRect]
        exact ⟨_, _, rfl, rfl, rfl, rfl, rfl, rfl, rfl, rfl, rfl⟩
      · simp only [if_neg hu, if_neg hs, if_pos hd, hf, D3DGLTexture.AddDirtyRect]
        exact ⟨_, _, rfl, rfl, rfl, rfl, rfl, rfl, rfl, rfl, rfl⟩
  · by_cases hu : parent.mUserPtr ≠ GLptr.nullptr
    · simp only [if_pos hu, if_neg hd, hf]
      exact ⟨_, _, rfl, rfl, rfl, rfl, rfl, rfl, rfl, rfl, rfl⟩
    · by_cases hs : self.mScratchMem = GLptr.nullptr
      · simp only [if_neg hu, if_pos hs, if_neg hd, hf]
        exact ⟨_, _, rfl, rfl, rfl, rfl, rfl, rfl, rfl, rfl, rfl⟩
      · simp only [if_neg hu, if_neg hs, if_neg hd, hf]
        exact ⟨_, _, rfl, rfl, rfl, rfl, rfl, rfl, rfl, rfl, rfl⟩

/-- A successful `LockRect`, written out. -/
theorem LockRect_ok_result (self self1 : D3DGLTextureSurface) (parent parent1 : D3DGLTexture)
    (rect : Option RECT) (flags : Nat) (lr : Option D3DLOCKED_RECT)
    (h : self.LockRect parent rect flags = .returned .D3D_OK self1 parent1 lr) :
    ∃ fmt, parent.mGLFormat = some fmt ∧
      lr = some
        { Pitch := (lockOffsetPitch parent.mIsCompressed
            (max 1 (parent.mDesc.Width >>> self.mLevel)) fmt.bytesperpixel
            (effectiveRect self parent rect)).2
          pBits := (lockBase self parent).add
            (lockOffsetPitch parent.mIsCompressed
              (max 1 (parent.mDesc.Width >>> self.mLevel)) fmt.bytesperpixel
              (effectiveRect self parent rect)).1 } ∧
      self1.mLockRegion = effectiveRect self parent rect ∧
      self1.mScratchMem =
        (if parent.mUserPtr ≠ GLptr.nullptr then self.mScratchMem
         else if self.mScratchMem = GLptr.nullptr then ⟨.scratch parent.allocs, 0⟩
         else self.mScratchMem) ∧
      parent1.mDirtyRect =
        (if flags &&& (D3DLOCK_NO_DIRTY_UPDATE ||| D3DLOCK_READONLY) = 0 then
          (parent.AddDirtyRect (dirtyRegion (effectiveRect self parent rect) self.mLevel)).2.mDirtyRect
         else parent.mDirtyRect) := by
  obtain ⟨-, -, -, -, -, h6⟩ := LockRect_ok_inv self self1 parent parent1 rect flags lr h
  obtain ⟨-, -, -, -, -, -, hne, -⟩ := lockAfterWait_inv _ _ _ _ _ _ _ _ _ h6
  obtain ⟨fmt, hfmt⟩ := Option.ne_none_iff_exists'.mp hne
  obtain ⟨s, p, he, k1, -, -, k4, -, k6, -, -⟩ :=
    lockAfterWait_result { self with mLock := lockTypeFor flags } parent
      (effectiveRect self parent rect) flags (max 1 (parent.mDesc.Width >>> self.mLevel))
      fmt hfmt
  have h7 : D3DGLTextureSurface.lockAfterWait { self with mLock := lockTypeFor flags } parent
      (effectiveRect self parent rect) flags (max 1 (parent.mDesc.Width >>> self.mLevel)) =
      .returned .D3D_OK self1 parent1 lr := h6
  rw [he] at h7
  cases h7
  exact ⟨fmt, hfmt, rfl, k1, k4, k6⟩

/-! ## The claims about level descriptors, creation, LOD and the lock path -/

/-- C11: on a texture created by an accepted `init` (before or after the consumer has run
`initGL`), `GetLevelDesc(i)` for every level `i` below the level count returns `D3D_OK`
and stores width `max(1, W >> i)`, height `max(1, H >> i)` and the format, usage, pool and
multisample members of the texture's descriptor into the caller's record. -/
theorem C11_level_desc (gFormatList : Nat → Option GLFormatInfo) (t t1 : D3DGLTexture)
    (desc : D3DSURFACE_DESC) (levels i : Nat) (out : D3DSURFACE_DESC)
    (hnil : t.mSurfaces = []) (hacc : t.init gFormatList desc levels = (true, t1))
    (hi : i < t1.GetLevelCount) :
    t1.GetLevelDesc i out =
      (.D3D_OK,
       { out with
         Format := desc.Format, Usage := desc.Usage, Pool := desc.Pool,
         MultiSampleType := desc.MultiSampleType,
         MultiSampleQuality := desc.MultiSampleQuality,
         Width := max 1 (desc.Width >>> i), Height := max 1 (desc.Height >>> i) }) ∧
    ∀ (texId : Nat) (t2 : D3DGLTexture), t1.initGL texId = some t2 →
      t2.GetLevelCount = t1.GetLevelCount ∧
      t2.GetLevelDesc i out =
        (.D3D_OK,
         { out with
           Format := desc.Format, Usage := desc.Usage, Pool := desc.Pool,
           MultiSampleType := desc.MultiSampleType,
           MultiSampleQuality := desc.MultiSampleQuality,
           Width := max 1 (desc.Width >>> i), Height := max 1 (desc.Height >>> i) }) := by
  have hs := init_fresh_getElem? gFormatList t t1 desc levels i hnil hacc hi
  obtain ⟨hd, hg, hg0, -⟩ := init_accepts_fields gFormatList t t1 desc levels hacc
  refine ⟨?_, fun texId t2 h2 => ?_⟩
  · unfold D3DGLTexture.GetLevelDesc
    rw [hs]
    simp only [D3DGLTextureSurface.GetDesc, hd, D3DGLTextureSurface.ctor]
  · obtain ⟨fmt, hfmt⟩ := Option.ne_none_iff_exists'.mp (by rw [← hg] at hg0; exact hg0)
    obtain ⟨t2', e2, k1, -, k3, -⟩ := initGL_some t1 texId fmt hfmt
    rw [e2] at h2
    cases h2
    obtain ⟨off, len, hget⟩ := initGLLayout_getElem? (isDXT t1.mDesc.Format) fmt.bytesperpixel
      t1.mSurfaces (toLONG t1.mDesc.Width) (toLONG t1.mDesc.Height) 0 i _ hs
    refine ⟨?_, ?_⟩
    · unfold D3DGLTexture.GetLevelCount
      rw [k3, initGLLayout_length]
    · unfold D3DGLTexture.GetLevelDesc
      rw [k3, hget]
      simp only [D3DGLTextureSurface.GetDesc, k1, hd, D3DGLTextureSurface.ctor,
        D3DGLTextureSurface.init]

/-- C11 on the 64x64 texture created with level count 0: seven levels of sizes
64, 32, 16, 8, 4, 2, 1, and `GetLevelDesc(0)` reports 64 by 64. -/
theorem C11_level_desc_witness :
    managed64.GetLevelCount = 7 ∧
    (List.range 7).map (fun i => (managed64.GetLevelDesc i (sampleDesc .DEFAULT 0)).2.Width) =
      [64, 32, 16, 8, 4, 2, 1] ∧
    ((D3DGLTexture.ctor 1).init sampleFormats (sampleDesc .MANAGED 0) 0).2.GetLevelDesc 0
        (sampleDesc .DEFAULT 0) =
      (.D3D_OK,
       { sampleDesc .DEFAULT 0 with
         Format := (sampleDesc .MANAGED 0).Format, Usage := (sampleDesc .MANAGED 0).Usage,
         Pool := (sampleDesc .MANAGED 0).Pool,
         MultiSampleType := (sampleDesc .MANAGED 0).MultiSampleType,
         MultiSampleQuality := (sampleDesc .MANAGED 0).MultiSampleQuality,
         Width := max 1 ((sampleDesc .MANAGED 0).Width >>> 0),
         Height := max 1 ((sampleDesc .MANAGED 0).Height >>> 0) }) ∧
    max 1 ((sampleDesc .MANAGED 0).Width >>> 0) = 64 ∧
    max 1 ((sampleDesc .MANAGED 0).Height >>> 0) = 64 :=
  ⟨by decide, by decide,
    (C11_level_desc sampleFormats (D3DGLTexture.ctor 1)
      ((D3DGLTexture.ctor 1).init sampleFormats (sampleDesc .MANAGED 0) 0).2
      (sampleDesc .MANAGED 0) 0 0 (sampleDesc .DEFAULT 0) rfl (by decide) (by decide)).1,
    by decide, by decide⟩

/-- C12: `init` returns failure exactly when the width or height is 0, or the format is not
in the format table, or the usage has render-target or depth-stencil and the pool is not
the default pool, or the usage has automatic-mipmap and the pool is system-memory, or the
usage has automatic-mipmap, the pool is managed and more than one level is requested. In
every other case it returns success, the surfaces of levels `0 .. n-1` (`n >= 1`) are
appended to the surface list and exactly one texture-init command is queued. -/
theorem C12_init_fails_iff (gFormatList : Nat → Option GLFormatInfo) (t : D3DGLTexture)
    (desc : D3DSURFACE_DESC) (levels : Nat) :
    ((t.init gFormatList desc levels).1 = false ↔
      (desc.Width = 0 ∨ desc.Height = 0) ∨
      gFormatList desc.Format = none ∨
      ((desc.Usage &&& D3DUSAGE_RENDERTARGET ≠ 0 ∨ desc.Usage &&& D3DUSAGE_DEPTHSTENCIL ≠ 0) ∧
        desc.Pool ≠ .DEFAULT) ∨
      (desc.Usage &&& D3DUSAGE_AUTOGENMIPMAP ≠ 0 ∧ desc.Pool = .SYSTEMMEM) ∨
      (desc.Usage &&& D3DUSAGE_AUTOGENMIPMAP ≠ 0 ∧ desc.Pool = .MANAGED ∧ levels > 1)) ∧
    ((t.init gFormatList desc levels).1 = true →
      (t.init gFormatList desc levels).2.queue = t.queue ++ [.TextureInit t.addr] ∧
      ∃ n, 1 ≤ n ∧
        (t.init gFormatList desc levels).2.mSurfaces =
          t.mSurfaces ++ (List.range n).map D3DGLTextureSurface.ctor) := by
  constructor
  · unfold D3DGLTexture.init
    simp only
    by_cases h0 : desc.Width = 0 ∨ desc.Height = 0
    · rw [if_pos h0]; simp [h0]
    rw [if_neg h0]
    cases hfmt : gFormatList desc.Format with
    | none => simp
    | some fmtinfo =>
      simp only
      by_cases h1 : desc.Usage &&& D3DUSAGE_RENDERTARGET ≠ 0 ∧ desc.Pool ≠ .DEFAULT
      · rw [if_pos h1]; simp [h1.1, h1.2]
      rw [if_neg h1]
      by_cases h2 : desc.Usage &&& D3DUSAGE_RENDERTARGET = 0 ∧
          desc.Usage &&& D3DUSAGE_DEPTHSTENCIL ≠ 0 ∧ desc.Pool ≠ .DEFAULT
      · rw [if_pos h2]; simp [h2.2.1, h2.2.2]
      rw [if_neg h2]
      have h12 : ¬ ((desc.Usage &&& D3DUSAGE_RENDERTARGET ≠ 0 ∨
          desc.Usage &&& D3DUSAGE_DEPTHSTENCIL ≠ 0) ∧ desc.Pool ≠ .DEFAULT) := by
        rintro ⟨ha | ha, hb⟩
        · exact h1 ⟨ha, hb⟩
        · by_cases hr : desc.Usage &&& D3DUSAGE_RENDERTARGET = 0
          · exact h2 ⟨hr, ha, hb⟩
          · exact h1 ⟨hr, hb⟩
      by_cases h3 : desc.Usage &&& D3DUSAGE_AUTOGENMIPMAP ≠ 0 ∧ desc.Pool = .SYSTEMMEM
      · rw [if_pos h3]; simp [h3.1, h3.2]
      rw [if_neg h3]
      by_cases h4 : desc.Usage &&& D3DUSAGE_AUTOGENMIPMAP ≠ 0 ∧ desc.Pool = .MANAGED ∧ levels > 1
      · rw [if_pos h4]; simp [h4.1, h4.2.1, h4.2.2]
      rw [if_neg h4]
      simp only [Bool.true_eq_false, false_iff, not_or]
      exact ⟨not_or.mp h0, by simp, h12, h3, h4⟩
  · intro htrue
    have hacc : t.init gFormatList desc levels = (true, (t.init gFormatList desc levels).2) := by
      rw [← htrue]
    obtain ⟨hw, hh, -, hs⟩ := init_accepts_inv gFormatList t _ desc levels hacc
    obtain ⟨-, -, -, hq, -⟩ := init_accepts_fields gFormatList t _ desc levels hacc
    refine ⟨hq, _, ?_, hs⟩
    have hM := calcMaxLevels_eq desc.Width desc.Height (by omega)
    rw [hM]
    split_ifs <;> omega

/-- C12 on the freshly constructed texture and the managed 64x64 descriptor: accepted,
with one texture-init command queued. -/
theorem C12_init_fails_iff_witness :
    ((D3DGLTexture.ctor 1).init sampleFormats (sampleDesc .MANAGED 0) 0).2.queue =
      (D3DGLTexture.ctor 1).queue ++ [.TextureInit (D3DGLTexture.ctor 1).addr] :=
  ((C12_init_fails_iff sampleFormats (D3DGLTexture.ctor 1) (sampleDesc .MANAGED 0) 0).2
    (by decide)).1

/-- C13: on a texture with `n >= 1` levels, `SetLOD` on a pool other than managed returns 0
and leaves the texture as it is (stored LOD unchanged, nothing queued); on the managed
pool it returns `c = min(lod, n - 1)`, `GetLOD` afterwards returns `c`, one LOD-update
command carrying `c` is queued when the stored LOD differed from `c` and none when it was
equal, and nothing but the stored LOD and the queue changes. -/
theorem C13_set_lod (t : D3DGLTexture) (lod : Nat) (hn : 1 ≤ t.mSurfaces.length)
    (hsize : t.mSurfaces.length < 4294967296) :
    (t.mDesc.Pool ≠ .MANAGED → t.SetLOD lod = (0, t)) ∧
    (t.mDesc.Pool = .MANAGED →
      (t.SetLOD lod).1 = min lod (t.mSurfaces.length - 1) ∧
      (t.SetLOD lod).2.GetLOD = min lod (t.mSurfaces.length - 1) ∧
      (t.mLodLevel ≠ min lod (t.mSurfaces.length - 1) →
        (t.SetLOD lod).2 =
          { t with
            mLodLevel := min lod (t.mSurfaces.length - 1)
            queue := t.queue ++
              [.TextureSetLOD t.addr (min lod (t.mSurfaces.length - 1))] }) ∧
      (t.mLodLevel = min lod (t.mSurfaces.length - 1) → (t.SetLOD lod).2 = t)) := by
  have hclamp : ulongSub (uint t.mSurfaces.length) 1 = t.mSurfaces.length - 1 := by
    unfold ulongSub uint two32
    omega
  refine ⟨fun hp => ?_, fun hp => ?_⟩
  · unfold D3DGLTexture.SetLOD
    rw [if_pos hp]
  · unfold D3DGLTexture.SetLOD
    rw [if_neg (by simp [hp])]
    simp only [hclamp]
    by_cases he : t.mLodLevel = min lod (t.mSurfaces.length - 1)
    · rw [if_pos he]
      refine ⟨rfl, rfl, fun hne => absurd he hne, fun _ => ?_⟩
      simp only
      rw [← he]
    · rw [if_neg he]
      exact ⟨rfl, rfl, fun _ => rfl, fun h => absurd h he⟩

/-- C13 on the managed 64x64 texture with seven levels: `SetLOD(9)` stores and returns 6
and queues one command. -/
theorem C13_set_lod_witness :
    (managed64.SetLOD 9).1 = min 9 (managed64.mSurfaces.length - 1) ∧
    min 9 (managed64.mSurfaces.length - 1) = 6 ∧
    (managed64.SetLOD 9).2.queue = [.TextureSetLOD 1 6] :=
  ⟨((C13_set_lod managed64 9 (by decide) (by decide)).2 (by decide)).1, by decide, by decide⟩

/-- C14: for a level at or beyond the level count, `GetLevelDesc`, `GetSurfaceLevel`,
`LockRect` and `UnlockRect` return the invalid-call error, store nothing through their
out-pointers and return the texture as it was (lock states, reference counts, dirty-region
bound, in-flight counter and queued commands included). -/
theorem C14_level_out_of_range (t : D3DGLTexture) (level : Nat)
    (hlevel : t.GetLevelCount ≤ level) (out : D3DSURFACE_DESC) (rect : Option RECT)
    (flags : Nat) :
    t.GetLevelDesc level out = (.D3DERR_INVALIDCALL, out) ∧
    t.GetSurfaceLevel level = (.D3DERR_INVALIDCALL, t, none) ∧
    t.LockRect level rect flags = .returned .D3DERR_INVALIDCALL t none ∧
    t.UnlockRect level = (.D3DERR_INVALIDCALL, t) := by
  have hnone : t.mSurfaces[level]? = none := List.getElem?_eq_none hlevel
  refine ⟨?_, ?_, ?_, ?_⟩
  · unfold D3DGLTexture.GetLevelDesc; rw [hnone]
  · unfold D3DGLTexture.GetSurfaceLevel; rw [hnone]
  · unfold D3DGLTexture.LockRect; rw [hnone]
  · unfold D3DGLTexture.UnlockRect; rw [hnone]

/-- C14 on the managed 64x64 texture (seven levels) at level 7. -/
theorem C14_level_out_of_range_witness :
    managed64.LockRect 7 none 0 = .returned .D3DERR_INVALIDCALL managed64 none ∧
    managed64.UnlockRect 7 = (.D3DERR_INVALIDCALL, managed64) :=
  let h := C14_level_out_of_range managed64 7 (by decide) (sampleDesc .DEFAULT 0) none 0
  ⟨h.2.2.1, h.2.2.2⟩

/-- C15 as stated fails: on a freshly constructed texture, `init` rejects the
render-target descriptor in the managed pool, yet the stored descriptor now holds that
descriptor and the format pointer, null before the call, points into the format table. -/
theorem C15_rejected_init_changes_texture :
    ((D3DGLTexture.ctor 1).init sampleFormats rejectedDesc 0).1 = false ∧
    (D3DGLTexture.ctor 1).mGLFormat = none ∧
    ((D3DGLTexture.ctor 1).init sampleFormats rejectedDesc 0).2.mGLFormat =
      sampleFormats D3DFMT_A8R8G8B8 ∧
    sampleFormats D3DFMT_A8R8G8B8 ≠ none ∧
    ((D3DGLTexture.ctor 1).init sampleFormats rejectedDesc 0).2.mDesc = rejectedDesc ∧
    (D3DGLTexture.ctor 1).mDesc ≠ rejectedDesc ∧
    ((D3DGLTexture.ctor 1).init sampleFormats rejectedDesc 0).2 ≠ D3DGLTexture.ctor 1 := by
  decide

/-- C15 as amended: when `init` rejects a descriptor, no surface is allocated, no command
is queued and every member other than the stored descriptor and the format pointer keeps
its value; the stored descriptor holds the rejected descriptor, and the format pointer
keeps its value when the width or height is 0 or the format is not in the table, and
points to the table entry of the format otherwise. -/
theorem C15_rejected_init_amended (gFormatList : Nat → Option GLFormatInfo)
    (t : D3DGLTexture) (desc : D3DSURFACE_DESC) (levels : Nat)
    (hrej : (t.init gFormatList desc levels).1 = false) :
    (t.init gFormatList desc levels).2 =
      { t with
        mDesc := desc
        mGLFormat :=
          if desc.Width = 0 ∨ desc.Height = 0 ∨ gFormatList desc.Format = none then t.mGLFormat
          else gFormatList desc.Format } ∧
    (t.init gFormatList desc levels).2.mSurfaces = t.mSurfaces ∧
    (t.init gFormatList desc levels).2.queue = t.queue ∧
    (t.init gFormatList desc levels).2.mUpdateInProgress = t.mUpdateInProgress := by
  rcases init_rejects_state gFormatList t desc levels hrej with ⟨hc, he⟩ | ⟨hc, he⟩
  · rw [he, if_pos hc]
    exact ⟨rfl, rfl, rfl, rfl⟩
  · rw [he, if_neg hc]
    exact ⟨rfl, rfl, rfl, rfl⟩

/-- C15 as amended, on the freshly constructed texture and the rejected descriptor. -/
theorem C15_rejected_init_amended_witness :
    ((D3DGLTexture.ctor 1).init sampleFormats rejectedDesc 0).2.mSurfaces = [] ∧
    ((D3DGLTexture.ctor 1).init sampleFormats rejectedDesc 0).2.queue = [] :=
  let h := C15_rejected_init_amended sampleFormats (D3DGLTexture.ctor 1) rejectedDesc 0
    (by decide)
  ⟨h.2.1, h.2.2.1⟩

/-- C16: a `LockRect` call that returns success read the in-flight counter as zero. With
the counter nonzero, a call that passes the checks and wins the Unlocked -> locked
transition stays in the wait loop holding the lock; the waiting thread stays there for as
long as the counter is nonzero and completes only in a state whose counter is zero. The
counter is 1 after the constructor and an accepted `init`, so no lock succeeds before the
texture-init command has run. -/
theorem C16_lock_waits_for_counter (self : D3DGLTextureSurface) (parent : D3DGLTexture)
    (rect : Option RECT) (flags : Nat) :
    (∀ self1 parent1 lr, self.LockRect parent rect flags = .returned .D3D_OK self1 parent1 lr →
      parent.mUpdateInProgress = 0) ∧
    (parent.mUpdateInProgress ≠ 0 → parent.lockable → lockArgsOk rect flags →
      self.mLock = .LT_Unlocked →
      self.LockRect parent rect flags =
        .spinning { self with mLock := lockTypeFor flags } parent
          (effectiveRect self parent rect) flags
          (max 1 (parent.mDesc.Width >>> self.mLevel))) ∧
    (∀ (p : D3DGLTexture) (r : RECT) (w : Nat), p.mUpdateInProgress ≠ 0 →
      self.lockResume p r flags w = .spinning self p r flags w) ∧
    (∀ (p : D3DGLTexture) (r : RECT) (w : Nat) hr self1 p1 lr,
      self.lockResume p r flags w = .returned hr self1 p1 lr → p.mUpdateInProgress = 0) ∧
    (∀ (addr : Nat) (gFormatList : Nat → Option GLFormatInfo) (desc : D3DSURFACE_DESC)
      (levels : Nat) (t1 : D3DGLTexture),
      (D3DGLTexture.ctor addr).init gFormatList desc levels = (true, t1) →
      t1.mUpdateInProgress = 1 ∧
      ∀ level r f t2 lr, t1.LockRect level r f ≠ .returned .D3D_OK t2 lr) := by
  refine ⟨fun self1 parent1 lr h => ?_, fun hc hl ha hu => ?_, fun p r w hc => ?_,
    fun p r w hr self1 p1 lr h => ?_, fun addr g desc levels t1 hacc => ?_⟩
  · exact (LockRect_ok_facts self self1 parent parent1 rect flags lr h).2.2.2.1
  · unfold D3DGLTextureSurface.LockRect
    rw [if_neg hl]
    simp only
    rw [if_neg ha.1, if_neg ha.2, if_neg (by simp [hu])]
    unfold D3DGLTextureSurface.lockResume
    rw [if_pos hc]
    rfl
  · unfold D3DGLTextureSurface.lockResume
    rw [if_pos hc]
  · unfold D3DGLTextureSurface.lockResume at h
    by_cases hc : p.mUpdateInProgress ≠ 0
    · rw [if_pos hc] at h; cases h
    · exact not_not.mp hc
  · obtain ⟨-, -, -, -, hcnt, -⟩ := init_accepts_fields g _ t1 desc levels hacc
    have h1 : t1.mUpdateInProgress = 1 := hcnt
    refine ⟨h1, fun level r f t2 lr hlock => ?_⟩
    obtain ⟨s, s1, p1, -, hsl, -⟩ := TexLockRect_ok_inv t1 t2 level r f lr hlock
    have h0 := (LockRect_ok_facts s s1 t1 p1 r f lr hsl).2.2.2.1
    rw [h1] at h0
    cases h0

/-- C16 on the 64x64 texture between `init` and the execution of its creation command:
the lock call stays in the wait loop. -/
theorem C16_lock_waits_for_counter_witness :
    ((D3DGLTexture.ctor 1).init sampleFormats (sampleDesc .MANAGED 0) 0).2.mUpdateInProgress
      = 1 ∧
    (D3DGLTextureSurface.ctor 0).LockRect
        ((D3DGLTexture.ctor 1).init sampleFormats (sampleDesc .MANAGED 0) 0).2 none 0 =
      .spinning { D3DGLTextureSurface.ctor 0 with mLock := lockTypeFor 0 }
        ((D3DGLTexture.ctor 1).init sampleFormats (sampleDesc .MANAGED 0) 0).2
        (effectiveRect (D3DGLTextureSurface.ctor 0)
          ((D3DGLTexture.ctor 1).init sampleFormats (sampleDesc .MANAGED 0) 0).2 none) 0
        (max 1 (((D3DGLTexture.ctor 1).init sampleFormats (sampleDesc .MANAGED 0) 0).2.mDesc.Width
          >>> (D3DGLTextureSurface.ctor 0).mLevel)) :=
  let h := C16_lock_waits_for_counter (D3DGLTextureSurface.ctor 0)
    ((D3DGLTexture.ctor 1).init sampleFormats (sampleDesc .MANAGED 0) 0).2 none 0
  ⟨(h.2.2.2.2 1 sampleFormats (sampleDesc .MANAGED 0) 0 _ rfl).1,
    h.2.1 (by decide) (by decide) (by decide) rfl⟩

/-- C17: after a successful `LockRect` on a surface of level `k` with effective region `r`
(the whole level when no region is given), the recorded lock region is `r`; when neither
the no-dirty-update nor the read-only flag is set the dirty-region bound is the
component-wise min/max merge of the previous bound with `r` shifted left by `k`, and when
either flag is set the bound is unchanged. The shift is the 32-bit `LONG` shift, equal to
`x * 2^k` whenever that value is a `LONG`. -/
theorem C17_lock_updates_dirty_region (self self1 : D3DGLTextureSurface)
    (parent parent1 : D3DGLTexture) (rect : Option RECT) (flags : Nat)
    (lr : Option D3DLOCKED_RECT)
    (hlock : self.LockRect parent rect flags = .returned .D3D_OK self1 parent1 lr) :
    self1.mLockRegion = effectiveRect self parent rect ∧
    (rect = none → effectiveRect self parent rect =
      ⟨0, 0, toLONG (max 1 (parent.mDesc.Width >>> self.mLevel) : Nat),
        toLONG (max 1 (parent.mDesc.Height >>> self.mLevel) : Nat)⟩) ∧
    (∀ r, rect = some r → effectiveRect self parent rect = r) ∧
    (flags &&& D3DLOCK_NO_DIRTY_UPDATE = 0 ∧ flags &&& D3DLOCK_READONLY = 0 →
      parent1.mDirtyRect =
        { left := min parent.mDirtyRect.left
            (toLONG ((effectiveRect self parent rect).left * 2 ^ self.mLevel))
          top := min parent.mDirtyRect.top
            (toLONG ((effectiveRect self parent rect).top * 2 ^ self.mLevel))
          right := max parent.mDirtyRect.right
            (toLONG ((effectiveRect self parent rect).right * 2 ^ self.mLevel))
          bottom := max parent.mDirtyRect.bottom
            (toLONG ((effectiveRect self parent rect).bottom * 2 ^ self.mLevel)) }) ∧
    (flags &&& D3DLOCK_NO_DIRTY_UPDATE ≠ 0 ∨ flags &&& D3DLOCK_READONLY ≠ 0 →
      parent1.mDirtyRect = parent.mDirtyRect) ∧
    (∀ x : Int, LONG_MIN ≤ x * 2 ^ self.mLevel → x * 2 ^ self.mLevel ≤ LONG_MAX →
      toLONG (x * 2 ^ self.mLevel) = x * 2 ^ self.mLevel) := by
  obtain ⟨fmt, -, -, hreg, -, hdirty⟩ :=
    LockRect_ok_result self self1 parent parent1 rect flags lr hlock
  refine ⟨hreg, fun h => by rw [h]; rfl, fun r h => by rw [h]; rfl, fun hf => ?_, fun hf => ?_,
    fun x h1 h2 => toLONG_of_inRange _ h1 h2⟩
  · rw [hdirty, if_pos ((flags_or_eq_zero _ _ _).mpr hf)]
    rfl
  · rw [hdirty, if_neg]
    intro h0
    have := (flags_or_eq_zero _ _ _).mp h0
    rcases hf with h | h
    · exact h this.1
    · exact h this.2

/-- C17 on level 1 of the system-memory 64x64 texture, region (4,2,16,8), no flags: the
lock region is recorded and the bound becomes (8,4,32,16). -/
theorem C17_lock_updates_dirty_region_witness :
    (sysmem64Level1.LockRect sysmem64 (some ⟨4, 2, 16, 8⟩) 0).lockedRect ≠ none ∧
    ((sysmem64Level1.LockRect sysmem64 (some ⟨4, 2, 16, 8⟩) 0).texture sysmem64).mDirtyRect =
      ⟨8, 4, 32, 16⟩ ∧
    ((sysmem64Level1.LockRect sysmem64 (some ⟨4, 2, 16, 8⟩) 0).surface sysmem64Level1).mLockRegion
      = effectiveRect sysmem64Level1 sysmem64 (some ⟨4, 2, 16, 8⟩) :=
  ⟨by decide, by decide,
    (C17_lock_updates_dirty_region sysmem64Level1
      ((sysmem64Level1.LockRect sysmem64 (some ⟨4, 2, 16, 8⟩) 0).surface sysmem64Level1)
      sysmem64
      ((sysmem64Level1.LockRect sysmem64 (some ⟨4, 2, 16, 8⟩) 0).texture sysmem64)
      (some ⟨4, 2, 16, 8⟩) 0
      (sysmem64Level1.LockRect sysmem64 (some ⟨4, 2, 16, 8⟩) 0).lockedRect (by decide)).1⟩

/-- C18: `UnlockRect` on a surface in state ReadOnly or Full returns success, queues
exactly one upload command for the surface's level and recorded lock region, and adds 1
to the in-flight counter (a 32-bit increment). With a scratch buffer the command carries
that buffer with the delete flag set and the surface's scratch pointer becomes null, so
the next lock of a texture without persistent store allocates a fresh buffer; without one
the command carries the persistent store plus the surface's data offset with the delete
flag clear. Nothing else changes apart from the lock state. -/
theorem C18_unlock_queues_upload (self : D3DGLTextureSurface) (parent : D3DGLTexture)
    (hlocked : self.mLock = .LT_ReadOnly ∨ self.mLock = .LT_Full) :
    (self.mScratchMem ≠ GLptr.nullptr →
      self.UnlockRect parent =
        (.D3D_OK,
         { self with mScratchMem := GLptr.nullptr, mLock := .LT_Unlocked },
         { parent with
           mUpdateInProgress := ulongInc parent.mUpdateInProgress
           queue := parent.queue ++
             [.TextureLoadLevel parent.addr self.mLevel self.mLockRegion self.mScratchMem
               true] })) ∧
    (self.mScratchMem = GLptr.nullptr →
      self.UnlockRect parent =
        (.D3D_OK,
         { self with mLock := .LT_Unlocked },
         { parent with
           mUpdateInProgress := ulongInc parent.mUpdateInProgress
           queue := parent.queue ++
             [.TextureLoadLevel parent.addr self.mLevel self.mLockRegion
               (parent.mUserPtr.add self.mDataOffset) false] })) ∧
    (parent.mUpdateInProgress + 1 < 4294967296 →
      ulongInc parent.mUpdateInProgress = parent.mUpdateInProgress + 1) ∧
    (self.UnlockRect parent).2.1.mScratchMem = GLptr.nullptr ∧
    (∀ (p : D3DGLTexture) (r : RECT) (f w : Nat), p.mUserPtr = GLptr.nullptr →
      p.mGLFormat ≠ none →
      ∃ s1 p1 lr, (self.UnlockRect parent).2.1.lockAfterWait p r f w =
          .returned .D3D_OK s1 p1 (some lr) ∧
        s1.mScratchMem = ⟨.scratch p.allocs, 0⟩ ∧ p1.allocs = p.allocs + 1 ∧
        lr.pBits.base = .scratch p.allocs) := by
  have hne : self.mLock ≠ .LT_Unlocked := by
    rcases hlocked with h | h <;> rw [h] <;> simp
  have hs : (self.UnlockRect parent).2.1.mScratchMem = GLptr.nullptr := by
    unfold D3DGLTextureSurface.UnlockRect
    rw [if_neg hne]
    by_cases h : self.mScratchMem ≠ GLptr.nullptr
    · rw [if_pos h]
    · rw [if_neg h]
      exact not_not.mp h
  refine ⟨fun hs => ?_, fun hs => ?_, fun hlt => ?_, hs, fun p r f w hp hf => ?_⟩
  · unfold D3DGLTextureSurface.UnlockRect
    rw [if_neg hne, if_pos hs]
    rfl
  · unfold D3DGLTextureSurface.UnlockRect
    rw [if_neg hne, if_neg (by simp [hs])]
    rfl
  · unfold ulongInc two32
    exact Nat.mod_eq_of_lt hlt
  · obtain ⟨fmt, hfmt⟩ := Option.ne_none_iff_exists'.mp hf
    obtain ⟨s1, p1, he, -, -, -, k4, k5, -⟩ :=
      lockAfterWait_result (self.UnlockRect parent).2.1 p r f w fmt hfmt
    rw [if_neg (by simp [hp]), if_pos hs] at k4 k5
    refine ⟨s1, p1, _, he, k4, k5, ?_⟩
    simp only [lockBase, GLptr.add]
    rw [if_neg (by simp [hp]), if_pos hs]

/-- C18 on level 0 of the managed 64x64 texture, locked with a scratch buffer. -/
theorem C18_unlock_queues_upload_witness :
    managed64LockedLevel0.UnlockRect managed64Locked =
      (.D3D_OK,
       { managed64LockedLevel0 with mScratchMem := GLptr.nullptr, mLock := .LT_Unlocked },
       { managed64Locked with
         mUpdateInProgress := ulongInc managed64Locked.mUpdateInProgress
         queue := managed64Locked.queue ++
           [.TextureLoadLevel managed64Locked.addr managed64LockedLevel0.mLevel
             managed64LockedLevel0.mLockRegion managed64LockedLevel0.mScratchMem true] }) ∧
    managed64LockedLevel0.mScratchMem = ⟨.scratch 0, 0⟩ ∧
    ulongInc managed64Locked.mUpdateInProgress = 1 :=
  ⟨(C18_unlock_queues_upload managed64LockedLevel0 managed64Locked (by decide)).1 (by decide),
    by decide, by decide⟩

/-- The pointer and pitch of every successful `LockRect`, for all inputs: after a
successful `LockRect` on a surface of level `k`, with `w = max(1, W >> k)`,
`b` the format's bytes per texel or block and `(left, top)` the origin of the effective
region, the pointer handed out is the level's base (persistent store plus data offset, or
the scratch buffer) plus the byte offset, and the pitch is as follows. Uncompressed: offset
`(top*w + left)*b` and pitch `w*b`. Compressed: offset
`((top div 4)*ceil(w/4) + (left div 4))*b` and pitch `ceil(w/4)*b`. The code computes the
offset in 32-bit unsigned arithmetic, so it is the stated value modulo `2^32`, and the
stated value itself whenever that is non-negative and below `2^32`; the pitch is the stated
value whenever it is below `2^31`. -/
theorem lock_pointer_and_pitch_mod32 (self self1 : D3DGLTextureSurface)
    (parent parent1 : D3DGLTexture) (rect : Option RECT) (flags : Nat)
    (lr : Option D3DLOCKED_RECT)
    (hlock : self.LockRect parent rect flags = .returned .D3D_OK self1 parent1 lr)
    (hw : parent.mDesc.Width + 3 < 4294967296) :
    ∃ (fmt : GLFormatInfo) (off : Nat) (pitch : Int),
      parent.mGLFormat = some fmt ∧
      lr = some { Pitch := pitch, pBits := (lockBase self parent).add off } ∧
      (parent.mUserPtr ≠ GLptr.nullptr →
        lockBase self parent = parent.mUserPtr.add self.mDataOffset) ∧
      (parent.mUserPtr = GLptr.nullptr → lockBase self parent = self1.mScratchMem) ∧
      (parent.mIsCompressed = false →
        (off : Int) =
          (((effectiveRect self parent rect).top * (max 1 (parent.mDesc.Width >>> self.mLevel) : Nat)
            + (effectiveRect self parent rect).left) * fmt.bytesperpixel) % 4294967296 ∧
        (max 1 (parent.mDesc.Width >>> self.mLevel) * fmt.bytesperpixel < 2147483648 →
          pitch = (max 1 (parent.mDesc.Width >>> self.mLevel) * fmt.bytesperpixel : Nat))) ∧
      (parent.mIsCompressed = true →
        (off : Int) =
          (((effectiveRect self parent rect).top.tdiv 4 *
              (((max 1 (parent.mDesc.Width >>> self.mLevel)) + 3) / 4 : Nat)
            + (effectiveRect self parent rect).left.tdiv 4) * fmt.bytesperpixel) % 4294967296 ∧
        (((max 1 (parent.mDesc.Width >>> self.mLevel)) + 3) / 4 * fmt.bytesperpixel < 2147483648 →
          pitch =
            ((((max 1 (parent.mDesc.Width >>> self.mLevel)) + 3) / 4 * fmt.bytesperpixel : Nat)))) ∧
      ∀ x : Int, 0 ≤ x → x < 4294967296 → x % 4294967296 = x := by
  obtain ⟨fmt, hfmt, hlr, -, hscr, -⟩ :=
    LockRect_ok_result self self1 parent parent1 rect flags lr hlock
  have hwl : max 1 (parent.mDesc.Width >>> self.mLevel) + 3 < 4294967296 := by
    have : parent.mDesc.Width >>> self.mLevel ≤ parent.mDesc.Width := by
      rw [Nat.shiftRight_eq_div_pow]
      exact Nat.div_le_self _ _
    omega
  refine ⟨fmt, _, _, hfmt, hlr, fun hu => ?_, fun hu => ?_, fun hc => ?_, fun hc => ?_,
    fun x h0 h1 => Int.emod_eq_of_lt h0 h1⟩
  · unfold lockBase
    rw [if_pos hu]
  · have hn : ¬ parent.mUserPtr ≠ GLptr.nullptr := by simp [hu]
    unfold lockBase
    rw [hscr]
    simp only [if_neg hn]
  · rw [hc]
    refine ⟨lockOffset_uncompressed _ _ _, fun hp => ?_⟩
    simp only [lockOffsetPitch, Bool.false_eq_true, if_false]
    exact toLONG_of_lt _ hp
  · rw [hc]
    refine ⟨lockOffset_compressed _ _ _ hwl, fun hp => ?_⟩
    simp only [lockOffsetPitch, if_true]
    have hu : uint (max 1 (parent.mDesc.Width >>> self.mLevel) + 3) =
        max 1 (parent.mDesc.Width >>> self.mLevel) + 3 := by
      unfold uint two32
      exact Nat.mod_eq_of_lt hwl
    rw [hu]
    exact toLONG_of_lt _ hp

/-- C19 (as stated, fails): level 0 of the 64x64 system-memory texture with 4-byte texels
(`w = 64`, base at the start of the store). `LockRect` with the region origin (-1, -1)
returns success; the claim's offset is `((-1)*64 + (-1))*4 = -260`, but the code converts
the coordinates to unsigned and computes in 32 bits, and hands out the base plus
4294967036. -/
theorem C19_negative_origin_wraps :
    sysmem64.mSurfaces[0]? = some level0Of64 ∧
    lockBase level0Of64 sysmem64 = ⟨.userMem, 0⟩ ∧
    level0Of64.LockRect sysmem64 (some ⟨-1, -1, 1, 1⟩) 0 =
      .returned .D3D_OK
        ((level0Of64.LockRect sysmem64 (some ⟨-1, -1, 1, 1⟩) 0).surface level0Of64)
        ((level0Of64.LockRect sysmem64 (some ⟨-1, -1, 1, 1⟩) 0).texture sysmem64)
        (some { Pitch := 256, pBits := ⟨.userMem, 4294967036⟩ }) ∧
    (sysmem64.LockRect 0 (some ⟨-1, -1, 1, 1⟩) 0).lockedRect =
      some { Pitch := 256, pBits := ⟨.userMem, 4294967036⟩ } ∧
    specLockOffset sysmem64.mIsCompressed (levelDim sysmem64.mDesc.Width 0) 4 (-1) (-1) = -260 := by
  decide

/-- C19 (amended): for every successful `LockRect` on level `k` of a `W` x `H` texture
whose effective region has an origin with `left >= 0` and `top >= 0`, with
`w = max(1, W >> k)` and `b` the format's bytes per texel or block, such that the offset
of the formula is below 2^32 and the pitch of the formula is below 2^31 (and `W + 3 < 2^32`
for a compressed texture): the returned pointer is the level's base (persistent store plus
the surface's data offset, or the scratch buffer) plus `(top*w + left)*b` with pitch `w*b`
for uncompressed formats, and plus `((top div 4)*ceil(w/4) + (left div 4))*b` with pitch
`ceil(w/4)*b` for compressed formats. -/
theorem C19_lock_pointer_and_pitch_amended (self self1 : D3DGLTextureSurface)
    (parent parent1 : D3DGLTexture) (rect : Option RECT) (flags : Nat)
    (lr : Option D3DLOCKED_RECT) (fmt : GLFormatInfo)
    (hlock : self.LockRect parent rect flags = .returned .D3D_OK self1 parent1 lr)
    (hfmt : parent.mGLFormat = some fmt)
    (hw : parent.mIsCompressed = true → parent.mDesc.Width + 3 < 4294967296)
    (hleft : 0 ≤ (effectiveRect self parent rect).left)
    (htop : 0 ≤ (effectiveRect self parent rect).top)
    (hoff : specLockOffset parent.mIsCompressed (levelDim parent.mDesc.Width self.mLevel)
      fmt.bytesperpixel (effectiveRect self parent rect).left
      (effectiveRect self parent rect).top < 4294967296)
    (hpitch : specLockPitch parent.mIsCompressed (levelDim parent.mDesc.Width self.mLevel)
      fmt.bytesperpixel < 2147483648) :
    ∃ off : Nat,
      (off : Int) = specLockOffset parent.mIsCompressed
        (levelDim parent.mDesc.Width self.mLevel) fmt.bytesperpixel
        (effectiveRect self parent rect).left (effectiveRect self parent rect).top ∧
      lr = some
        { Pitch := (specLockPitch parent.mIsCompressed
            (levelDim parent.mDesc.Width self.mLevel) fmt.bytesperpixel : Nat)
          pBits := (lockBase self parent).add off } ∧
      (parent.mUserPtr ≠ GLptr.nullptr →
        lockBase self parent = parent.mUserPtr.add self.mDataOffset) ∧
      (parent.mUserPtr = GLptr.nullptr → lockBase self parent = self1.mScratchMem) := by
  obtain ⟨fmt1, hfmt1, hlr, -, hscr, -⟩ :=
    LockRect_ok_result self self1 parent parent1 rect flags lr hlock
  rw [hfmt] at hfmt1
  cases hfmt1
  have hbase1 : parent.mUserPtr ≠ GLptr.nullptr →
      lockBase self parent = parent.mUserPtr.add self.mDataOffset := by
    intro hu
    unfold lockBase
    rw [if_pos hu]
  have hbase2 : parent.mUserPtr = GLptr.nullptr → lockBase self parent = self1.mScratchMem := by
    intro hu
    have hn : ¬ parent.mUserPtr ≠ GLptr.nullptr := by simp [hu]
    unfold lockBase
    rw [hscr]
    simp only [if_neg hn]
  have hb0 : (0 : Int) ≤ (fmt.bytesperpixel : Int) := Int.ofNat_nonneg _
  refine ⟨(lockOffsetPitch parent.mIsCompressed (max 1 (parent.mDesc.Width >>> self.mLevel))
    fmt.bytesperpixel (effectiveRect self parent rect)).1, ?_, ?_, hbase1, hbase2⟩ <;>
    unfold levelDim at hoff hpitch ⊢
  · cases hcomp : parent.mIsCompressed with
    | false =>
      rw [hcomp] at hoff
      simp only [specLockOffset, Bool.false_eq_true, if_false] at hoff ⊢
      rw [lockOffset_uncompressed]
      exact Int.emod_eq_of_lt
        (mul_nonneg (add_nonneg (mul_nonneg htop (Int.ofNat_nonneg _)) hleft) hb0) hoff
    | true =>
      have hwl : max 1 (parent.mDesc.Width >>> self.mLevel) + 3 < 4294967296 := by
        have h1 := hw hcomp
        have : parent.mDesc.Width >>> self.mLevel ≤ parent.mDesc.Width := by
          rw [Nat.shiftRight_eq_div_pow]
          exact Nat.div_le_self _ _
        omega
      rw [hcomp] at hoff
      simp only [specLockOffset, if_true] at hoff ⊢
      rw [lockOffset_compressed _ _ _ hwl, Int.tdiv_eq_ediv htop (by decide),
        Int.tdiv_eq_ediv hleft (by decide)]
      exact Int.emod_eq_of_lt
        (mul_nonneg (add_nonneg (mul_nonneg (Int.ediv_nonneg htop (by decide))
          (Int.ofNat_nonneg _)) (Int.ediv_nonneg hleft (by decide))) hb0) hoff
  · rw [hlr]
    cases hcomp : parent.mIsCompressed with
    | false =>
      rw [hcomp] at hpitch
      simp only [specLockPitch, Bool.false_eq_true, if_false] at hpitch ⊢
      simp only [lockOffsetPitch, Bool.false_eq_true, if_false]
      rw [toLONG_of_lt _ hpitch]
    | true =>
      have hwl : max 1 (parent.mDesc.Width >>> self.mLevel) + 3 < 4294967296 := by
        have h1 := hw hcomp
        have : parent.mDesc.Width >>> self.mLevel ≤ parent.mDesc.Width := by
          rw [Nat.shiftRight_eq_div_pow]
          exact Nat.div_le_self _ _
        omega
      rw [hcomp] at hpitch
      simp only [specLockPitch, if_true] at hpitch ⊢
      simp only [lockOffsetPitch, if_true]
      have hu : uint (max 1 (parent.mDesc.Width >>> self.mLevel) + 3) =
          max 1 (parent.mDesc.Width >>> self.mLevel) + 3 := by
        unfold uint two32
        exact Nat.mod_eq_of_lt hwl
      rw [hu, toLONG_of_lt _ hpitch]

/-- C19 (amended) on level 1 of the system-memory 64x64 texture (32 texels wide, 4 bytes
each), region origin (4,2): offset (2*32+4)*4 = 272 past the level's base at 16384,
pitch 128. -/
theorem C19_lock_pointer_and_pitch_amended_witness :
    (sysmem64Level1.LockRect sysmem64 (some ⟨4, 2, 16, 8⟩) 0).lockedRect =
      some { Pitch := 128, pBits := ⟨.userMem, 16384 + 272⟩ } ∧
    specLockOffset sysmem64.mIsCompressed (levelDim sysmem64.mDesc.Width sysmem64Level1.mLevel)
      4 4 2 = 272 ∧
    ∃ off : Nat,
      (off : Int) = specLockOffset sysmem64.mIsCompressed
        (levelDim sysmem64.mDesc.Width sysmem64Level1.mLevel) 4 4 2 ∧
      (sysmem64Level1.LockRect sysmem64 (some ⟨4, 2, 16, 8⟩) 0).lockedRect =
        some { Pitch := (specLockPitch sysmem64.mIsCompressed
                 (levelDim sysmem64.mDesc.Width sysmem64Level1.mLevel) 4 : Nat)
               pBits := (lockBase sysmem64Level1 sysmem64).add off } :=
  ⟨by decide, by decide,
    (let ⟨off, h1, h2, _⟩ := C19_lock_pointer_and_pitch_amended sysmem64Level1
      ((sysmem64Level1.LockRect sysmem64 (some ⟨4, 2, 16, 8⟩) 0).surface sysmem64Level1)
      sysmem64
      ((sysmem64Level1.LockRect sysmem64 (some ⟨4, 2, 16, 8⟩) 0).texture sysmem64)
      (some ⟨4, 2, 16, 8⟩) 0
      (sysmem64Level1.LockRect sysmem64 (some ⟨4, 2, 16, 8⟩) 0).lockedRect
      { internalformat := 0x8058, format := 0x80E1, type := 0x8367, bytesperpixel := 4 }
      (by decide) (by decide) (by decide) (by decide) (by decide) (by decide) (by decide)
    ⟨off, h1, h2⟩)⟩

/-- C20 (fails on the code): level 2 of the 8x64 DXT1 texture is 2x16 texels, one block
wide, and its slice of the store starts at byte 320. `LockRect(2, {0,4,2,8}, 0)` hands
out the pointer 8 bytes past the level's base (block row 1, with `(w+3)/4 = 1` blocks
per row); the upload queued by the following `UnlockRect(2)` carries the level's base,
and `loadTexLevelGL` adds `((top/4)*(w/4) + left/4) * 8 = 0` to it (with `w/4 = 0`), so it
uploads from the level's base, not from where the caller wrote. -/
theorem C20_upload_reads_other_offset_than_lock :
    dxtNarrow.mSurfaces[2]? = some dxtNarrowLevel2 ∧
    lockBase dxtNarrowLevel2 dxtNarrow = ⟨.userMem, 320⟩ ∧
    (dxtNarrow.LockRect 2 (some ⟨0, 4, 2, 8⟩) 0).lockedRect =
      some { Pitch := 8, pBits := ⟨.userMem, 320 + 8⟩ } ∧
    (((dxtNarrow.LockRect 2 (some ⟨0, 4, 2, 8⟩) 0).tex dxtNarrow).UnlockRect 2).2.queue =
      [.TextureLoadLevel 1 2 ⟨0, 4, 2, 8⟩ ⟨.userMem, 320⟩ false] ∧
    ((((dxtNarrow.LockRect 2 (some ⟨0, 4, 2, 8⟩) 0).tex dxtNarrow).UnlockRect 2).2.runNext
        1).map (fun t => t.uploads.map (fun u => (u.level, u.data))) =
      some [(2, ⟨.userMem, 320 + 0⟩)] ∧
    (lockOffsetPitch true 2 8 ⟨0, 4, 2, 8⟩).1 = 8 ∧
    uint ((toUINT ((4 : Int).tdiv 4) * (2 / 4) + toUINT ((0 : Int).tdiv 4)) * 8) = 0 := by
  decide

/-! ## Facts about the layout of the backing store -/

theorem toUINT_natCast (n : Nat) : toUINT (n : Int) = n % 4294967296 := by
  unfold toUINT
  omega

theorem levelDim_pos (n i : Nat) : 1 ≤ levelDim n i := by
  unfold levelDim; omega

theorem levelDim_succ (n i : Nat) : max 1 (levelDim n i / 2) = levelDim n (i + 1) := by
  unfold levelDim
  rw [Nat.shiftRight_succ]
  omega

theorem int_shiftRight_one (a : Nat) : ((a : Int) >>> (1 : Int)) = ((a / 2 : Nat) : Int) := by
  have h := Int.shiftRight_coe_nat a 1
  rw [Nat.cast_one] at h
  rw [h, Nat.shiftRight_eq_div_pow, pow_one]

/-- One step of the `GLint` dimension of the `initGL` loop: clamp to 1, then halve. -/
theorem layout_dim_step (w : Int) (n i : Nat) (h : max 1 w = (levelDim n i : Int)) :
    max (1 : Int) ((max 1 w) >>> 1) = (levelDim n (i + 1) : Int) := by
  rw [h, int_shiftRight_one, ← levelDim_succ]
  omega

theorem specLengthSum_succ (dxt : Bool) (b W H : Nat) : ∀ (n k : Nat),
    specLengthSum dxt b W H k (n + 1) =
      specLengthSum dxt b W H k n + specLevelLength dxt b W H (k + n) := by
  intro n
  induction n with
  | zero => intro k; simp [specLengthSum]
  | succ n ih =>
    intro k
    rw [specLengthSum, ih (k + 1), specLengthSum]
    rw [show k + 1 + n = k + (n + 1) by omega]
    omega

theorem specLengthSum_mono (dxt : Bool) (b W H k : Nat) : ∀ (i j : Nat), i ≤ j →
    specLengthSum dxt b W H k i ≤ specLengthSum dxt b W H k j := by
  intro i j hij
  induction j with
  | zero =>
    have : i = 0 := by omega
    rw [this]
  | succ j ih =>
    rcases Nat.lt_or_ge i (j + 1) with h | h
    · have := ih (by omega)
      rw [specLengthSum_succ]
      omega
    · have : i = j + 1 := by omega
      rw [this]

/-- The level size `initGL` computes from the clamped `GLint` dimensions is the
specification's length reduced to 32 bits. -/
theorem layout_level_size (dxt : Bool) (b W H k : Nat) (w h : Int)
    (hw : max 1 w = (levelDim W k : Int)) (hh : max 1 h = (levelDim H k : Int)) :
    (if dxt then toUINT (((max 1 w + 3) / 4) * ((max 1 h + 3) / 4) * b)
      else toUINT (max 1 w * max 1 h * b)) = specLevelLength dxt b W H k % 4294967296 := by
  rw [hw, hh]
  unfold specLevelLength
  cases dxt with
  | true =>
    simp only [if_true]
    rw [← toUINT_natCast]
    push_cast
    rfl
  | false =>
    simp only [Bool.false_eq_true, if_false]
    rw [← toUINT_natCast]
    push_cast
    rfl

/-- The data length the `initGL` loop assigns to each surface is the specification's
length of its level, reduced to 32 bits. -/
theorem initGLLayout_lengths (dxt : Bool) (b W H : Nat) :
    ∀ (ss : List D3DGLTextureSurface) (w h : Int) (tot k : Nat),
      max 1 w = (levelDim W k : Int) → max 1 h = (levelDim H k : Int) →
      ∀ (i : Nat) (s : D3DGLTextureSurface), ss[i]? = some s →
        ∃ off, (initGLLayout dxt b ss w h tot).1[i]? =
          some (s.init off (specLevelLength dxt b W H (k + i) % 4294967296)) := by
  intro ss
  induction ss with
  | nil => intro w h tot k _ _ i s hs; simp at hs
  | cons x xs ih =>
    intro w h tot k hw hh i s hs
    cases i with
    | zero =>
      simp only [List.getElem?_cons_zero, Option.some.injEq] at hs
      subst hs
      refine ⟨tot, ?_⟩
      simp only [initGLLayout, List.getElem?_cons_zero, Nat.add_zero]
      rw [layout_level_size dxt b W H k w h hw hh]
    | succ n =>
      simp only [List.getElem?_cons_succ] at hs
      obtain ⟨off, h1⟩ := ih ((max 1 w) >>> 1) ((max 1 h) >>> 1)
        (uint (tot + (if dxt then toUINT (((max 1 w + 3) / 4) * ((max 1 h + 3) / 4) * b)
          else toUINT (max 1 w * max 1 h * b)))) (k + 1)
        (layout_dim_step w W k hw) (layout_dim_step h H k hh) n s hs
      refine ⟨off, ?_⟩
      simp only [initGLLayout, List.getElem?_cons_succ]
      rw [h1, show k + 1 + n = k + (n + 1) by omega]

/-- When the running total stays below `2^32`, the `initGL` loop lays the surfaces out
back to back with the specification's lengths, and returns their sum. -/
theorem initGLLayout_exact (dxt : Bool) (b W H : Nat) :
    ∀ (ss : List D3DGLTextureSurface) (w h : Int) (tot k : Nat),
      max 1 w = (levelDim W k : Int) → max 1 h = (levelDim H k : Int) →
      tot + specLengthSum dxt b W H k ss.length < 4294967296 →
      (initGLLayout dxt b ss w h tot).2 = tot + specLengthSum dxt b W H k ss.length ∧
      ∀ (i : Nat) (s : D3DGLTextureSurface), ss[i]? = some s →
        (initGLLayout dxt b ss w h tot).1[i]? =
          some (s.init (tot + specLengthSum dxt b W H k i) (specLevelLength dxt b W H (k + i))) := by
  intro ss
  induction ss with
  | nil =>
    intro w h tot k _ _ _
    exact ⟨by simp [initGLLayout, specLengthSum], fun i s hs => by simp at hs⟩
  | cons x xs ih =>
    intro w h tot k hw hh hb
    rw [List.length_cons, specLengthSum] at hb
    have hsize : (if dxt then toUINT (((max 1 w + 3) / 4) * ((max 1 h + 3) / 4) * b)
        else toUINT (max 1 w * max 1 h * b)) = specLevelLength dxt b W H k := by
      rw [layout_level_size dxt b W H k w h hw hh]
      exact Nat.mod_eq_of_lt (by omega)
    have htot : uint (tot + specLevelLength dxt b W H k) = tot + specLevelLength dxt b W H k := by
      unfold uint two32
      exact Nat.mod_eq_of_lt (by omega)
    obtain ⟨ih1, ih2⟩ := ih ((max 1 w) >>> 1) ((max 1 h) >>> 1)
      (tot + specLevelLength dxt b W H k) (k + 1)
      (layout_dim_step w W k hw) (layout_dim_step h H k hh) (by omega)
    refine ⟨?_, fun i s hs => ?_⟩
    · simp only [initGLLayout, hsize, htot, List.length_cons, specLengthSum]
      rw [ih1]
      omega
    · cases i with
      | zero =>
        simp only [List.getElem?_cons_zero, Option.some.injEq] at hs
        subst hs
        simp only [initGLLayout, List.getElem?_cons_zero, hsize, specLengthSum, Nat.add_zero]
      | succ n =>
        simp only [List.getElem?_cons_succ] at hs
        simp only [initGLLayout, List.getElem?_cons_succ, hsize, htot]
        rw [ih2 n s hs, specLengthSum, show k + 1 + n = k + (n + 1) by omega]
        congr 2
        omega

theorem levelDim_le (n i : Nat) : levelDim n i ≤ max 1 n := by
  unfold levelDim
  have h : n >>> i ≤ n := by
    rw [Nat.shiftRight_eq_div_pow]
    exact Nat.div_le_self n (2 ^ i)
  omega

theorem layout_dim_zero (n : Nat) (h : n < 2147483648) :
    max 1 (toLONG (n : Int)) = (levelDim n 0 : Int) := by
  rw [toLONG_of_inRange (n : Int) (by unfold LONG_MIN; omega) (by unfold LONG_MAX; omega)]
  unfold levelDim
  rw [Nat.shiftRight_zero]
  omega

/-- The surfaces, the size of the backing store and the store pointer after `initGL`, for
a texture whose format pointer is set and that has no pixel buffer object. -/
theorem initGL_layout (t t2 : D3DGLTexture) (texId : Nat) (fmt : GLFormatInfo)
    (hf : t.mGLFormat = some fmt) (hpbo : t.mPBO = 0) (hgl : t.initGL texId = some t2) :
    t2.mSurfaces = (initGLLayout (isDXT t.mDesc.Format) fmt.bytesperpixel t.mSurfaces
        (toLONG t.mDesc.Width) (toLONG t.mDesc.Height) 0).1 ∧
    t2.mDesc = t.mDesc ∧ t2.mGLFormat = t.mGLFormat ∧ t2.mIsCompressed = t.mIsCompressed ∧
    ((t.mDesc.Pool = .SYSTEMMEM ∨ t.mDesc.Usage &&& D3DUSAGE_DYNAMIC ≠ 0) →
      t2.mSysMem = (initGLLayout (isDXT t.mDesc.Format) fmt.bytesperpixel t.mSurfaces
        (toLONG t.mDesc.Width) (toLONG t.mDesc.Height) 0).2 ∧
      t2.mUserPtr = ⟨.userMem, 0⟩) := by
  unfold D3DGLTexture.initGL at hgl
  simp only [hf] at hgl
  cases hss : t.mSurfaces with
  | nil =>
    rw [hss] at hgl
    simp only [initGLLayout] at hgl ⊢
    by_cases hc : (t.mDesc.Pool = .SYSTEMMEM ∨ t.mDesc.Usage &&& D3DUSAGE_DYNAMIC ≠ 0) ∧ t.mPBO = 0
    · rw [if_pos hc] at hgl
      cases hgl
      exact ⟨rfl, rfl, hf.symm ▸ rfl, rfl, fun _ => ⟨rfl, rfl⟩⟩
    · rw [if_neg hc] at hgl
      cases hgl
      exact ⟨rfl, rfl, hf.symm ▸ rfl, rfl, fun h => absurd ⟨h, hpbo⟩ hc⟩
  | cons x xs =>
    rw [hss] at hgl
    simp only at hgl
    by_cases hc : (t.mDesc.Pool = .SYSTEMMEM ∨ t.mDesc.Usage &&& D3DUSAGE_DYNAMIC ≠ 0) ∧ t.mPBO = 0
    · rw [if_pos hc] at hgl
      cases hgl
      exact ⟨rfl, rfl, hf.symm ▸ rfl, rfl, fun _ => ⟨rfl, rfl⟩⟩
    · rw [if_neg hc] at hgl
      cases hgl
      exact ⟨rfl, rfl, hf.symm ▸ rfl, rfl, fun h => absurd ⟨h, hpbo⟩ hc⟩

/-- The layout after `initGL` whenever the sum of the level lengths fits in 32 bits: every
surface has the specification's offset and length, and the store has the size of the sum. -/
theorem initGL_exact (t t2 : D3DGLTexture) (texId : Nat) (fmt : GLFormatInfo)
    (hf : t.mGLFormat = some fmt) (hpbo : t.mPBO = 0) (hgl : t.initGL texId = some t2)
    (hW : t.mDesc.Width < 2147483648) (hH : t.mDesc.Height < 2147483648)
    (hsum : specLengthSum (isDXT t.mDesc.Format) fmt.bytesperpixel t.mDesc.Width t.mDesc.Height
      0 t.mSurfaces.length < 4294967296) :
    t2.mSurfaces.length = t.mSurfaces.length ∧
    (∀ (i : Nat) (s : D3DGLTextureSurface), t2.mSurfaces[i]? = some s →
      s.mDataOffset = specLengthSum (isDXT t.mDesc.Format) fmt.bytesperpixel t.mDesc.Width
        t.mDesc.Height 0 i ∧
      s.mDataLength = specLevelLength (isDXT t.mDesc.Format) fmt.bytesperpixel t.mDesc.Width
        t.mDesc.Height i) ∧
    ((t.mDesc.Pool = .SYSTEMMEM ∨ t.mDesc.Usage &&& D3DUSAGE_DYNAMIC ≠ 0) →
      t2.mSysMem = specLengthSum (isDXT t.mDesc.Format) fmt.bytesperpixel t.mDesc.Width
        t.mDesc.Height 0 t.mSurfaces.length ∧
      t2.mUserPtr = ⟨.userMem, 0⟩) := by
  obtain ⟨hs, -, -, -, hmem⟩ := initGL_layout t t2 texId fmt hf hpbo hgl
  obtain ⟨htot, hlay⟩ := initGLLayout_exact (isDXT t.mDesc.Format) fmt.bytesperpixel
    t.mDesc.Width t.mDesc.Height t.mSurfaces (toLONG t.mDesc.Width) (toLONG t.mDesc.Height) 0 0
    (layout_dim_zero _ hW) (layout_dim_zero _ hH) (by omega)
  refine ⟨by rw [hs, initGLLayout_length], fun i s hi => ?_, fun hp => ?_⟩
  · rw [hs] at hi
    have hlt : i < t.mSurfaces.length := by
      have := (List.getElem?_eq_some_iff.mp hi).1
      rwa [initGLLayout_length] at this
    have h0 := hlay i (t.mSurfaces.get ⟨i, hlt⟩) (List.getElem?_eq_getElem hlt)
    rw [h0] at hi
    cases hi
    simp only [D3DGLTextureSurface.init, Nat.zero_add]
    exact ⟨trivial, trivial⟩
  · obtain ⟨h1, h2⟩ := hmem hp
    rw [h1, htot, Nat.zero_add]
    exact ⟨rfl, h2⟩

theorem toUINT_of_nat_lt (x : Int) (n : Nat) (hx : x = (n : Int)) (hn : n < 4294967296) :
    toUINT x = n := by
  unfold toUINT
  omega

/-- A region origin inside a `w` x `h` level gives a lock offset below the level's length,
when that length fits in 32 bits. -/
theorem lockOffset_lt_length (dxt : Bool) (b w h : Nat) (R : RECT) (hb : 0 < b)
    (hw : w < 2147483648) (hh : h < 2147483648)
    (hl : 0 ≤ R.left ∧ R.left < w) (ht : 0 ≤ R.top ∧ R.top < h)
    (hlen : (if dxt then ((w + 3) / 4) * ((h + 3) / 4) * b else w * h * b) < 4294967296) :
    (lockOffsetPitch dxt w b R).1 <
      (if dxt then ((w + 3) / 4) * ((h + 3) / 4) * b else w * h * b) := by
  obtain ⟨l, hl1⟩ : ∃ l : Nat, R.left = l := ⟨R.left.toNat, by omega⟩
  obtain ⟨tp, ht1⟩ : ∃ tp : Nat, R.top = tp := ⟨R.top.toNat, by omega⟩
  have hlw : l < w := by omega
  have hth : tp < h := by omega
  cases dxt with
  | false =>
    simp only [Bool.false_eq_true, if_false] at hlen ⊢
    simp only [lockOffsetPitch, Bool.false_eq_true, if_false]
    rw [toUINT_of_nat_lt R.top tp ht1 (by omega), toUINT_of_nat_lt R.left l hl1 (by omega)]
    have h1 : tp * w + l < w * h := by
      calc tp * w + l < tp * w + w := by omega
        _ = (tp + 1) * w := by ring
        _ ≤ h * w := Nat.mul_le_mul_right w (by omega)
        _ = w * h := by ring
    have key : (tp * w + l) * b < w * h * b := mul_lt_mul_of_pos_right h1 hb
    unfold uint two32
    rw [Nat.mod_eq_of_lt (by omega)]
    exact key
  | true =>
    simp only [if_true] at hlen ⊢
    simp only [lockOffsetPitch, if_true]
    have e1 : R.top.tdiv 4 = ((tp / 4 : Nat) : Int) := by
      rw [Int.tdiv_eq_ediv ht.1 (by decide), ht1]; omega
    have e2 : R.left.tdiv 4 = ((l / 4 : Nat) : Int) := by
      rw [Int.tdiv_eq_ediv hl.1 (by decide), hl1]; omega
    rw [toUINT_of_nat_lt _ (tp / 4) e1 (by omega), toUINT_of_nat_lt _ (l / 4) e2 (by omega)]
    have hu : uint (w + 3) = w + 3 := by unfold uint two32; exact Nat.mod_eq_of_lt (by omega)
    rw [hu]
    have h1 : tp / 4 * ((w + 3) / 4) + l / 4 < (w + 3) / 4 * ((h + 3) / 4) := by
      calc tp / 4 * ((w + 3) / 4) + l / 4 < tp / 4 * ((w + 3) / 4) + (w + 3) / 4 := by omega
        _ = (tp / 4 + 1) * ((w + 3) / 4) := by ring
        _ ≤ ((h + 3) / 4) * ((w + 3) / 4) := Nat.mul_le_mul_right _ (by omega)
        _ = (w + 3) / 4 * ((h + 3) / 4) := by ring
    have key : (tp / 4 * ((w + 3) / 4) + l / 4) * b < (w + 3) / 4 * ((h + 3) / 4) * b :=
      mul_lt_mul_of_pos_right h1 hb
    unfold uint two32
    rw [Nat.mod_eq_of_lt (by omega)]
    exact key

/-- The lengths of a list of surfaces that carry the specification's lengths add up to
the specification's sum. -/
theorem lengths_sum (dxt : Bool) (b W H : Nat) :
    ∀ (l : List D3DGLTextureSurface) (k : Nat),
      (∀ (i : Nat) (s : D3DGLTextureSurface), l[i]? = some s →
        s.mDataLength = specLevelLength dxt b W H (k + i)) →
      (l.map D3DGLTextureSurface.mDataLength).sum = specLengthSum dxt b W H k l.length := by
  intro l
  induction l with
  | nil => intro k _; rfl
  | cons x xs ih =>
    intro k h
    rw [List.map_cons, List.sum_cons, List.length_cons, specLengthSum]
    rw [h 0 x (List.getElem?_cons_zero), Nat.add_zero, ih (k + 1) (fun i s hs => ?_)]
    rw [h (i + 1) s (by simpa using hs)]
    congr 1
    omega

/-- A texture of the default pool without the dynamic flag refuses every `LockRect`. -/
theorem LockRect_not_lockable (self : D3DGLTextureSurface) (parent : D3DGLTexture)
    (rect : Option RECT) (flags : Nat)
    (h : parent.mDesc.Pool = .DEFAULT ∧ parent.mDesc.Usage &&& D3DUSAGE_DYNAMIC = 0) :
    self.LockRect parent rect flags = .returned .D3DERR_INVALIDCALL self parent none := by
  unfold D3DGLTextureSurface.LockRect
  rw [if_pos h]

/-! ## The claims about the layout of the backing store and the default pool -/

/-- C21 (as stated, fails): level 0 of the 32768x32768 texture with 4-byte texels has the
wrapped data length 0, and the whole store has 1431655764 bytes. The region origin
(0, 32767) lies inside the level, and `LockRect` returns the store's base plus
(32767*32768 + 0)*4 = 4294836224: not below the level's data length, and past the end of
the store. -/
theorem C21_offset_past_wrapped_length :
    huge.mSurfaces[0]? = some (D3DGLTextureSurface.ctor 0) ∧
    (D3DGLTextureSurface.ctor 0).mDataLength = 0 ∧
    huge.mSysMem = 1431655764 ∧
    lockBase (D3DGLTextureSurface.ctor 0) huge = ⟨.userMem, 0⟩ ∧
    ((0 : Int) ≤ 0 ∧ (0 : Int) < levelDim 32768 0) ∧
    ((0 : Int) ≤ 32767 ∧ (32767 : Int) < levelDim 32768 0) ∧
    ((D3DGLTextureSurface.ctor 0).LockRect huge (some ⟨0, 32767, 1, 32768⟩) 0).lockedRect =
      some { Pitch := 131072, pBits := ⟨.userMem, 4294836224⟩ } ∧
    (huge.LockRect 0 (some ⟨0, 32767, 1, 32768⟩) 0).lockedRect =
      some { Pitch := 131072, pBits := ⟨.userMem, 4294836224⟩ } := by
  decide

/-- C21 (amended): take a texture whose width and height are below 2^31, with `b > 0`
bytes per texel or block, and a level `k` whose length by the formula (`w*h*b`, or
`ceil(w/4)*ceil(h/4)*b` for DXT formats, with `w = max(1, W>>k)`, `h = max(1, H>>k)`) is
below 2^32. After `initGL` the surface of level `k` has exactly that data length, and for
every lock region whose origin satisfies `0 <= left < w` and `0 <= top < h` (the whole
level when no region is given) the byte offset `LockRect` adds to the level's base is
strictly less than that length; every successful `LockRect` returns the base plus this
offset. -/
theorem C21_lock_offset_in_slice_amended (t t2 : D3DGLTexture) (texId : Nat)
    (fmt : GLFormatInfo) (k : Nat) (s : D3DGLTextureSurface) (rect : Option RECT)
    (hf : t.mGLFormat = some fmt) (hc : t.mIsCompressed = isDXT t.mDesc.Format)
    (hgl : t.initGL texId = some t2)
    (hW : t.mDesc.Width < 2147483648) (hH : t.mDesc.Height < 2147483648)
    (hb : 0 < fmt.bytesperpixel)
    (hlen : specLevelLength (isDXT t.mDesc.Format) fmt.bytesperpixel t.mDesc.Width
      t.mDesc.Height k < 4294967296)
    (hs : t2.mSurfaces[k]? = some s) (hlev : s.mLevel = k)
    (hl : 0 ≤ (effectiveRect s t2 rect).left ∧
      (effectiveRect s t2 rect).left < levelDim t.mDesc.Width k)
    (ht : 0 ≤ (effectiveRect s t2 rect).top ∧
      (effectiveRect s t2 rect).top < levelDim t.mDesc.Height k) :
    s.mDataLength = specLevelLength (isDXT t.mDesc.Format) fmt.bytesperpixel t.mDesc.Width
      t.mDesc.Height k ∧
    (lockOffsetPitch t2.mIsCompressed (levelDim t2.mDesc.Width k) fmt.bytesperpixel
      (effectiveRect s t2 rect)).1 < s.mDataLength ∧
    ∀ (flags : Nat) (s1 : D3DGLTextureSurface) (p1 : D3DGLTexture) (lr : Option D3DLOCKED_RECT),
      s.LockRect t2 rect flags = .returned .D3D_OK s1 p1 lr →
      lr.map D3DLOCKED_RECT.pBits = some ((lockBase s t2).add
        (lockOffsetPitch t2.mIsCompressed (levelDim t2.mDesc.Width k) fmt.bytesperpixel
          (effectiveRect s t2 rect)).1) := by
  obtain ⟨t3, hgl3, hdesc, hfmt, hsurf, -, -, -, hcomp, -, -⟩ := initGL_some t texId fmt hf
  rw [hgl] at hgl3
  cases hgl3
  have hlength : s.mDataLength = specLevelLength (isDXT t.mDesc.Format) fmt.bytesperpixel
      t.mDesc.Width t.mDesc.Height k := by
    rw [hsurf] at hs
    have hlt : k < t.mSurfaces.length := by
      have := (List.getElem?_eq_some_iff.mp hs).1
      rwa [initGLLayout_length] at this
    obtain ⟨off, h0⟩ := initGLLayout_lengths (isDXT t.mDesc.Format) fmt.bytesperpixel
      t.mDesc.Width t.mDesc.Height t.mSurfaces (toLONG t.mDesc.Width) (toLONG t.mDesc.Height)
      0 0 (layout_dim_zero _ hW) (layout_dim_zero _ hH) k (t.mSurfaces.get ⟨k, hlt⟩)
      (List.getElem?_eq_getElem hlt)
    rw [h0] at hs
    cases hs
    simp only [D3DGLTextureSurface.init, Nat.zero_add]
    exact Nat.mod_eq_of_lt hlen
  have hwk : levelDim t.mDesc.Width k < 2147483648 := by
    have := levelDim_le t.mDesc.Width k
    omega
  have hhk : levelDim t.mDesc.Height k < 2147483648 := by
    have := levelDim_le t.mDesc.Height k
    omega
  refine ⟨hlength, ?_, fun flags s1 p1 lr hlock => ?_⟩
  · rw [hlength, hcomp, hc, hdesc]
    unfold specLevelLength at hlen ⊢
    exact lockOffset_lt_length (isDXT t.mDesc.Format) fmt.bytesperpixel
      (levelDim t.mDesc.Width k) (levelDim t.mDesc.Height k) (effectiveRect s t2 rect) hb hwk hhk
      hl ht hlen
  · obtain ⟨fmt1, hf1, hlr, -⟩ := LockRect_ok_result s s1 t2 p1 rect flags lr hlock
    rw [hfmt, hf] at hf1
    cases hf1
    rw [hlr, hlev]
    rfl

/-- C21 (amended) on level 1 of the 64x64 system-memory texture (32x32 texels of 4 bytes,
4096 bytes long), region origin (4,2): the offset 272 is below 4096. -/
theorem C21_lock_offset_in_slice_amended_witness :
    sysmem64Level1.mDataLength = 4096 ∧
    (lockOffsetPitch sysmem64.mIsCompressed (levelDim sysmem64.mDesc.Width 1) 4
      (effectiveRect sysmem64Level1 sysmem64 (some ⟨4, 2, 16, 8⟩))).1 = 272 ∧
    (lockOffsetPitch sysmem64.mIsCompressed (levelDim sysmem64.mDesc.Width 1) 4
      (effectiveRect sysmem64Level1 sysmem64 (some ⟨4, 2, 16, 8⟩))).1 <
        sysmem64Level1.mDataLength :=
  let h := C21_lock_offset_in_slice_amended
    { ((D3DGLTexture.ctor 1).init sampleFormats (sampleDesc .SYSTEMMEM 0) 0).2 with
      queue := [] } sysmem64 1
    { internalformat := 0x8058, format := 0x80E1, type := 0x8367, bytesperpixel := 4 }
    1 sysmem64Level1 (some ⟨4, 2, 16, 8⟩)
    (by decide) (by decide) (by decide) (by decide) (by decide) (by decide) (by decide)
    (by decide) (by decide) (by decide) (by decide)
  ⟨by decide, by decide, h.2.1⟩

/-- C23 (as stated, fails): a 32768x32768 texture with 4-byte texels in the system-memory
pool is accepted by `init` and gets 16 levels. The length of level 0 is computed in 32
bits, so `initGL` assigns it 0 instead of 32768*32768*4 = 2^32, and the backing store is
resized to 1431655764 bytes although the lengths of the formula add up to 5726623060. -/
theorem C23_level_length_wraps :
    ((D3DGLTexture.ctor 1).init sampleFormats hugeDesc 0).1 = true ∧
    ((D3DGLTexture.ctor 1).init sampleFormats hugeDesc 0).2.runNext 1 = some huge ∧
    huge.mSurfaces.length = 16 ∧
    (huge.mSurfaces[0]?).map D3DGLTextureSurface.mDataLength = some 0 ∧
    specLevelLength false 4 32768 32768 0 = 4294967296 ∧
    huge.mSysMem = 1431655764 ∧
    specLengthSum false 4 32768 32768 0 16 = 5726623060 := by
  decide

/-- C23 (amended): for a texture whose width and height are below 2^31 and whose level
lengths by the formula (`max(1,W>>i) * max(1,H>>i) * b`, or
`ceil(max(1,W>>i)/4) * ceil(max(1,H>>i)/4) * b` for DXT formats) add up to less than 2^32,
`initGL` lays the slices out back to back in level order: every surface `i` has the
formula's length, surface 0 has offset 0, surface `i+1` has offset `offset(i) + length(i)`,
the slices of distinct levels are disjoint, and for a system-memory or dynamic texture the
backing store is resized to the sum of the surfaces' lengths and becomes the persistent
store. -/
theorem C23_layout_amended (t t2 : D3DGLTexture) (texId : Nat) (fmt : GLFormatInfo)
    (hf : t.mGLFormat = some fmt) (hpbo : t.mPBO = 0) (hgl : t.initGL texId = some t2)
    (hW : t.mDesc.Width < 2147483648) (hH : t.mDesc.Height < 2147483648)
    (hsum : specLengthSum (isDXT t.mDesc.Format) fmt.bytesperpixel t.mDesc.Width t.mDesc.Height
      0 t.mSurfaces.length < 4294967296) :
    t2.GetLevelCount = t.GetLevelCount ∧
    (∀ (i : Nat) (s : D3DGLTextureSurface), t2.mSurfaces[i]? = some s →
      s.mDataLength = specLevelLength (isDXT t.mDesc.Format) fmt.bytesperpixel t.mDesc.Width
        t.mDesc.Height i) ∧
    (∀ s : D3DGLTextureSurface, t2.mSurfaces[0]? = some s → s.mDataOffset = 0) ∧
    (∀ (i : Nat) (s s1 : D3DGLTextureSurface), t2.mSurfaces[i]? = some s →
      t2.mSurfaces[i + 1]? = some s1 → s1.mDataOffset = s.mDataOffset + s.mDataLength) ∧
    (∀ (i j : Nat) (s s1 : D3DGLTextureSurface), i < j → t2.mSurfaces[i]? = some s →
      t2.mSurfaces[j]? = some s1 → s.mDataOffset + s.mDataLength ≤ s1.mDataOffset) ∧
    ((t.mDesc.Pool = .SYSTEMMEM ∨ t.mDesc.Usage &&& D3DUSAGE_DYNAMIC ≠ 0) →
      t2.mSysMem = (t2.mSurfaces.map D3DGLTextureSurface.mDataLength).sum ∧
      t2.mUserPtr = ⟨.userMem, 0⟩) := by
  obtain ⟨hlen, hlay, hmem⟩ := initGL_exact t t2 texId fmt hf hpbo hgl hW hH hsum
  refine ⟨hlen, fun i s hi => (hlay i s hi).2, fun s h0 => ?_, fun i s s1 hi hi1 => ?_,
    fun i j s s1 hij hi hj => ?_, fun hp => ?_⟩
  · rw [(hlay 0 s h0).1]
    rfl
  · rw [(hlay (i + 1) s1 hi1).1, (hlay i s hi).1, (hlay i s hi).2, specLengthSum_succ,
      Nat.zero_add]
  · rw [(hlay j s1 hj).1, (hlay i s hi).1, (hlay i s hi).2]
    have h1 := specLengthSum_succ (isDXT t.mDesc.Format) fmt.bytesperpixel t.mDesc.Width
      t.mDesc.Height i 0
    rw [Nat.zero_add] at h1
    rw [← h1]
    exact specLengthSum_mono _ _ _ _ 0 (i + 1) j hij
  · obtain ⟨h1, h2⟩ := hmem hp
    refine ⟨?_, h2⟩
    rw [h1, lengths_sum (isDXT t.mDesc.Format) fmt.bytesperpixel t.mDesc.Width t.mDesc.Height
      t2.mSurfaces 0 (fun i s hi => by rw [Nat.zero_add]; exact (hlay i s hi).2), hlen]

/-- C23 (amended) on the 64x64 system-memory texture with 4-byte texels, at the moment the
consumer has taken the creation command off the queue and runs `initGL`: level 1 starts at
byte 16384 = 64*64*4, right after level 0, and the store holds 21844 bytes, the sum of the
seven level lengths. -/
theorem C23_layout_amended_witness :
    D3DGLTexture.initGL
      { ((D3DGLTexture.ctor 1).init sampleFormats (sampleDesc .SYSTEMMEM 0) 0).2 with
        queue := [] } 1 = some sysmem64 ∧
    sysmem64.GetLevelCount = 7 ∧
    (∀ (s s1 : D3DGLTextureSurface), sysmem64.mSurfaces[0]? = some s →
      sysmem64.mSurfaces[0 + 1]? = some s1 → s1.mDataOffset = s.mDataOffset + s.mDataLength) ∧
    sysmem64.mSurfaces[1]? = some sysmem64Level1 ∧
    sysmem64.mSysMem = (sysmem64.mSurfaces.map D3DGLTextureSurface.mDataLength).sum ∧
    sysmem64.mSysMem = 21844 :=
  let h := C23_layout_amended
    { ((D3DGLTexture.ctor 1).init sampleFormats (sampleDesc .SYSTEMMEM 0) 0).2 with
      queue := [] } sysmem64 1
    { internalformat := 0x8058, format := 0x80E1, type := 0x8367, bytesperpixel := 4 }
    (by decide) (by decide) (by decide) (by decide) (by decide) (by decide)
  ⟨by decide, h.1, h.2.2.2.1 0, by decide, (h.2.2.2.2.2 (Or.inl rfl)).1, by decide⟩

/-- C24: for a texture in the default pool without the dynamic usage flag, `LockRect` on
any surface, with any region, any flags and in any lock state, returns the invalid-call
error, stores nothing through the out-pointer and leaves the surface and the texture as
they were (so the lock state, the scratch buffer, the allocation count and the
dirty-region bound are unchanged); the same holds for the call through the texture. -/
theorem C24_default_pool_not_lockable (self : D3DGLTextureSurface) (parent : D3DGLTexture)
    (rect : Option RECT) (flags : Nat) (hpool : parent.mDesc.Pool = .DEFAULT)
    (hdyn : parent.mDesc.Usage &&& D3DUSAGE_DYNAMIC = 0) :
    self.LockRect parent rect flags = .returned .D3DERR_INVALIDCALL self parent none ∧
    ∀ level : Nat,
      parent.LockRect level rect flags = .returned .D3DERR_INVALIDCALL parent none := by
  refine ⟨LockRect_not_lockable self parent rect flags ⟨hpool, hdyn⟩, fun level => ?_⟩
  unfold D3DGLTexture.LockRect
  cases hs : parent.mSurfaces[level]? with
  | none => rfl
  | some s =>
    simp only
    rw [LockRect_not_lockable s parent rect flags ⟨hpool, hdyn⟩]
    simp only [LockResult.toTex, withSurface_self parent level s hs]

/-- C24 on the 64x64 texture of the default pool: a lock of level 0 without a region and a
lock of an already locked surface with a region are both refused, nothing changes. -/
theorem C24_default_pool_not_lockable_witness :
    default64.mDesc.Pool = .DEFAULT ∧
    default64.LockRect 0 none 0 = .returned .D3DERR_INVALIDCALL default64 none ∧
    fullLockedSurface.LockRect default64 (some ⟨4, 2, 16, 8⟩) D3DLOCK_READONLY =
      .returned .D3DERR_INVALIDCALL fullLockedSurface default64 none :=
  ⟨by decide,
    (C24_default_pool_not_lockable (D3DGLTextureSurface.ctor 0) default64 none 0
      (by decide) (by decide)).2 0,
    (C24_default_pool_not_lockable fullLockedSurface default64 (some ⟨4, 2, 16, 8⟩)
      D3DLOCK_READONLY (by decide) (by decide)).1⟩

/-! ## Facts about the in-flight accounting -/

theorem set_map_level (l : List D3DGLTextureSurface) (i : Nat) (s0 s1 : D3DGLTextureSurface)
    (h : l[i]? = some s0) (hl : s1.mLevel = s0.mLevel) :
    (l.set i s1).map D3DGLTextureSurface.mLevel = l.map D3DGLTextureSurface.mLevel := by
  rw [List.map_set]
  apply list_set_getElem?_self
  rw [List.getElem?_map, h, hl]
  rfl

theorem levelsInOrder_getElem? (t : D3DGLTexture) (h : t.levelsInOrder) (i : Nat)
    (s : D3DGLTextureSurface) (hs : t.mSurfaces[i]? = some s) :
    s.mLevel = i ∧ i < t.mSurfaces.length := by
  have hlt : i < t.mSurfaces.length := (List.getElem?_eq_some_iff.mp hs).1
  unfold D3DGLTexture.levelsInOrder at h
  have h1 : (t.mSurfaces.map D3DGLTextureSurface.mLevel)[i]? = some s.mLevel := by
    rw [List.getElem?_map, hs]; rfl
  rw [h, List.getElem?_range hlt] at h1
  exact ⟨(Option.some.inj h1).symm, hlt⟩

/-- What `LockRect` on a surface leaves behind, however the call ends, when the format
pointer is set: the level of the surface and the address, format pointer, queue, counter
and surface list of the texture are untouched, and there is no fault. -/
theorem surface_LockRect_frame (s : D3DGLTextureSurface) (t : D3DGLTexture)
    (rect : Option RECT) (flags level : Nat) (fmt : GLFormatInfo)
    (hf : t.mGLFormat = some fmt) :
    ∃ (s1 : D3DGLTextureSurface) (t1 : D3DGLTexture), ((s.LockRect t rect flags).toTex level).state = some (t1.withSurface level s1) ∧
      s1.mLevel = s.mLevel ∧ t1.addr = t.addr ∧ t1.mGLFormat = t.mGLFormat ∧
      t1.queue = t.queue ∧ t1.mUpdateInProgress = t.mUpdateInProgress ∧
      t1.mSurfaces = t.mSurfaces := by
  unfold D3DGLTextureSurface.LockRect
  by_cases h1 : t.mDesc.Pool = .DEFAULT ∧ t.mDesc.Usage &&& D3DUSAGE_DYNAMIC = 0
  · rw [if_pos h1]; exact ⟨s, t, rfl, rfl, rfl, rfl, rfl, rfl, rfl⟩
  rw [if_neg h1]
  simp only
  by_cases h2 : flags &&& D3DLOCK_DISCARD ≠ 0 ∧ flags &&& D3DLOCK_READONLY ≠ 0
  · rw [if_pos h2]; exact ⟨s, t, rfl, rfl, rfl, rfl, rfl, rfl, rfl⟩
  rw [if_neg h2]
  by_cases h3 : flags &&& D3DLOCK_DISCARD ≠ 0 ∧ rect.isSome
  · rw [if_pos h3]; exact ⟨s, t, rfl, rfl, rfl, rfl, rfl, rfl, rfl⟩
  rw [if_neg h3]
  by_cases h4 : s.mLock ≠ .LT_Unlocked
  · rw [if_pos h4]; exact ⟨s, t, rfl, rfl, rfl, rfl, rfl, rfl, rfl⟩
  rw [if_neg h4]
  unfold D3DGLTextureSurface.lockResume
  by_cases h5 : t.mUpdateInProgress ≠ 0
  · rw [if_pos h5]; exact ⟨_, t, rfl, rfl, rfl, rfl, rfl, rfl, rfl⟩
  rw [if_neg h5]
  obtain ⟨s1, t1, lr, hr, -, -, k1, -, k2, k3, k4, k5, k6⟩ :=
    lockAfterWait_ok { s with mLock := lockTypeFor flags } t
      (rect.getD ⟨0, 0, toLONG (max 1 (t.mDesc.Width >>> s.mLevel) : Nat),
        toLONG (max 1 (t.mDesc.Height >>> s.mLevel) : Nat)⟩) flags
      (max 1 (t.mDesc.Width >>> s.mLevel)) fmt hf
  rw [hr]
  exact ⟨s1, t1, rfl, k1, k6, k2, k5, k3, k4⟩

theorem surface_lockResume_frame (s : D3DGLTextureSurface) (t : D3DGLTexture)
    (rect : RECT) (flags w level : Nat) (fmt : GLFormatInfo)
    (hf : t.mGLFormat = some fmt) :
    ∃ (s1 : D3DGLTextureSurface) (t1 : D3DGLTexture), ((s.lockResume t rect flags w).toTex level).state =
        some (t1.withSurface level s1) ∧
      s1.mLevel = s.mLevel ∧ t1.addr = t.addr ∧ t1.mGLFormat = t.mGLFormat ∧
      t1.queue = t.queue ∧ t1.mUpdateInProgress = t.mUpdateInProgress ∧
      t1.mSurfaces = t.mSurfaces := by
  unfold D3DGLTextureSurface.lockResume
  by_cases h5 : t.mUpdateInProgress ≠ 0
  · rw [if_pos h5]; exact ⟨s, t, rfl, rfl, rfl, rfl, rfl, rfl, rfl⟩
  rw [if_neg h5]
  obtain ⟨s1, t1, lr, hr, -, -, k1, -, k2, k3, k4, k5, k6⟩ :=
    lockAfterWait_ok s t rect flags w fmt hf
  rw [hr]
  exact ⟨s1, t1, rfl, k1, k6, k2, k5, k3, k4⟩

/-- What a call by an application thread, or a waiting thread reading the counter again,
does to the accounting: the address, the format pointer and the levels of the surfaces
stay; the queue and the counter stay, or a command that is neither an upload nor a
creation command of this texture is appended and the counter stays, or (only in
`UnlockRect`) an upload command of this texture for an existing level is appended and the
counter is incremented. No such step faults. -/
theorem app_step_effect (t : D3DGLTexture) (op : TexOp) (hf : t.mGLFormat ≠ none)
    (hlo : t.levelsInOrder) (hok : op.levelOk t.mSurfaces.length = true)
    (hnr : ∀ texId, op ≠ .run texId) :
    ∃ t1 : D3DGLTexture, t.step op = some t1 ∧ t1.addr = t.addr ∧ t1.mGLFormat = t.mGLFormat ∧
      t1.mSurfaces.map D3DGLTextureSurface.mLevel = t.mSurfaces.map D3DGLTextureSurface.mLevel ∧
      ((t1.queue = t.queue ∧ t1.mUpdateInProgress = t.mUpdateInProgress) ∨
       (∃ c : Command, t1.queue = t.queue ++ [c] ∧ c.isUploadOf t.addr = false ∧
          c.isInitOf t.addr = false ∧ t1.mUpdateInProgress = t.mUpdateInProgress) ∨
       (op.beforeInit = false ∧ ∃ (lvl : Nat) (r : RECT) (p : GLptr) (d : Bool),
          lvl < t.mSurfaces.length ∧
          t1.queue = t.queue ++ [.TextureLoadLevel t.addr lvl r p d] ∧
          t1.mUpdateInProgress = ulongInc t.mUpdateInProgress)) := by
  obtain ⟨fmt, hfmt⟩ := Option.ne_none_iff_exists'.mp hf
  cases op with
  | LockRect level rect flags =>
    simp only [D3DGLTexture.step, D3DGLTexture.LockRect]
    cases hs : t.mSurfaces[level]? with
    | none => exact ⟨t, rfl, rfl, rfl, rfl, Or.inl ⟨rfl, rfl⟩⟩
    | some s =>
      obtain ⟨s1, t1, h0, k1, k2, k3, k4, k5, k6⟩ :=
        surface_LockRect_frame s t rect flags level fmt hfmt
      refine ⟨t1.withSurface level s1, h0, k2, k3, ?_, Or.inl ⟨k4, k5⟩⟩
      simp only [D3DGLTexture.withSurface]
      rw [k6]
      exact set_map_level _ _ s s1 hs k1
  | lockResume level rect flags w =>
    simp only [TexOp.levelOk, decide_eq_true_eq] at hok
    simp only [D3DGLTexture.step, D3DGLTexture.lockResume]
    rw [List.getElem?_eq_getElem hok]
    obtain ⟨s1, t1, h0, k1, k2, k3, k4, k5, k6⟩ :=
      surface_lockResume_frame (t.mSurfaces.get ⟨level, hok⟩) t rect flags w level fmt hfmt
    refine ⟨t1.withSurface level s1, h0, k2, k3, ?_, Or.inl ⟨k4, k5⟩⟩
    simp only [D3DGLTexture.withSurface]
    rw [k6]
    exact set_map_level _ _ _ s1 (List.getElem?_eq_getElem hok) k1
  | UnlockRect level =>
    simp only [D3DGLTexture.step, D3DGLTexture.UnlockRect]
    cases hs : t.mSurfaces[level]? with
    | none => exact ⟨t, rfl, rfl, rfl, rfl, Or.inl ⟨rfl, rfl⟩⟩
    | some s =>
      obtain ⟨hlv, hlt⟩ := levelsInOrder_getElem? t hlo level s hs
      simp only [D3DGLTextureSurface.UnlockRect]
      by_cases hu : s.mLock = .LT_Unlocked
      · rw [if_pos hu]
        refine ⟨_, rfl, rfl, rfl, ?_, Or.inl ⟨rfl, rfl⟩⟩
        exact set_map_level _ _ s s hs rfl
      · rw [if_neg hu]
        by_cases hsc : s.mScratchMem ≠ GLptr.nullptr
        · rw [if_pos hsc]
          refine ⟨_, rfl, rfl, rfl, ?_, Or.inr (Or.inr ⟨rfl, level, s.mLockRegion,
            s.mScratchMem, true, hlt, ?_, rfl⟩)⟩
          · exact set_map_level _ _ s _ hs rfl
          · simp only [D3DGLTexture.withSurface, D3DGLTexture.updateTexture, D3DGLTexture.send,
              hlv]
        · rw [if_neg hsc]
          refine ⟨_, rfl, rfl, rfl, ?_, Or.inr (Or.inr ⟨rfl, level, s.mLockRegion,
            t.mUserPtr.add s.mDataOffset, false, hlt, ?_, rfl⟩)⟩
          · exact set_map_level _ _ s _ hs rfl
          · simp only [D3DGLTexture.withSurface, D3DGLTexture.updateTexture, D3DGLTexture.send,
              hlv]
  | AddDirtyRect rect => exact ⟨_, rfl, rfl, rfl, rfl, Or.inl ⟨rfl, rfl⟩⟩
  | SetLOD lod =>
    simp only [D3DGLTexture.step, D3DGLTexture.SetLOD]
    by_cases hp : t.mDesc.Pool ≠ .MANAGED
    · rw [if_pos hp]; exact ⟨_, rfl, rfl, rfl, rfl, Or.inl ⟨rfl, rfl⟩⟩
    · rw [if_neg hp]
      by_cases hl : t.mLodLevel = min lod (ulongSub (uint t.mSurfaces.length) 1)
      · rw [if_pos hl]; exact ⟨_, rfl, rfl, rfl, rfl, Or.inl ⟨rfl, rfl⟩⟩
      · rw [if_neg hl]
        exact ⟨_, rfl, rfl, rfl, rfl, Or.inr (Or.inl ⟨_, rfl, rfl, rfl, rfl⟩)⟩
  | GenerateMipSubLevels =>
    exact ⟨_, rfl, rfl, rfl, rfl, Or.inr (Or.inl ⟨_, rfl, rfl, rfl, rfl⟩)⟩
  | GetSurfaceLevel level =>
    simp only [D3DGLTexture.step, D3DGLTexture.GetSurfaceLevel]
    cases hs : t.mSurfaces[level]? with
    | none => exact ⟨t, rfl, rfl, rfl, rfl, Or.inl ⟨rfl, rfl⟩⟩
    | some s =>
      simp only [D3DGLTextureSurface.AddRef, D3DGLTexture.withSurface]
      by_cases h1 : ulongInc s.mRefCount = 1
      · rw [if_pos h1]
        exact ⟨_, rfl, rfl, rfl, set_map_level _ _ s _ hs rfl, Or.inl ⟨rfl, rfl⟩⟩
      · rw [if_neg h1]
        exact ⟨_, rfl, rfl, rfl, set_map_level _ _ s _ hs rfl, Or.inl ⟨rfl, rfl⟩⟩
  | run texId => exact absurd rfl (hnr texId)

theorem levelBelow_of_not_upload (addr n : Nat) (c : Command)
    (h : c.isUploadOf addr = false) : c.levelBelow addr n = true := by
  cases c <;> simp_all [Command.isUploadOf, Command.levelBelow]

theorem all_levelBelow_of_no_upload (addr n : Nat) (q : List Command)
    (h : q.countP (Command.isUploadOf addr) = 0) :
    q.all (Command.levelBelow addr n) = true := by
  rw [List.all_eq_true]
  intro c hc
  apply levelBelow_of_not_upload
  rw [List.countP_eq_zero] at h
  simpa using h c hc

theorem levelsInOrder_of_map (t t1 : D3DGLTexture) (h : t.levelsInOrder)
    (hm : t1.mSurfaces.map D3DGLTextureSurface.mLevel =
      t.mSurfaces.map D3DGLTextureSurface.mLevel) :
    t1.levelsInOrder ∧ t1.mSurfaces.length = t.mSurfaces.length := by
  have hl : t1.mSurfaces.length = t.mSurfaces.length := by
    have := congrArg List.length hm
    simpa using this
  unfold D3DGLTexture.levelsInOrder at h ⊢
  exact ⟨by rw [hm, h, hl], hl⟩

/-- The steps an application can complete before the creation command runs keep the
texture in the state `awaitingInit`. -/
theorem step_awaiting (t : D3DGLTexture) (op : TexOp) (h : t.awaitingInit)
    (hpre : op.beforeInit = true) (hok : op.levelOk t.mSurfaces.length = true) :
    ∃ t1 : D3DGLTexture, t.step op = some t1 ∧ t1.awaitingInit ∧
      t1.mSurfaces.length = t.mSurfaces.length := by
  obtain ⟨hf, hlo, rest, hq, hu, hi⟩ := h
  have hnr : ∀ texId, op ≠ .run texId := by
    intro texId he
    rw [he] at hpre
    cases hpre
  obtain ⟨t1, hs, ha, hfm, hm, heff⟩ := app_step_effect t op hf hlo hok hnr
  obtain ⟨hlo1, hlen⟩ := levelsInOrder_of_map t t1 hlo hm
  refine ⟨t1, hs, ⟨by rw [hfm]; exact hf, hlo1, ?_⟩, hlen⟩
  rcases heff with ⟨hq1, -⟩ | ⟨c, hq1, hc1, hc2, -⟩ | ⟨hb, -⟩
  · exact ⟨rest, by rw [hq1, hq, ha], by rw [ha]; exact hu, by rw [ha]; exact hi⟩
  · refine ⟨rest ++ [c], by rw [hq1, hq, ha]; rfl, ?_, ?_⟩
    · rw [ha, List.countP_append, hu]
      simp [List.countP_cons, hc1]
    · rw [ha, List.countP_append, hi]
      simp [List.countP_cons, hc2]
  · rw [hpre] at hb
    cases hb

theorem ulongInc_of_lt (n : Nat) (h : n + 1 < 4294967296) : ulongInc n = n + 1 := by
  unfold ulongInc two32
  exact Nat.mod_eq_of_lt h

theorem ulongDec_succ (n : Nat) (h : n + 1 < 4294967296) : ulongDec (n + 1) = n := by
  unfold ulongDec ulongSub two32
  omega

/-- A call by an application thread keeps the accounting invariant, and adds at most one
pending upload. -/
theorem app_step_accounted (t : D3DGLTexture) (op : TexOp) (h : t.accounted)
    (hok : op.levelOk t.mSurfaces.length = true) (hnr : ∀ texId, op ≠ .run texId)
    (hb : t.pendingUploads + 1 < 4294967296) :
    ∃ t1 : D3DGLTexture, t.step op = some t1 ∧ t1.accounted ∧
      t1.pendingUploads ≤ t.pendingUploads + 1 ∧
      t1.mSurfaces.length = t.mSurfaces.length := by
  obtain ⟨hf, hlo, hi, hall, hcnt⟩ := h
  obtain ⟨t1, hs, ha, hfm, hm, heff⟩ := app_step_effect t op hf hlo hok hnr
  obtain ⟨hlo1, hlen⟩ := levelsInOrder_of_map t t1 hlo hm
  unfold D3DGLTexture.pendingInits at hi
  unfold D3DGLTexture.pendingUploads at hcnt hb
  refine ⟨t1, hs, ?_, ?_, hlen⟩
  · refine ⟨by rw [hfm]; exact hf, hlo1, ?_, ?_, ?_⟩
    · unfold D3DGLTexture.pendingInits
      rcases heff with ⟨hq1, -⟩ | ⟨c, hq1, hc1, hc2, -⟩ | ⟨-, lvl, r, p, d, hlt, hq1, -⟩
      · rw [hq1, ha]; exact hi
      · rw [hq1, ha, List.countP_append, hi]
        simp [List.countP_cons, hc2]
      · rw [hq1, ha, List.countP_append, hi]
        simp [List.countP_cons, Command.isInitOf]
    · rcases heff with ⟨hq1, -⟩ | ⟨c, hq1, hc1, hc2, -⟩ | ⟨-, lvl, r, p, d, hlt, hq1, -⟩
      · rw [hq1, ha, hlen]; exact hall
      · rw [hq1, ha, hlen, List.all_append, hall]
        simp [levelBelow_of_not_upload _ _ c hc1]
      · rw [hq1, ha, hlen, List.all_append, hall]
        simp [Command.levelBelow, hlt]
    · unfold D3DGLTexture.pendingUploads
      rcases heff with ⟨hq1, hc⟩ | ⟨c, hq1, hc1, hc2, hc⟩ | ⟨-, lvl, r, p, d, hlt, hq1, hc⟩
      · rw [hq1, ha, hc]; exact hcnt
      · rw [hq1, ha, hc, List.countP_append, hcnt]
        simp [List.countP_cons, hc1]
      · rw [hq1, ha, hc, List.countP_append, hcnt, ulongInc_of_lt _ hb]
        simp [List.countP_cons, Command.isUploadOf]
  · unfold D3DGLTexture.pendingUploads
    rcases heff with ⟨hq1, -⟩ | ⟨c, hq1, hc1, hc2, -⟩ | ⟨-, lvl, r, p, d, hlt, hq1, -⟩
    · rw [hq1, ha]; omega
    · rw [hq1, ha, List.countP_append]
      simp [List.countP_cons, hc1]
    · rw [hq1, ha, List.countP_append]
      simp [List.countP_cons, Command.isUploadOf]

theorem initGLLayout_levels (dxt : Bool) (b : Nat) :
    ∀ (ss : List D3DGLTextureSurface) (w h : Int) (tot : Nat),
      (initGLLayout dxt b ss w h tot).1.map D3DGLTextureSurface.mLevel =
        ss.map D3DGLTextureSurface.mLevel := by
  intro ss
  induction ss with
  | nil => intro w h tot; rfl
  | cons x xs ih =>
    intro w h tot
    simp only [initGLLayout, List.map_cons, ih]
    rfl

/-- What `loadTexLevelGL` does to the accounting when the level exists and the format
pointer is set: the counter is decremented, the rest stays. -/
theorem loadTexLevelGL_frame (t : D3DGLTexture) (level : Nat) (rect : RECT) (dataPtr : GLptr)
    (deletePtr : Bool) (hl : level < t.mSurfaces.length) (hf : t.mGLFormat ≠ none) :
    ∃ t1, t.loadTexLevelGL level rect dataPtr deletePtr = some t1 ∧
      t1.mUpdateInProgress = ulongDec t.mUpdateInProgress ∧ t1.mSurfaces = t.mSurfaces ∧
      t1.mGLFormat = t.mGLFormat ∧ t1.addr = t.addr ∧ t1.queue = t.queue := by
  obtain ⟨fmt, hfmt⟩ := Option.ne_none_iff_exists'.mp hf
  unfold D3DGLTexture.loadTexLevelGL
  rw [List.getElem?_eq_getElem hl, hfmt]
  simp only
  refine ⟨_, rfl, ?_, ?_, ?_, ?_, ?_⟩ <;> (split_ifs <;> rfl)

/-- The consumer executing the creation command of a texture in state `awaitingInit`
sets the counter to zero with no upload pending, and establishes the invariant. -/
theorem run_awaiting (t : D3DGLTexture) (texId : Nat) (h : t.awaitingInit) :
    ∃ t0 : D3DGLTexture, t.step (.run texId) = some t0 ∧ t0.accounted ∧
      t0.mUpdateInProgress = 0 ∧ t0.pendingUploads = 0 ∧
      t0.mSurfaces.length = t.mSurfaces.length := by
  obtain ⟨hf, hlo, rest, hq, hu, hi⟩ := h
  obtain ⟨fmt, hfmt⟩ := Option.ne_none_iff_exists'.mp hf
  obtain ⟨t0, h0, -, k2, k3, k4, k5, k6, -⟩ :=
    initGL_some { t with queue := rest } texId fmt hfmt
  have hm : t0.mSurfaces.map D3DGLTextureSurface.mLevel =
      t.mSurfaces.map D3DGLTextureSurface.mLevel := by
    rw [k3]
    exact initGLLayout_levels _ _ _ _ _ _
  obtain ⟨hlo0, hlen⟩ := levelsInOrder_of_map t t0 hlo hm
  have ha : t0.addr = t.addr := k6
  have hq0 : t0.queue = rest := k5
  have hp0 : t0.pendingUploads = 0 := by
    unfold D3DGLTexture.pendingUploads
    rw [hq0, ha]; exact hu
  refine ⟨t0, ?_, ⟨?_, hlo0, ?_, ?_, ?_⟩, k4, hp0, hlen⟩
  · simp only [D3DGLTexture.step, D3DGLTexture.runNext, hq, D3DGLTexture.execute, if_true]
    exact h0
  · rw [k2]; exact hf
  · unfold D3DGLTexture.pendingInits
    rw [hq0, ha]; exact hi
  · rw [hq0, ha]
    exact all_levelBelow_of_no_upload _ _ _ hu
  · rw [k4, hp0]

/-- The consumer executing the oldest queued command keeps the accounting invariant: an
upload command of this texture decrements the counter from a value of at least 1, every
other command leaves the counter alone. The step does not fault. -/
theorem run_accounted (t : D3DGLTexture) (texId : Nat) (h : t.accounted)
    (hb : t.pendingUploads < 4294967296) :
    ∃ t1 : D3DGLTexture, t.step (.run texId) = some t1 ∧ t1.accounted ∧
      t1.pendingUploads ≤ t.pendingUploads ∧
      t1.mSurfaces.length = t.mSurfaces.length := by
  obtain ⟨hf, hlo, hi, hall, hcnt⟩ := h
  unfold D3DGLTexture.pendingInits at hi
  unfold D3DGLTexture.pendingUploads at hcnt hb
  simp only [D3DGLTexture.step, D3DGLTexture.runNext]
  cases hq : t.queue with
  | nil =>
    refine ⟨t, rfl, ⟨hf, hlo, ?_, hall, ?_⟩, Nat.le_refl _, rfl⟩
    · unfold D3DGLTexture.pendingInits; exact hi
    · unfold D3DGLTexture.pendingUploads; exact hcnt
  | cons c rest =>
    rw [hq, List.countP_cons] at hi hcnt hb
    rw [hq, List.all_cons, Bool.and_eq_true] at hall
    have hi0 : rest.countP (Command.isInitOf t.addr) = 0 := by omega
    have hci : c.isInitOf t.addr = false := by
      cases hc : c.isInitOf t.addr with
      | false => rfl
      | true => rw [hc] at hi; simp at hi
    have keep : ∀ t1 : D3DGLTexture, t1.addr = t.addr → t1.mGLFormat = t.mGLFormat →
        t1.mSurfaces = t.mSurfaces → t1.queue = rest →
        t1.mUpdateInProgress = rest.countP (Command.isUploadOf t.addr) →
        t1.accounted ∧ t1.pendingUploads ≤ (c :: rest).countP (Command.isUploadOf t.addr) ∧
          t1.mSurfaces.length = t.mSurfaces.length := by
      intro t1 ha hfm hs hq1 hc1
      refine ⟨⟨by rw [hfm]; exact hf, ?_, ?_, ?_, ?_⟩, ?_, by rw [hs]⟩
      · unfold D3DGLTexture.levelsInOrder at hlo ⊢
        rw [hs]; exact hlo
      · unfold D3DGLTexture.pendingInits
        rw [hq1, ha]; exact hi0
      · rw [hq1, ha, hs]; exact hall.2
      · unfold D3DGLTexture.pendingUploads
        rw [hq1, ha]; exact hc1
      · unfold D3DGLTexture.pendingUploads
        rw [hq1, ha, List.countP_cons]
        omega
    unfold D3DGLTexture.pendingUploads
    rw [hq]
    have same : c.isUploadOf t.addr = false →
        ({ t with queue := rest } : D3DGLTexture).mUpdateInProgress =
          rest.countP (Command.isUploadOf t.addr) := by
      intro hcu
      rw [hcu] at hcnt
      simpa using hcnt
    cases c with
    | NoOp => exact ⟨_, rfl, keep _ rfl rfl rfl rfl (same rfl)⟩
    | Skip n => exact ⟨_, rfl, keep _ rfl rfl rfl rfl (same rfl)⟩
    | TextureInit tgt =>
      have hne : tgt ≠ t.addr := by
        simpa [Command.isInitOf] using hci
      simp only [D3DGLTexture.execute, if_neg hne]
      exact ⟨_, rfl, keep _ rfl rfl rfl rfl (same rfl)⟩
    | TextureDeinit tgt fin =>
      simp only [D3DGLTexture.execute]
      by_cases he : tgt = t.addr
      · rw [if_pos he]
        exact ⟨_, rfl, keep _ rfl rfl rfl rfl (same rfl)⟩
      · rw [if_neg he]
        exact ⟨_, rfl, keep _ rfl rfl rfl rfl (same rfl)⟩
    | TextureSetLOD tgt lod => exact ⟨_, rfl, keep _ rfl rfl rfl rfl (same rfl)⟩
    | TextureGenMip tgt => exact ⟨_, rfl, keep _ rfl rfl rfl rfl (same rfl)⟩
    | TextureLoadLevel tgt lvl r p d =>
      simp only [D3DGLTexture.execute]
      by_cases he : tgt = t.addr
      · rw [if_pos he]
        have hlt : lvl < t.mSurfaces.length := by
          have := hall.1
          simp only [Command.levelBelow, decide_eq_true_eq] at this
          exact this he
        obtain ⟨t1, h1, k1, k2, k3, k4, k5⟩ :=
          loadTexLevelGL_frame { t with queue := rest } lvl r p d hlt hf
        refine ⟨t1, h1, keep t1 k4 k3 k2 k5 ?_⟩
        rw [k1]
        have hu : (Command.TextureLoadLevel tgt lvl r p d).isUploadOf t.addr = true := by
          simp [Command.isUploadOf, he]
        rw [hu] at hcnt hb
        simp only [if_true] at hcnt hb
        show ulongDec t.mUpdateInProgress = _
        rw [hcnt]
        exact ulongDec_succ _ hb
      · rw [if_neg he]
        have hu : (Command.TextureLoadLevel tgt lvl r p d).isUploadOf t.addr = false := by
          simp [Command.isUploadOf, he]
        exact ⟨_, rfl, keep _ rfl rfl rfl rfl (same hu)⟩

theorem steps_append (ops1 ops2 : List TexOp) :
    ∀ (t t1 : D3DGLTexture), t.steps ops1 = some t1 →
      t.steps (ops1 ++ ops2) = t1.steps ops2 := by
  induction ops1 with
  | nil =>
    intro t t1 h
    simp only [D3DGLTexture.steps, Option.some.injEq] at h
    rw [List.nil_append, h]
  | cons op ops ih =>
    intro t t1 h
    simp only [List.cons_append, D3DGLTexture.steps] at h ⊢
    cases hs : t.step op with
    | none => rw [hs] at h; cases h
    | some t2 =>
      rw [hs] at h
      exact ih t2 t1 h

/-- Any sequence of steps an application can complete before the creation command runs
keeps the texture in the state `awaitingInit`. -/
theorem steps_awaiting (n : Nat) : ∀ (ops : List TexOp) (t : D3DGLTexture), t.awaitingInit →
    t.mSurfaces.length = n →
    (∀ op ∈ ops, op.beforeInit = true ∧ op.levelOk n = true) →
    ∃ t1 : D3DGLTexture, t.steps ops = some t1 ∧ t1.awaitingInit ∧ t1.mSurfaces.length = n := by
  intro ops
  induction ops with
  | nil => intro t h hn _; exact ⟨t, rfl, h, hn⟩
  | cons op ops ih =>
    intro t h hn hall
    obtain ⟨hpre, hok⟩ := hall op (List.mem_cons_self _ _)
    obtain ⟨t1, hs, h1, hl1⟩ := step_awaiting t op h hpre (by rw [hn]; exact hok)
    obtain ⟨t2, hs2, h2, hl2⟩ := ih t1 h1 (by rw [hl1, hn])
      (fun o ho => hall o (List.mem_cons_of_mem _ ho))
    exact ⟨t2, by simp only [D3DGLTexture.steps, hs]; exact hs2, h2, hl2⟩

/-- Any sequence of steps keeps the accounting invariant, as long as the counter cannot
wrap. -/
theorem steps_accounted (n : Nat) : ∀ (ops : List TexOp) (t : D3DGLTexture), t.accounted →
    t.mSurfaces.length = n → (∀ op ∈ ops, op.levelOk n = true) →
    t.pendingUploads + ops.length < 4294967296 →
    ∃ t1 : D3DGLTexture, t.steps ops = some t1 ∧ t1.accounted ∧ t1.mSurfaces.length = n := by
  intro ops
  induction ops with
  | nil => intro t h hn _ _; exact ⟨t, rfl, h, hn⟩
  | cons op ops ih =>
    intro t h hn hall hb
    rw [List.length_cons] at hb
    have hok := hall op (List.mem_cons_self _ _)
    have hstep : ∃ t1 : D3DGLTexture, t.step op = some t1 ∧ t1.accounted ∧
        t1.pendingUploads ≤ t.pendingUploads + 1 ∧ t1.mSurfaces.length = t.mSurfaces.length := by
      by_cases hr : ∃ texId, op = .run texId
      · obtain ⟨texId, he⟩ := hr
        rw [he]
        obtain ⟨t1, k1, k2, k3, k4⟩ := run_accounted t texId h (by omega)
        exact ⟨t1, k1, k2, by omega, k4⟩
      · exact app_step_accounted t op h (by rw [hn]; exact hok)
          (fun texId he => hr ⟨texId, he⟩) (by omega)
    obtain ⟨t1, hs, h1, hp1, hl1⟩ := hstep
    obtain ⟨t2, hs2, h2, hl2⟩ := ih t1 h1 (by rw [hl1, hn])
      (fun o ho => hall o (List.mem_cons_of_mem _ ho)) (by omega)
    exact ⟨t2, by simp only [D3DGLTexture.steps, hs]; exact hs2, h2, hl2⟩

/-- A texture right after the constructor and an accepted `init` is in the state
`awaitingInit`. -/
theorem created_awaiting (addr : Nat) (gFormatList : Nat → Option GLFormatInfo)
    (desc : D3DSURFACE_DESC) (levels : Nat) (t1 : D3DGLTexture)
    (hacc : (D3DGLTexture.ctor addr).init gFormatList desc levels = (true, t1)) :
    t1.awaitingInit := by
  obtain ⟨-, hfmt, hne, hq, -, ha, -⟩ := init_accepts_fields gFormatList _ t1 desc levels hacc
  obtain ⟨-, -, -, hs⟩ := init_accepts_inv gFormatList _ t1 desc levels hacc
  refine ⟨by rw [hfmt]; exact hne, ?_, [], ?_, rfl, rfl⟩
  · unfold D3DGLTexture.levelsInOrder
    rw [hs]
    simp only [D3DGLTexture.ctor, List.nil_append, List.map_map, List.length_map,
      List.length_range]
    exact List.map_id _
  · rw [hq, ha]
    rfl

/-! ## The claim about the in-flight accounting -/

/-- C22 (as stated, fails): the 64x64 managed texture after an accepted `init`, with the
creation command still queued and the counter at 1. One thread calls `LockRect(0)`: it
wins the Unlocked -> Full transition and stays in the wait loop. A second thread calls
`UnlockRect(0)`: the surface is not Unlocked, so the call succeeds, `updateTexture`
increments the counter to 2 and queues an upload. The consumer executes the creation
command and `initGL` sets the counter to 0 while that upload is still queued: counter 0,
one upload pending. The consumer executes the upload and the decrement wraps the 32-bit
counter to 4294967295 with no upload pending. (The region and the pointer that upload
carries come from members not assigned yet; the two counts do not depend on them.) -/
theorem C22_unlock_before_init_breaks_accounting :
    (D3DGLTexture.ctor 1).init sampleFormats (sampleDesc .MANAGED 0) 0 = (true, created64) ∧
    created64.mUpdateInProgress = 1 ∧ created64.queue = [.TextureInit 1] ∧
    created64.LockRect 0 none 0 =
      .spinning (created64.withSurface 0 { D3DGLTextureSurface.ctor 0 with mLock := .LT_Full })
        0 ⟨0, 0, 64, 64⟩ 0 64 ∧
    (created64.steps [.LockRect 0 none 0]).map (fun t => (t.UnlockRect 0).1) = some .D3D_OK ∧
    (created64.steps [.LockRect 0 none 0, .UnlockRect 0]).map
      (fun t => (t.mUpdateInProgress, t.pendingUploads)) = some (2, 1) ∧
    (created64.steps [.LockRect 0 none 0, .UnlockRect 0, .run 1]).map
      (fun t => (t.mUpdateInProgress, t.pendingUploads)) = some (0, 1) ∧
    (created64.steps [.LockRect 0 none 0, .UnlockRect 0, .run 1, .run 1]).map
      (fun t => (t.mUpdateInProgress, t.pendingUploads)) = some (4294967295, 0) := by
  decide

/-- C22 (amended): take a texture after the constructor and an accepted `init`, let the
application complete any calls other than `UnlockRect` while the creation command is
queued (`pre`), let the consumer execute the creation command, and let any operations
follow (`post`: application calls including `UnlockRect`, waiting lock calls resuming, the
consumer executing queued commands; fewer than 2^32 of them, so that the 32-bit counter
cannot wrap). Then no step faults, the counter is 0 with no upload pending right after
the creation command has executed, and after the last operation the counter equals the
number of upload commands of the texture that are queued and not yet executed. Moreover
`updateTexture` adds exactly 1 to both the counter and the number of pending uploads. -/
theorem C22_counter_matches_pending_amended (addr : Nat)
    (gFormatList : Nat → Option GLFormatInfo) (desc : D3DSURFACE_DESC) (levels : Nat)
    (t1 : D3DGLTexture) (texId : Nat) (pre post : List TexOp)
    (hacc : (D3DGLTexture.ctor addr).init gFormatList desc levels = (true, t1))
    (hpre : ∀ op ∈ pre, op.beforeInit = true ∧ op.levelOk t1.GetLevelCount = true)
    (hpost : ∀ op ∈ post, op.levelOk t1.GetLevelCount = true)
    (hbound : post.length < 4294967296) :
    (∃ t0 t2 : D3DGLTexture,
      t1.steps (pre ++ [.run texId]) = some t0 ∧
      t0.mUpdateInProgress = 0 ∧ t0.pendingUploads = 0 ∧
      t1.steps (pre ++ .run texId :: post) = some t2 ∧
      t2.mUpdateInProgress = t2.pendingUploads) ∧
    (∀ (t : D3DGLTexture) (level : Nat) (rect : RECT) (dataPtr : GLptr) (deletePtr : Bool),
      t.mUpdateInProgress + 1 < 4294967296 →
      (t.updateTexture level rect dataPtr deletePtr).mUpdateInProgress =
        t.mUpdateInProgress + 1 ∧
      (t.updateTexture level rect dataPtr deletePtr).pendingUploads = t.pendingUploads + 1) := by
  refine ⟨?_, fun t level rect dataPtr deletePtr hlt => ?_⟩
  · have haw := created_awaiting addr gFormatList desc levels t1 hacc
    obtain ⟨ta, hsa, hawa, hla⟩ := steps_awaiting t1.GetLevelCount pre t1 haw rfl hpre
    obtain ⟨t0, hs0, hacc0, hc0, hp0, hl0⟩ := run_awaiting ta texId hawa
    obtain ⟨t2, hs2, hacc2, -⟩ := steps_accounted t1.GetLevelCount post t0 hacc0
      (by rw [hl0, hla]) hpost (by rw [hp0]; omega)
    refine ⟨t0, t2, ?_, hc0, hp0, ?_, hacc2.2.2.2.2⟩
    · rw [steps_append pre _ t1 ta hsa]
      simp only [D3DGLTexture.steps, hs0]
    · rw [steps_append pre _ t1 ta hsa]
      simp only [D3DGLTexture.steps, hs0]
      exact hs2
  · refine ⟨?_, ?_⟩
    · simp only [D3DGLTexture.updateTexture, D3DGLTexture.send]
      exact ulongInc_of_lt _ hlt
    · simp only [D3DGLTexture.pendingUploads, D3DGLTexture.updateTexture, D3DGLTexture.send,
        List.countP_append]
      simp [List.countP_cons, Command.isUploadOf]

/-- C22 (amended) on the 64x64 managed texture: before the creation command runs one
thread enters `LockRect(0)` and waits and `SetLOD(1)` queues its command; the consumer
executes the creation command; the waiting thread completes its lock, `UnlockRect(0)`
queues an upload and the consumer executes the `SetLOD` command. The counter is 1 and one
upload is pending. -/
theorem C22_counter_matches_pending_amended_witness :
    (created64.steps ([.LockRect 0 none 0, .SetLOD 1] ++ .run 1 ::
        [.lockResume 0 ⟨0, 0, 64, 64⟩ 0 64, .UnlockRect 0, .run 1])).map
      (fun t => (t.mUpdateInProgress, t.pendingUploads)) = some (1, 1) ∧
    ∃ t0 t2 : D3DGLTexture,
      created64.steps ([.LockRect 0 none 0, .SetLOD 1] ++ [.run 1]) = some t0 ∧
      t0.mUpdateInProgress = 0 ∧ t0.pendingUploads = 0 ∧
      created64.steps ([.LockRect 0 none 0, .SetLOD 1] ++ .run 1 ::
        [.lockResume 0 ⟨0, 0, 64, 64⟩ 0 64, .UnlockRect 0, .run 1]) = some t2 ∧
      t2.mUpdateInProgress = t2.pendingUploads :=
  ⟨by decide,
    (C22_counter_matches_pending_amended 1 sampleFormats (sampleDesc .MANAGED 0) 0 created64 1
      [.LockRect 0 none 0, .SetLOD 1]
      [.lockResume 0 ⟨0, 0, 64, 64⟩ 0 64, .UnlockRect 0, .run 1]
      (by decide) (by decide) (by decide) (by decide)).1⟩

end D3DGL
